import Mathlib

/-!
Certificate policy translation and validation (`pkg/policy/policyUtils.go`)

A shallow embedding of the policy utilities of vcert: the neutral
`PolicySpecification`, the TPP (managed PKI) validator and the two TPP
translators, together with theorems about them.

Conventions of the embedding.

* A Go pointer `*T` is an `Option T`; `nil` is `none`.
* A Go slice `[]T` is an `Option (List T)`: `none` is the nil slice and
  `some []` is an empty slice that is not nil.  `len` is `0` for both.
* A Go function that returns an `error`, or that can panic, returns
  `Except Fault α`.  `Fault.error` is a non-nil `error` value; the other
  constructors are run-time panics.
* Go `int` is modelled by `Int`; the only place where the machine width
  matters is the range check of `strconv.Atoi`.
-/

namespace Vcert

/-! ## Go run-time model -/

/-- The ways in which a call does not return a value normally. -/
inductive Fault where
  /-- A non-nil `error` created by `fmt.Errorf` with the given message. -/
  | error (msg : String)
  /-- The `*strconv.NumError` (`ErrSyntax` or `ErrRange`) returned by
  `strconv.Atoi` on `input`. -/
  | numError (input : String)
  /-- Panic: nil pointer dereference. -/
  | nilDereference
  /-- Panic: index out of range. -/
  | indexOutOfRange
  deriving DecidableEq, Repr

/-- A call returned a Go `error` (as opposed to a value or a panic). -/
def Fault.isError : Fault → Bool
  | .error _ => true
  | .numError _ => true
  | _ => false

/-- A call panicked. -/
def Fault.isPanic : Fault → Bool
  | .nilDereference => true
  | .indexOutOfRange => true
  | _ => false

abbrev Result (α : Type) := Except Fault α

instance instDecidableEqExcept {ε α : Type} [DecidableEq ε] [DecidableEq α] :
    DecidableEq (Except ε α)
  | .ok a, .ok b => if h : a = b then isTrue (by rw [h]) else isFalse (by intro h2; cases h2; exact h rfl)
  | .error a, .error b => if h : a = b then isTrue (by rw [h]) else isFalse (by intro h2; cases h2; exact h rfl)
  | .ok _, .error _ => isFalse (by intro h; cases h)
  | .error _, .ok _ => isFalse (by intro h; cases h)

/-- Go slice: `none` is nil, `some l` a non-nil slice with elements `l`. -/
abbrev Slice (α : Type) := Option (List α)

/-- Go `len` on a slice. -/
def len {α : Type} : Slice α → Nat
  | none => 0
  | some l => l.length

/-- Go `range` over a slice: the elements in order (none for nil). -/
def elems {α : Type} : Slice α → List α
  | none => []
  | some l => l

/-- Go `*p`. -/
def deref {α : Type} : Option α → Result α
  | some a => .ok a
  | none => .error .nilDereference

/-- Go `s[i]`. -/
def index {α : Type} (s : Slice α) (i : Nat) : Result α :=
  match (elems s).get? i with
  | some a => .ok a
  | none => .error .indexOutOfRange

/-! ## Data model -/

/-- Modelled from the spec: the type `Subject` is declared outside
`policyUtils.go`; five ordered lists of strings (§3). -/
structure Subject where
  Orgs : Slice String := none
  OrgUnits : Slice String := none
  Localities : Slice String := none
  States : Slice String := none
  Countries : Slice String := none
  deriving DecidableEq, Repr

/-- Modelled from the spec: the type `KeyPair` is declared outside
`policyUtils.go`; three lists, an optional generation type and an optional
reuse flag (§3). -/
structure KeyPair where
  KeyTypes : Slice String := none
  RsaKeySizes : Slice Int := none
  EllipticCurves : Slice String := none
  GenerationType : Option String := none
  ReuseAllowed : Option Bool := none
  deriving DecidableEq, Repr

/-- Modelled from the spec: the type `SubjectAltNames` is declared outside
`policyUtils.go`; five independent optional booleans (§3). -/
structure SubjectAltNames where
  DnsAllowed : Option Bool := none
  IpAllowed : Option Bool := none
  EmailAllowed : Option Bool := none
  UriAllowed : Option Bool := none
  UpnAllowed : Option Bool := none
  deriving DecidableEq, Repr

/-- Modelled from the spec: the type `Policy` is declared outside
`policyUtils.go`; the enforced constraints (§3). -/
structure Policy where
  Domains : Slice String := none
  WildcardAllowed : Option Bool := none
  MaxValidDays : Option Int := none
  CertificateAuthority : Option String := none
  Subject : Option Subject := none
  KeyPair : Option KeyPair := none
  SubjectAltNames : Option SubjectAltNames := none
  deriving DecidableEq, Repr

/-- Modelled from the spec: the type `DefaultSubject` is declared outside
`policyUtils.go`; single optional values plus the `OrgUnits` list (§3). -/
structure DefaultSubject where
  Org : Option String := none
  OrgUnits : Slice String := none
  Locality : Option String := none
  State : Option String := none
  Country : Option String := none
  deriving DecidableEq, Repr

/-- Modelled from the spec: the type `DefaultKeyPair` is declared outside
`policyUtils.go`; single optional values (§3). -/
structure DefaultKeyPair where
  KeyType : Option String := none
  RsaKeySize : Option Int := none
  EllipticCurve : Option String := none
  GenerationType : Option String := none
  ReuseAllowed : Option Bool := none
  deriving DecidableEq, Repr

/-- Modelled from the spec: the type `Default` is declared outside
`policyUtils.go`; the recommended values (§3). -/
structure Default where
  Subject : Option DefaultSubject := none
  KeyPair : Option DefaultKeyPair := none
  deriving DecidableEq, Repr

/-- Modelled from the spec: the type `PolicySpecification` is declared
outside `policyUtils.go`; the neutral document (§3). -/
structure PolicySpecification where
  Users : Slice String := none
  Approvers : Slice String := none
  Policy : Option Policy := none
  Default : Option Default := none
  deriving DecidableEq, Repr

/-- Modelled from the spec: the type `LockedAttribute` is declared outside
`policyUtils.go`; a pair `(value, locked)` (§3). -/
structure LockedAttribute where
  Value : String
  Locked : Bool
  deriving DecidableEq, Repr

/-- Modelled from the spec: the type `TppPolicy` is declared outside
`policyUtils.go`; the flat Backend-A document (§3). -/
structure TppPolicy where
  Contact : Slice String := none
  Approver : Slice String := none
  DomainSuffixWhitelist : Slice String := none
  ProhibitWildcard : Option Int := none
  CertificateAuthority : Option String := none
  Organization : Option LockedAttribute := none
  OrganizationalUnit : Option LockedAttribute := none
  City : Option LockedAttribute := none
  State : Option LockedAttribute := none
  Country : Option LockedAttribute := none
  KeyAlgorithm : Option LockedAttribute := none
  KeyBitStrength : Option LockedAttribute := none
  EllipticCurve : Option LockedAttribute := none
  ManualCsr : Option LockedAttribute := none
  AllowPrivateKeyReuse : Option Int := none
  WantRenewal : Option Int := none
  ProhibitedSANType : Slice String := none
  deriving DecidableEq, Repr

/-! ## Constraint tables (lines 12-15) -/

def TppKeyType : Slice String := some ["RSA", "ECDSA"]
def TppRsaKeySize : Slice Int := some [512, 1024, 2048, 3072, 4096]
def CloudRsaKeySize : Slice Int := some [1024, 2048, 4096]
def TppEllipticCurves : Slice String := some ["P256", "P384", "P521"]

/-! ## Set-membership utilities (lines 130-159) -/

/-- Lines 130-143.  The inner loop sets `match` when some supported value
equals `uv`; the outer loop returns `false` at the first unmatched value. -/
def existStringInArray (userValue : Slice String) (supportedValues : Slice String) : Bool :=
  (elems userValue).all fun uv =>
    (elems supportedValues).foldl (fun m sv => if uv = sv then true else m) false

/-- Lines 145-159. -/
def existIntInArray (userValue : Slice Int) (supportedvalues : Slice Int) : Bool :=
  (elems userValue).all fun uv =>
    (elems supportedvalues).foldl (fun m sv => if uv = sv then true else m) false

/-! ## Backend-A validator (lines 34-272) -/

/-- Lines 66-90.  The caller guarantees `ps.Policy != nil`; the first
field access `ps.Policy.Subject` dereferences it. -/
def validatePolicySubject (ps : PolicySpecification) : Result Unit := do
  let policy ← deref ps.Policy
  match policy.Subject with
  | none => pure ()
  | some subject =>
    if len subject.Orgs > 1 then
      throw (.error "attribute orgs has more than one value")
    else if len subject.OrgUnits > 1 then
      throw (.error "attribute org units has more than one value")
    else if len subject.Localities > 1 then
      throw (.error "attribute localities has more than one value")
    else if len subject.States > 1 then
      throw (.error "attribute states has more than one value")
    else if len subject.Countries > 1 then
      throw (.error "attribute countries has more than one value")
    else
      pure ()

/-- Lines 92-128. -/
def validateKeyPair (ps : PolicySpecification) : Result Unit := do
  let policy ← deref ps.Policy
  match policy.KeyPair with
  | none => pure ()
  | some keyPair =>
    if len keyPair.KeyTypes > 1 then
      throw (.error "attribute keyTypes has more than one value")
    else if len keyPair.KeyTypes > 0 ∧ ¬ existStringInArray keyPair.KeyTypes TppKeyType then
      throw (.error "specified keyTypes doesn't match with the supported ones")
    else if len keyPair.RsaKeySizes > 1 then
      throw (.error "attribute rsaKeySizes has more than one value")
    else if len keyPair.RsaKeySizes > 0 ∧ ¬ existIntInArray keyPair.RsaKeySizes TppRsaKeySize then
      throw (.error "specified rsaKeySizes doesn't match with the supported ones")
    else if len keyPair.EllipticCurves > 1 then
      throw (.error "attribute ellipticCurves has more than one value")
    else if len keyPair.EllipticCurves > 0 ∧ ¬ existStringInArray keyPair.EllipticCurves TppEllipticCurves then
      throw (.error "specified ellipticCurves doesn't match with the supported ones")
    else
      match keyPair.GenerationType with
      | some g =>
        if g ≠ "0" ∧ g ≠ "1" then
          throw (.error "specified generationType doesn't match with the supported ones")
        else pure ()
      | none => pure ()

/-- Lines 161-208.  `x != nil && x[0] != ""` indexes a slice that is not nil
but may be empty, which panics. -/
def validateDefaultSubject (ps : PolicySpecification) : Result Unit :=
  match ps.Default with
  | none => pure ()
  | some dflt =>
  match dflt.Subject with
  | none => pure ()
  | some defaultSubject =>
    if len defaultSubject.OrgUnits > 1 then
      throw (.error "attribute default org units has more than one value")
    else
    match ps.Policy with
    | none => pure ()
    | some policy =>
    match policy.Subject with
    | none => pure ()
    | some policySubject => do
      match policySubject.Orgs with
      | none => pure ()
      | some [] => throw .indexOutOfRange
      | some (o :: _) =>
        match defaultSubject.Org with
        | none => pure ()
        | some d =>
          if o ≠ "" ∧ d ≠ "" ∧ o ≠ d then
            throw (.error "policy default org doesn't match with policy's orgs value")
          else pure ()
      match policySubject.OrgUnits with
      | none => pure ()
      | some [] => throw .indexOutOfRange
      | some (o :: _) =>
        match defaultSubject.OrgUnits with
        | some (d :: _) =>
          if o ≠ "" ∧ d ≠ "" ∧ o ≠ d then
            throw (.error "policy default orgUnits doesn't match with policy's orgUnits value")
          else pure ()
        | _ => pure ()
      match policySubject.Localities with
      | none => pure ()
      | some [] => throw .indexOutOfRange
      | some (o :: _) =>
        match defaultSubject.Locality with
        | none => pure ()
        | some d =>
          if o ≠ "" ∧ d ≠ "" ∧ o ≠ d then
            throw (.error "policy default locality doesn't match with policy's localities value")
          else pure ()
      match policySubject.States with
      | none => pure ()
      | some [] => throw .indexOutOfRange
      | some (o :: _) =>
        match defaultSubject.State with
        | none => pure ()
        | some d =>
          if o ≠ "" ∧ d ≠ "" ∧ o ≠ d then
            throw (.error "policy default state doesn't match with policy's states value")
          else pure ()
      match policySubject.Countries with
      | none => pure ()
      | some [] => throw .indexOutOfRange
      | some (o :: _) =>
        match defaultSubject.Country with
        | none => pure ()
        | some d =>
          if o ≠ "" ∧ d ≠ "" ∧ o ≠ d then
            throw (.error "policy default country doesn't match with policy's countries value")
          else pure ()

/-- Lines 210-242. -/
def validateDefaultKeyPairWithPolicySubject (ps : PolicySpecification) : Result Unit :=
  match ps.Default with
  | none => pure ()
  | some dflt =>
  match dflt.KeyPair with
  | none => pure ()
  | some defaultKeyPair =>
  match ps.Policy with
  | none => pure ()
  | some policy =>
  match policy.KeyPair with
  | none => pure ()
  | some policyKeyPair => do
    match policyKeyPair.KeyTypes with
    | none => pure ()
    | some [] => throw .indexOutOfRange
    | some (o :: _) =>
      match defaultKeyPair.KeyType with
      | none => pure ()
      | some d =>
        if o ≠ "" ∧ d ≠ "" ∧ o ≠ d then
          throw (.error "policy default keyType doesn't match with policy's keyType value")
        else pure ()
    match policyKeyPair.RsaKeySizes with
    | none => pure ()
    | some [] => throw .indexOutOfRange
    | some (o :: _) =>
      match defaultKeyPair.RsaKeySize with
      | none => pure ()
      | some d =>
        if o ≠ 0 ∧ d ≠ 0 ∧ o ≠ d then
          throw (.error "policy default rsaKeySize doesn't match with policy's rsaKeySize value")
        else pure ()
    match policyKeyPair.EllipticCurves with
    | none => pure ()
    | some [] => throw .indexOutOfRange
    | some (o :: _) =>
      match defaultKeyPair.EllipticCurve with
      | none => pure ()
      | some d =>
        if o ≠ "" ∧ d ≠ "" ∧ o ≠ d then
          throw (.error "policy default ellipticCurve doesn't match with policy's ellipticCurve value")
        else pure ()
    match policyKeyPair.GenerationType, defaultKeyPair.GenerationType with
    | some o, some d =>
      if o ≠ "" ∧ d ≠ "" ∧ o ≠ d then
        throw (.error "policy default generationType doesn't match with policy's generationType value")
      else pure ()
    | _, _ => pure ()

/-- Lines 244-272.  Only `ps.Default` is tested against nil: the field
accesses on `keyPair := ps.Default.KeyPair` dereference it unguarded. -/
def validateDefaultKeyPair (ps : PolicySpecification) : Result Unit :=
  match ps.Default with
  | none => pure ()
  | some dflt => do
    let keyPair ← deref dflt.KeyPair
    match keyPair.KeyType with
    | some kt =>
      if kt ≠ "" ∧ ¬ existStringInArray (some [kt]) TppKeyType then
        throw (.error "specified default keyType doesn't match with the supported ones")
      else pure ()
    | none => pure ()
    match keyPair.RsaKeySize with
    | some sz =>
      if sz > 0 ∧ ¬ existIntInArray (some [sz]) TppRsaKeySize then
        throw (.error "specified default rsaKeySize doesn't match with the supported ones")
      else pure ()
    | none => pure ()
    match keyPair.EllipticCurve with
    | some ec =>
      if ec ≠ "" ∧ ¬ existStringInArray (some [ec]) TppEllipticCurves then
        throw (.error "specified default ellipticCurve doesn't match with the supported ones")
      else pure ()
    | none => pure ()
    match keyPair.GenerationType with
    | some g =>
      if g ≠ "" ∧ g ≠ "0" ∧ g ≠ "1" then
        throw (.error "specified default generationType doesn't match with the supported ones")
      else pure ()
    | none => pure ()

/-- Lines 34-64. -/
def ValidateTppPolicySpecification (ps : PolicySpecification) : Result Unit := do
  match ps.Policy with
  | some _ =>
    validatePolicySubject ps
    validateKeyPair ps
  | none => pure ()
  validateDefaultSubject ps
  validateDefaultKeyPairWithPolicySubject ps
  validateDefaultKeyPair ps

/-! ## Decimal conversions of the Go standard library -/

/-- The decimal digits of `n`, least significant first.  The first argument
bounds the recursion; `n + 1` is always enough. -/
def decDigits : Nat → Nat → List Nat
  | 0, _ => []
  | fuel + 1, n => if n < 10 then [n] else (n % 10) :: decDigits fuel (n / 10)

/-- The character of a decimal digit: `'0' + d`. -/
def digitChar (d : Nat) : Char := Char.ofNat (48 + d)

/-- The unsigned decimal rendering of `n`, most significant digit first. -/
def natToDecimal (n : Nat) : List Char :=
  ((decDigits (n + 1) n).reverse).map digitChar

/-- Go `strconv.Itoa`: decimal rendering with a leading `-` for negatives. -/
def Itoa (n : Int) : String :=
  if n < 0 then String.mk ('-' :: natToDecimal n.natAbs) else String.mk (natToDecimal n.natAbs)

/-- The value of a decimal digit character. -/
def digitVal (c : Char) : Option Nat :=
  if 48 ≤ c.toNat ∧ c.toNat ≤ 57 then some (c.toNat - 48) else none

/-- Reads a run of decimal digits, most significant first, onto `acc`. -/
def parseDigits : List Char → Nat → Option Nat
  | [], acc => some acc
  | c :: cs, acc =>
    match digitVal c with
    | some d => parseDigits cs (acc * 10 + d)
    | none => none

/-- Reads an unsigned decimal numeral: at least one digit, digits only. -/
def parseUnsigned (cs : List Char) : Option Nat :=
  match cs with
  | [] => none
  | _ => parseDigits cs 0

/-- Go `strconv.Atoi` for a 64-bit `int`: an optional sign, then one or more
decimal digits, the value lying in `[-2^63, 2^63 - 1]`; anything else is a
`*strconv.NumError`. -/
def Atoi (s : String) : Result Int :=
  match s.data with
  | '-' :: rest =>
    match parseUnsigned rest with
    | some v => if v ≤ 2 ^ 63 then .ok (-(v : Int)) else .error (.numError s)
    | none => .error (.numError s)
  | '+' :: rest =>
    match parseUnsigned rest with
    | some v => if v < 2 ^ 63 then .ok (v : Int) else .error (.numError s)
    | none => .error (.numError s)
  | rest =>
    match parseUnsigned rest with
    | some v => if v < 2 ^ 63 then .ok (v : Int) else .error (.numError s)
    | none => .error (.numError s)

/-! ## Backend-A translator, specification to document (lines 274-421) -/

/-- Lines 385-391.  The result is a pointer to a fresh attribute, never nil. -/
def createLockedAttribute (value : String) (locked : Bool) : Option LockedAttribute :=
  some { Value := value, Locked := locked }

/-- Lines 393-421.  `append` on the nil slice allocates, and an empty result
is returned as nil. -/
def getProhibitedSanTypes (sa : SubjectAltNames) : Slice String :=
  let l0 : List String := []
  let l1 := if sa.DnsAllowed = some false then l0 ++ ["DNS"] else l0
  let l2 := if sa.IpAllowed = some false then l1 ++ ["IP"] else l1
  let l3 := if sa.EmailAllowed = some false then l2 ++ ["Email"] else l2
  let l4 := if sa.UriAllowed = some false then l3 ++ ["URI"] else l3
  let l5 := if sa.UpnAllowed = some false then l4 ++ ["UPN"] else l4
  if l5.length = 0 then none else some l5

/-- The guard `len(l) > 0 && l[0] != ""` of lines 307-350, giving `l[0]`
when it holds. -/
def firstNonEmpty (l : Slice String) : Option String :=
  match l with
  | some (v :: _) => if v ≠ "" then some v else none
  | _ => none

/-- The guard `(p != nil) && (*p != "")` of lines 321-358, giving `*p` when
it holds. -/
def setNonEmpty (p : Option String) : Option String :=
  match p with
  | some v => if v ≠ "" then some v else none
  | none => none

/-- The guard `ps.Policy != nil && ps.Policy.Subject != nil`. -/
def policySubject? (ps : PolicySpecification) : Option Subject :=
  match ps.Policy with
  | some p => p.Subject
  | none => none

/-- The guard `ps.Policy != nil && ps.Policy.KeyPair != nil`. -/
def policyKeyPair? (ps : PolicySpecification) : Option KeyPair :=
  match ps.Policy with
  | some p => p.KeyPair
  | none => none

/-- The guard `ps.Default != nil && ps.Default.Subject != nil`. -/
def defaultSubject? (ps : PolicySpecification) : Option DefaultSubject :=
  match ps.Default with
  | some d => d.Subject
  | none => none

/-- The guard `ps.Default != nil && ps.Default.KeyPair != nil`. -/
def defaultKeyPair? (ps : PolicySpecification) : Option DefaultKeyPair :=
  match ps.Default with
  | some d => d.KeyPair
  | none => none

/-- Lines 290-300: `tppPolicy.ProhibitWildcard`. -/
def tppProhibitWildcard (ps : PolicySpecification) : Option Int :=
  match ps.Policy with
  | some p =>
    match p.WildcardAllowed with
    | some w => if w then some 0 else some 1
    | none => none
  | none => none

/-- Lines 307-311: `tppPolicy.Organization`.  The `else if` evaluates
`*(ps.Default.Subject.Org)` without a nil test. -/
def tppOrganization (ps : PolicySpecification) : Result (Option LockedAttribute) :=
  match (policySubject? ps).bind fun s => firstNonEmpty s.Orgs with
  | some v => pure (createLockedAttribute v true)
  | none =>
    match defaultSubject? ps with
    | some ds => do
      let org ← deref ds.Org
      if org ≠ "" then pure (createLockedAttribute org false) else pure none
    | none => pure none

/-- Lines 313-317: `tppPolicy.OrganizationalUnit`. -/
def tppOrganizationalUnit (ps : PolicySpecification) : Option LockedAttribute :=
  match (policySubject? ps).bind fun s => firstNonEmpty s.OrgUnits with
  | some v => createLockedAttribute v true
  | none =>
    match (defaultSubject? ps).bind fun ds => firstNonEmpty ds.OrgUnits with
    | some d => createLockedAttribute d false
    | none => none

/-- Lines 319-323: `tppPolicy.City`. -/
def tppCity (ps : PolicySpecification) : Option LockedAttribute :=
  match (policySubject? ps).bind fun s => firstNonEmpty s.Localities with
  | some v => createLockedAttribute v true
  | none =>
    match (defaultSubject? ps).bind fun ds => setNonEmpty ds.Locality with
    | some d => createLockedAttribute d false
    | none => none

/-- Lines 325-329: `tppPolicy.State`. -/
def tppState (ps : PolicySpecification) : Option LockedAttribute :=
  match (policySubject? ps).bind fun s => firstNonEmpty s.States with
  | some v => createLockedAttribute v true
  | none =>
    match (defaultSubject? ps).bind fun ds => setNonEmpty ds.State with
    | some d => createLockedAttribute d false
    | none => none

/-- Lines 331-335: `tppPolicy.Country`. -/
def tppCountry (ps : PolicySpecification) : Option LockedAttribute :=
  match (policySubject? ps).bind fun s => firstNonEmpty s.Countries with
  | some v => createLockedAttribute v true
  | none =>
    match (defaultSubject? ps).bind fun ds => setNonEmpty ds.Country with
    | some d => createLockedAttribute d false
    | none => none

/-- Lines 337-341: `tppPolicy.KeyAlgorithm`. -/
def tppKeyAlgorithm (ps : PolicySpecification) : Option LockedAttribute :=
  match (policyKeyPair? ps).bind fun k => firstNonEmpty k.KeyTypes with
  | some v => createLockedAttribute v true
  | none =>
    match (defaultKeyPair? ps).bind fun dk => setNonEmpty dk.KeyType with
    | some d => createLockedAttribute d false
    | none => none

/-- Lines 343-348: `tppPolicy.KeyBitStrength`; the guards compare the
integer with `0` and the value is rendered by `strconv.Itoa`. -/
def tppKeyBitStrength (ps : PolicySpecification) : Option LockedAttribute :=
  match (policyKeyPair? ps).bind fun k =>
      match k.RsaKeySizes with
      | some (rsaKey :: _) => if rsaKey ≠ 0 then some rsaKey else none
      | _ => none with
  | some rsaKey => createLockedAttribute (Itoa rsaKey) true
  | none =>
    match (defaultKeyPair? ps).bind fun dk =>
        match dk.RsaKeySize with
        | some sz => if sz ≠ 0 then some sz else none
        | none => none with
    | some sz => createLockedAttribute (Itoa sz) false
    | none => none

/-- Lines 350-354: `tppPolicy.EllipticCurve`. -/
def tppEllipticCurve (ps : PolicySpecification) : Option LockedAttribute :=
  match (policyKeyPair? ps).bind fun k => firstNonEmpty k.EllipticCurves with
  | some v => createLockedAttribute v true
  | none =>
    match (defaultKeyPair? ps).bind fun dk => setNonEmpty dk.EllipticCurve with
    | some d => createLockedAttribute d false
    | none => none

/-- Lines 356-360: `tppPolicy.ManualCsr`. -/
def tppManualCsr (ps : PolicySpecification) : Option LockedAttribute :=
  match (policyKeyPair? ps).bind fun k => setNonEmpty k.GenerationType with
  | some v => createLockedAttribute v true
  | none =>
    match (defaultKeyPair? ps).bind fun dk => setNonEmpty dk.GenerationType with
    | some d => createLockedAttribute d false
    | none => none

/-- Lines 362-373: the integer `intVal` shared by `AllowPrivateKeyReuse` and
`WantRenewal`. -/
def tppReuse (ps : PolicySpecification) : Option Int :=
  match (policyKeyPair? ps).bind fun k => k.ReuseAllowed with
  | some r => if r then some 1 else some 0
  | none => none

/-- Lines 375-380: `tppPolicy.ProhibitedSANType`. -/
def tppProhibitedSANType (ps : PolicySpecification) : Slice String :=
  match ps.Policy with
  | some p =>
    match p.SubjectAltNames with
    | some sa => getProhibitedSanTypes sa
    | none => none
  | none => none

/-- Lines 274-383.  Every field of the document is assigned by one block of
the function; the only block that can fail is the one of `Organization`. -/
def BuildTppPolicy (ps : PolicySpecification) : Result TppPolicy := do
  let organization ← tppOrganization ps
  pure {
    Contact := ps.Users
    Approver := ps.Approvers
    DomainSuffixWhitelist := match ps.Policy with
      | some p => p.Domains
      | none => none
    ProhibitWildcard := tppProhibitWildcard ps
    CertificateAuthority := match ps.Policy with
      | some p => p.CertificateAuthority
      | none => none
    Organization := organization
    OrganizationalUnit := tppOrganizationalUnit ps
    City := tppCity ps
    State := tppState ps
    Country := tppCountry ps
    KeyAlgorithm := tppKeyAlgorithm ps
    KeyBitStrength := tppKeyBitStrength ps
    EllipticCurve := tppEllipticCurve ps
    ManualCsr := tppManualCsr ps
    AllowPrivateKeyReuse := tppReuse ps
    WantRenewal := tppReuse ps
    ProhibitedSANType := tppProhibitedSANType ps }

/-! ## Backend-A translator, document to specification (lines 423-673) -/

/-- Modelled from the spec: the SAN type tag constants `TppDnsAllowed`,
`TppIpAllowed`, `TppEmailAllowed`, `TppUriAllowed`, `TppUpnAllowed` are
declared outside `policyUtils.go`; they are the tags DNS, IP, Email, URI and
UPN that the prohibited list records (§4.4, §4.5). -/
def TppDnsAllowed : String := "DNS"

/-- Modelled from the spec: see `TppDnsAllowed`. -/
def TppIpAllowed : String := "IP"

/-- Modelled from the spec: see `TppDnsAllowed`. -/
def TppEmailAllowed : String := "Email"

/-- Modelled from the spec: see `TppDnsAllowed`. -/
def TppUriAllowed : String := "URI"

/-- Modelled from the spec: see `TppDnsAllowed`. -/
def TppUpnAllowed : String := "UPN"

/-- Lines 1059-1068. -/
def getBooleanValueFromInt (v : Int) : Result Bool :=
  if v = 0 then .ok false
  else if v = 1 then .ok true
  else .error (.error "specified value is not a supported value")

/-- Lines 663-673. -/
def existValueInArray (array : Slice String) (value : String) : Bool :=
  (elems array).any fun currentValue => currentValue = value

/-- Lines 622-661.  The result is nil exactly for the nil list. -/
def resolveSubjectAltNames (prohibitedSanTypes : Slice String) : Option SubjectAltNames :=
  match prohibitedSanTypes with
  | none => none
  | some _ =>
    some {
      DnsAllowed := if ¬ existValueInArray prohibitedSanTypes TppDnsAllowed then some true else some false
      IpAllowed := if ¬ existValueInArray prohibitedSanTypes TppIpAllowed then some true else some false
      EmailAllowed := if ¬ existValueInArray prohibitedSanTypes TppEmailAllowed then some true else some false
      UriAllowed := if ¬ existValueInArray prohibitedSanTypes TppUriAllowed then some true else some false
      UpnAllowed := if ¬ existValueInArray prohibitedSanTypes TppUpnAllowed then some true else some false }

/-- The `Locked` branch of a `resolve` block for a list field (lines
463-557): `[]string{a.Value}` when the attribute is present and locked. -/
def lockedList (a : Option LockedAttribute) : Slice String :=
  match a with
  | some x => if x.Locked then some [x.Value] else none
  | none => none

/-- The `Locked` branch for a pointer field (lines 560-563). -/
def lockedValue (a : Option LockedAttribute) : Option String :=
  match a with
  | some x => if x.Locked then some x.Value else none
  | none => none

/-- The `else` branch of a `resolve` block for a pointer field:
`&a.Value` when the attribute is present and not locked. -/
def unlockedValue (a : Option LockedAttribute) : Option String :=
  match a with
  | some x => if x.Locked then none else some x.Value
  | none => none

/-- The `else` branch for the list field `defaultSubject.OrgUnits` (line 480). -/
def unlockedList (a : Option LockedAttribute) : Slice String :=
  match a with
  | some x => if x.Locked then none else some [x.Value]
  | none => none

/-- The attribute is present and locked: its block sets the `shouldCreate`
flag of the Policy side. -/
def isLocked (a : Option LockedAttribute) : Bool :=
  match a with
  | some x => x.Locked
  | none => false

/-- The attribute is present and not locked: its block sets the
`shouldCreateDef` flag of the Default side. -/
def isUnlocked (a : Option LockedAttribute) : Bool :=
  match a with
  | some x => !x.Locked
  | none => false

/-- Lines 436-448: the value written to `p.WildcardAllowed`, or the error
of `getBooleanValueFromInt`. -/
def resolveWildcardAllowed (tppPolicy : TppPolicy) : Result (Option Bool) :=
  match tppPolicy.ProhibitWildcard with
  | some v => do
    let val ← getBooleanValueFromInt v
    if val then pure (some false) else pure (some true)
  | none => pure none

/-- Lines 531-537: `intVal`, parsed whenever `KeyBitStrength` is present,
locked or not, or the error of `strconv.Atoi`. -/
def resolveRsaKeySize (tppPolicy : TppPolicy) : Result (Option Int) :=
  match tppPolicy.KeyBitStrength with
  | some a => do
    let intVal ← Atoi a.Value
    pure (some intVal)
  | none => pure none

/-- Lines 572-586: the value written to `keyPair.ReuseAllowed`;
`WantRenewal` is read only when `AllowPrivateKeyReuse` is nil. -/
def resolveReuseAllowed (tppPolicy : TppPolicy) : Result (Option Bool) :=
  match tppPolicy.AllowPrivateKeyReuse with
  | some v => do
    let boolVal ← getBooleanValueFromInt v
    pure (some boolVal)
  | none =>
    match tppPolicy.WantRenewal with
    | some v => do
      let boolVal ← getBooleanValueFromInt v
      pure (some boolVal)
    | none => pure none

/-- Lines 450-620 without the three fallible calls, whose results are the
arguments.  Each field of the four containers is written by exactly one
`resolve` block, and each `shouldCreate` flag is the disjunction of the
blocks that set it. -/
def assembleSpecification (tppPolicy : TppPolicy) (wildcardAllowed : Option Bool)
    (intVal : Option Int) (reuseAllowed : Option Bool) : PolicySpecification :=
  -- lines 463-515
  let subject : Subject :=
    { Orgs := lockedList tppPolicy.Organization
      OrgUnits := lockedList tppPolicy.OrganizationalUnit
      Localities := lockedList tppPolicy.City
      States := lockedList tppPolicy.State
      Countries := lockedList tppPolicy.Country }
  let shouldCreateSubject : Bool :=
    isLocked tppPolicy.Organization || isLocked tppPolicy.OrganizationalUnit ||
    isLocked tppPolicy.City || isLocked tppPolicy.State || isLocked tppPolicy.Country
  let defaultSubject : DefaultSubject :=
    { Org := unlockedValue tppPolicy.Organization
      OrgUnits := unlockedList tppPolicy.OrganizationalUnit
      Locality := unlockedValue tppPolicy.City
      State := unlockedValue tppPolicy.State
      Country := unlockedValue tppPolicy.Country }
  let shouldCreateDefSubject : Bool :=
    isUnlocked tppPolicy.Organization || isUnlocked tppPolicy.OrganizationalUnit ||
    isUnlocked tppPolicy.City || isUnlocked tppPolicy.State || isUnlocked tppPolicy.Country
  -- lines 520-586
  let keyPair : KeyPair :=
    { KeyTypes := lockedList tppPolicy.KeyAlgorithm
      RsaKeySizes := if isLocked tppPolicy.KeyBitStrength then intVal.map fun i => [i] else none
      EllipticCurves := lockedList tppPolicy.EllipticCurve
      GenerationType := lockedValue tppPolicy.ManualCsr
      ReuseAllowed := reuseAllowed }
  let shouldCreateKeyPair : Bool :=
    isLocked tppPolicy.KeyAlgorithm || isLocked tppPolicy.KeyBitStrength ||
    isLocked tppPolicy.EllipticCurve || isLocked tppPolicy.ManualCsr ||
    tppPolicy.AllowPrivateKeyReuse.isSome || tppPolicy.WantRenewal.isSome
  let defaultKeyPair : DefaultKeyPair :=
    { KeyType := unlockedValue tppPolicy.KeyAlgorithm
      RsaKeySize := if isUnlocked tppPolicy.KeyBitStrength then intVal else none
      EllipticCurve := unlockedValue tppPolicy.EllipticCurve
      GenerationType := unlockedValue tppPolicy.ManualCsr }
  let shouldCreateDefKeyPair : Bool :=
    isUnlocked tppPolicy.KeyAlgorithm || isUnlocked tppPolicy.KeyBitStrength ||
    isUnlocked tppPolicy.EllipticCurve || isUnlocked tppPolicy.ManualCsr
  -- lines 588-599
  let subjectAltNames := resolveSubjectAltNames tppPolicy.ProhibitedSANType
  let p : Policy :=
    { Domains := tppPolicy.DomainSuffixWhitelist
      CertificateAuthority := tppPolicy.CertificateAuthority
      WildcardAllowed := wildcardAllowed
      Subject := if shouldCreateSubject then some subject else none
      KeyPair := if shouldCreateKeyPair then some keyPair else none
      SubjectAltNames := subjectAltNames }
  -- lines 606-612
  let dflt : Default :=
    { Subject := if shouldCreateDefSubject then some defaultSubject else none
      KeyPair := if shouldCreateDefKeyPair then some defaultKeyPair else none }
  -- lines 602-604, 614-618
  { Users := tppPolicy.Contact
    Approvers := tppPolicy.Approver
    Policy :=
      if shouldCreateKeyPair || shouldCreateSubject || subjectAltNames.isSome then some p
      else none
    Default := if shouldCreateDefSubject || shouldCreateDefKeyPair then some dflt else none }

/-- Lines 423-620.  The three fallible steps run in source order: wildcard
flag (436), key size (533), reuse flag (574/581). -/
def BuildPolicySpecificationForTPP (tppPolicy : TppPolicy) : Result PolicySpecification := do
  let wildcardAllowed ← resolveWildcardAllowed tppPolicy
  let intVal ← resolveRsaKeySize tppPolicy
  let reuseAllowed ← resolveReuseAllowed tppPolicy
  pure (assembleSpecification tppPolicy wildcardAllowed intVal reuseAllowed)

/-! ## Backend-B validator (lines 677-848) -/

/-- Modelled from the spec: the constant `AllowAll` is declared outside
`policyUtils.go`; it is the single "allow all" marker, the unconstrained
pattern `.*` (§3, §4.3). -/
def AllowAll : String := ".*"

/-- Lines 677-684. -/
def validateDefaultStringCloudValues (array : Slice String) (value : String) : Bool :=
  match array with
  | some [a] => if a = AllowAll then true else existValueInArray array value
  | _ => existValueInArray array value

/-- Lines 686-693. -/
def validateDefaultSubjectOrgsCloudValues (defaultValues : Slice String)
    (policyValues : Slice String) : Bool :=
  match policyValues with
  | some [a] => if a = AllowAll then true else existStringInArray defaultValues policyValues
  | _ => existStringInArray defaultValues policyValues

/-- Lines 805-820: a pointer to the first specified size that is not in
`CloudRsaKeySize`, nil when there is none. -/
def getInvalidCloudRsaKeySizeValue (specifiedRSAKeys : Slice Int) : Option Int :=
  (elems specifiedRSAKeys).find? fun currentUserVal =>
    !(elems CloudRsaKeySize).any fun rsaKey => currentUserVal = rsaKey

/-- Lines 822-848.  The map is the list of its entries in insertion order
(the five keys are distinct).  The entry `dnsAllowed` is filled from
`*(names.UpnAllowed)`, which is dereferenced without a nil test. -/
def getSubjectAltNames (names : SubjectAltNames) : Result (List (String × Bool)) := do
  let m0 : List (String × Bool) := []
  let m1 ←
    match names.DnsAllowed with
    | some _ => do
      let v ← deref names.UpnAllowed
      pure (m0 ++ [("dnsAllowed", v)])
    | none => pure m0
  let m2 :=
    match names.IpAllowed with
    | some v => m1 ++ [("ipAllowed", v)]
    | none => m1
  let m3 :=
    match names.EmailAllowed with
    | some v => m2 ++ [("emailAllowed", v)]
    | none => m2
  let m4 :=
    match names.UriAllowed with
    | some v => m3 ++ [("uriAllowed", v)]
    | none => m3
  let m5 :=
    match names.UpnAllowed with
    | some v => m4 ++ [("upnAllowed", v)]
    | none => m4
  pure m5

/-- Lines 699-715: the rules on `Policy.KeyPair`.  `KeyTypes[0]` is read
without a length test. -/
def cloudValidateKeyPair (p : Policy) : Result Unit :=
  match p.KeyPair with
  | none => pure ()
  | some keyPair =>
    if len keyPair.KeyTypes > 1 then
      throw (.error "attribute keyTypes has more than one value")
    else do
      let keyType ← index keyPair.KeyTypes 0
      if keyType ≠ "RSA" then
        throw (.error "specified attribute keyTypes value is not supported on Venafi cloud")
      else if len keyPair.RsaKeySizes > 0 then
        match getInvalidCloudRsaKeySizeValue keyPair.RsaKeySizes with
        | some unSupported =>
          throw (.error ("specified attribute key lenght value: " ++ Itoa unSupported ++
            " is not supported on Venafi cloud"))
        | none => pure ()
      else pure ()

/-- Lines 717-727: the rule on `Policy.SubjectAltNames`.  Go ranges over a
map in an unspecified order; here the entry reported is the first true one in
insertion order, so the key in the message is meaningful only when a single
entry is true. -/
def cloudValidateSubjectAltNames (p : Policy) : Result Unit :=
  match p.SubjectAltNames with
  | none => pure ()
  | some names => do
    let subjectAltNames ← getSubjectAltNames names
    match subjectAltNames.find? fun kv => kv.2 with
    | some kv =>
      throw (.error ("specified subjectAltNames: " ++ kv.1 ++
        " value is true, this value is not allowed "))
    | none => pure ()

/-- One check of lines 731-736, 745-764: a single default value against the
policy list of the same attribute; `attr` is the attribute name of the
message. -/
def cloudCheckDefaultValue (policyValues : Slice String) (dflt : Option String)
    (attr : String) : Result Unit :=
  match dflt with
  | some d =>
    if len policyValues > 0 then
      if ¬ validateDefaultStringCloudValues policyValues d then
        throw (.error ("specified default " ++ attr ++ " value: " ++ d ++
          "  doesn't match with specified policy " ++ attr))
      else pure ()
    else pure ()
  | none => pure ()

/-- Lines 730-765: the defaults of `Default.Subject` against `Policy.Subject`.
The message of the org unit check formats `*(ps.Default.Subject.Org)`, which
is dereferenced without a nil test. -/
def cloudValidateSubjectDefaults (ps : PolicySpecification) (p : Policy) : Result Unit :=
  match p.Subject with
  | none => pure ()
  | some subject =>
    match defaultSubject? ps with
    | none => pure ()
    | some defaultSubject => do
      cloudCheckDefaultValue subject.Orgs defaultSubject.Org "org"
      if len defaultSubject.OrgUnits > 0 ∧ len subject.OrgUnits > 0 then
        if ¬ validateDefaultSubjectOrgsCloudValues defaultSubject.OrgUnits subject.OrgUnits then do
          let org ← deref defaultSubject.Org
          throw (.error ("specified default org unit value: " ++ org ++
            "  doesn't match with specified policy org unit"))
        else pure ()
      else pure ()
      cloudCheckDefaultValue subject.Localities defaultSubject.Locality "locality"
      cloudCheckDefaultValue subject.States defaultSubject.State "state"
      cloudCheckDefaultValue subject.Countries defaultSubject.Country "country"

/-- Lines 767-781: the defaults of `Default.KeyPair` against `Policy.KeyPair`.
The size check calls `existIntInArray` with the policy sizes as the user
values and the default as the supported set, and its message formats
`*(ps.Default.KeyPair.KeyType)` without a nil test. -/
def cloudValidateKeyPairDefaults (ps : PolicySpecification) (p : Policy) : Result Unit :=
  match p.KeyPair with
  | none => pure ()
  | some keyPair =>
    match defaultKeyPair? ps with
    | none => pure ()
    | some defaultKeyPair => do
      match defaultKeyPair.KeyType with
      | some kt =>
        if len keyPair.KeyTypes > 0 then
          if ¬ existValueInArray keyPair.KeyTypes kt then
            throw (.error ("specified default key type value: " ++ kt ++
              "  doesn't match with specified policy key type"))
          else pure ()
        else pure ()
      | none => pure ()
      match defaultKeyPair.RsaKeySize with
      | some sz =>
        if len keyPair.RsaKeySizes > 0 then
          if ¬ existIntInArray keyPair.RsaKeySizes (some [sz]) then do
            let kt ← deref defaultKeyPair.KeyType
            throw (.error ("specified default rsa key size value: " ++ kt ++
              "  doesn't match with specified policy rsa key size"))
          else pure ()
        else pure ()
      | none => pure ()

/-- Lines 784-800: the standalone rules on `Default.KeyPair`. -/
def cloudValidateDefaultKeyPair (ps : PolicySpecification) : Result Unit :=
  match defaultKeyPair? ps with
  | none => pure ()
  | some defaultKeyPair => do
    match defaultKeyPair.KeyType with
    | some kt =>
      if kt ≠ "" ∧ kt ≠ "RSA" then
        throw (.error "specified default attribute keyType value is not supported on Venafi cloud")
      else pure ()
    | none => pure ()
    match defaultKeyPair.RsaKeySize with
    | some sz =>
      if sz ≠ 0 then
        match getInvalidCloudRsaKeySizeValue (some [sz]) with
        | some unSupported =>
          throw (.error ("specified attribute key lenght value: " ++ Itoa unSupported ++
            " is not supported on Venafi cloud"))
        | none => pure ()
      else pure ()
    | none => pure ()

/-- Lines 695-803. -/
def ValidateCloudPolicySpecification (ps : PolicySpecification) : Result Unit := do
  match ps.Policy with
  | some p =>
    cloudValidateKeyPair p
    cloudValidateSubjectAltNames p
    cloudValidateSubjectDefaults ps p
    cloudValidateKeyPairDefaults ps p
  | none => pure ()
  cloudValidateDefaultKeyPair ps

/-! ## Identifier parsing and Backend-B translator (lines 850-1057) -/

/-- Go `strings.Split` for a one-character separator, on the characters of
the string: the pieces between the separators, in order.  A string without
separator gives one piece, the empty string included. -/
def splitChars (sep : Char) : List Char → List (List Char)
  | [] => [[]]
  | c :: cs =>
    if c = sep then [] :: splitChars sep cs
    else
      match splitChars sep cs with
      | piece :: pieces => (c :: piece) :: pieces
      | [] => [[c]]

/-- Go `strings.Split(s, sep)` for a one-character separator. -/
def stringsSplit (s : String) (sep : Char) : List String :=
  (splitChars sep s.data).map String.mk

/-- Go `strings.ReplaceAll(s, old, new)` for a one-character `old`, on the
characters of the string. -/
def replaceChars (old : Char) (new : List Char) : List Char → List Char
  | [] => []
  | c :: cs => if c = old then new ++ replaceChars old new cs else c :: replaceChars old new cs

/-- Go `strings.ReplaceAll(s, old, new)` for a one-character `old`. -/
def stringsReplaceAll (s : String) (old : Char) (new : String) : String :=
  String.mk (replaceChars old new.data s.data)

/-- Modelled from the spec: the type `CertificateAuthorityInfo` is declared
outside `policyUtils.go`; the three components of a CA identifier (§4.6). -/
structure CertificateAuthorityInfo where
  CAType : String
  CAAccountKey : String
  VendorProductName : String
  deriving DecidableEq, Repr

/-- Modelled from the spec: the type `Product` is declared outside
`policyUtils.go`; CA type, vendor product name and duration string (§3). -/
structure Product where
  CertificateAuthority : String := ""
  ProductName : String := ""
  ValidityPeriod : String := ""
  deriving DecidableEq, Repr

/-- Modelled from the spec: the type `KeyTypes` is declared outside
`policyUtils.go`; a key type with its allowed key lengths (§3). -/
structure KeyTypes where
  KeyType : String := ""
  KeyLengths : Slice Int := none
  deriving DecidableEq, Repr

/-- Modelled from the spec: the type `Key` is declared outside
`policyUtils.go`; the recommended key type and length (§3, §4.6).  The Go
field `Type` is `Typ` here, `Type` being reserved. -/
structure Key where
  Typ : String := ""
  Length : Int := 0
  deriving DecidableEq, Repr

/-- Modelled from the spec: the type `RecommendedSettings` is declared
outside `policyUtils.go`; single default values plus the `KeyReuse` marker
(§3). -/
structure RecommendedSettings where
  SubjectOValue : Option String := none
  SubjectOUValue : Option String := none
  SubjectLValue : Option String := none
  SubjectSTValue : Option String := none
  SubjectCValue : Option String := none
  Key : Option Key := none
  KeyReuse : Option Bool := none
  deriving DecidableEq, Repr

/-- Modelled from the spec: the type `CloudPolicyRequest` is declared outside
`policyUtils.go`; the Backend-B document (§3). -/
structure CloudPolicyRequest where
  CertificateAuthority : String := ""
  Product : Product := {}
  SubjectCNRegexes : Slice String := none
  SanRegexes : Slice String := none
  SubjectORegexes : Slice String := none
  SubjectOURegexes : Slice String := none
  SubjectLRegexes : Slice String := none
  SubjectSTRegexes : Slice String := none
  SubjectCValues : Slice String := none
  KeyTypes : Slice KeyTypes := none
  KeyReuse : Option Bool := none
  RecommendedSettings : Option RecommendedSettings := none
  deriving DecidableEq, Repr

/-- Lines 1042-1057. -/
def GetCertAuthorityInfo (certificateAuthority : String) : Result CertificateAuthorityInfo :=
  match stringsSplit certificateAuthority '\\' with
  | d0 :: d1 :: d2 :: _ => .ok { CAType := d0, CAAccountKey := d1, VendorProductName := d2 }
  | _ => .error (.error ("certificate Authority is invalid, please provide a valid value " ++
      "with this structure: ca_type\\ca_account_key\\vendor_product_name"))

/-- Lines 1012-1024.  The loop appends one regex per value; an empty result
is returned as nil. -/
def ConvertToRegex (values : Slice String) : Slice String :=
  let regexVals : List String :=
    (elems values).foldl
      (fun regexVals current => regexVals ++ [".*\\." ++ stringsReplaceAll current '.' "\\."])
      []
  if regexVals.length > 0 then some regexVals else none

/-- Lines 855-862: `certAuth` stays nil when `Policy` or its
`CertificateAuthority` is absent, and `certAuth.CAType` is then read without
a nil test. -/
def cloudCertAuth (ps : PolicySpecification) : Result CertificateAuthorityInfo := do
  let certAuth : Option CertificateAuthorityInfo ←
    match ps.Policy.bind fun p => p.CertificateAuthority with
    | some ca => do
      let info ← GetCertAuthorityInfo ca
      pure (some info)
    | none => pure none
  deref certAuth

/-- Lines 864-871: the validity period string; `period` is 0 when
`MaxValidDays` is unset. -/
def cloudValidityPeriod (ps : PolicySpecification) : String :=
  let period : Int :=
    match ps.Policy.bind fun p => p.MaxValidDays with
    | some d => d
    | none => 0
  "P" ++ Itoa period ++ "D"

/-- Lines 875-882: the value of both `SubjectCNRegexes` and `SanRegexes`. -/
def cloudDomainRegexes (ps : PolicySpecification) : Slice String :=
  match ps.Policy with
  | some p => if len p.Domains > 0 then ConvertToRegex p.Domains else some [".*"]
  | none => some [".*"]

/-- One block of lines 884-912: the list `f` of `Policy.Subject` when it is
not empty, `[".*"]` otherwise. -/
def cloudSubjectList (ps : PolicySpecification) (f : Subject → Slice String) : Slice String :=
  match policySubject? ps with
  | some s => if len (f s) > 0 then f s else some [".*"]
  | none => some [".*"]

/-- Lines 914-931: the single `KeyTypes` entry. -/
def cloudKeyTypes (ps : PolicySpecification) : KeyTypes :=
  { KeyType :=
      match policyKeyPair? ps with
      | some k =>
        match k.KeyTypes with
        | some (kt :: _) => kt
        | _ => "RSA"
      | none => "RSA"
    KeyLengths :=
      match (policyKeyPair? ps).bind fun k =>
          if len k.RsaKeySizes > 0 then some k.RsaKeySizes else none with
      | some sizes => sizes
      | none =>
        match (defaultKeyPair? ps).bind fun dk => dk.RsaKeySize with
        | some sz => some [sz]
        | none => some [2048] }

/-- Lines 941-946: `cloudPolicyRequest.KeyReuse`. -/
def cloudKeyReuse (ps : PolicySpecification) : Option Bool :=
  match (policyKeyPair? ps).bind fun k => k.ReuseAllowed with
  | some r => some r
  | none => some false

/-- Lines 958-980: the subject part of the recommended settings with the
flag `shouldCreateSubjectRS`.  `OrgUnits[0]` is read after a nil test only. -/
def cloudRecommendedSubject (ps : PolicySpecification) : Result (RecommendedSettings × Bool) :=
  match defaultSubject? ps with
  | none => pure ({}, false)
  | some ds => do
    let ou : Option String ←
      match ds.OrgUnits with
      | some _ => do
        let first ← index ds.OrgUnits 0
        pure (some first)
      | none => pure none
    pure
      ({ SubjectOValue := ds.Org
         SubjectOUValue := ou
         SubjectLValue := ds.Locality
         SubjectSTValue := ds.State
         SubjectCValue := ds.Country },
       ds.Org.isSome || ds.OrgUnits.isSome || ds.Locality.isSome || ds.State.isSome ||
         ds.Country.isSome)

/-- Lines 982-996: the recommended key, created only when
`Default.KeyPair.KeyType` is set; its presence is `shouldCreateKPRS`. -/
def cloudRecommendedKey (ps : PolicySpecification) : Option Key :=
  match defaultKeyPair? ps with
  | some dk =>
    match dk.KeyType with
    | some kt =>
      some
        { Typ := kt
          Length :=
            match dk.RsaKeySize with
            | some sz => sz
            | none => 2048 }
    | none => none
  | none => none

/-- Lines 948-1007: `cloudPolicyRequest.RecommendedSettings`. -/
def cloudRecommendedSettings (ps : PolicySpecification) : Result (Option RecommendedSettings) := do
  let (recommendedSettings, shouldCreateSubjectRS) ← cloudRecommendedSubject ps
  let key := cloudRecommendedKey ps
  if key.isSome || shouldCreateSubjectRS then
    pure (some { recommendedSettings with Key := key, KeyReuse := some false })
  else pure none

/-- Lines 850-1010. -/
def BuildCloudCitRequest (ps : PolicySpecification) : Result CloudPolicyRequest := do
  let certAuth ← cloudCertAuth ps
  let recommendedSettings ← cloudRecommendedSettings ps
  pure
    { CertificateAuthority := certAuth.CAType
      Product :=
        { CertificateAuthority := certAuth.CAType
          ProductName := certAuth.VendorProductName
          ValidityPeriod := cloudValidityPeriod ps }
      SubjectCNRegexes := cloudDomainRegexes ps
      SanRegexes := cloudDomainRegexes ps
      SubjectORegexes := cloudSubjectList ps fun s => s.Orgs
      SubjectOURegexes := cloudSubjectList ps fun s => s.OrgUnits
      SubjectLRegexes := cloudSubjectList ps fun s => s.Localities
      SubjectSTRegexes := cloudSubjectList ps fun s => s.States
      SubjectCValues := cloudSubjectList ps fun s => s.Countries
      KeyTypes := some [cloudKeyTypes ps]
      KeyReuse := cloudKeyReuse ps
      RecommendedSettings := recommendedSettings }

/-! ## Specification-side vocabulary used by the theorems -/

/-- The five cardinality rules of the Backend-A validator on `Policy.Subject`,
in the order Orgs, OrgUnits, Localities, States, Countries: the length of
each list with the error reported for it. -/
def subjectCardinalityRules (s : Subject) : List (Nat × String) :=
  [ (len s.Orgs, "attribute orgs has more than one value"),
    (len s.OrgUnits, "attribute org units has more than one value"),
    (len s.Localities, "attribute localities has more than one value"),
    (len s.States, "attribute states has more than one value"),
    (len s.Countries, "attribute countries has more than one value") ]

/-- The cardinality error of the first list, in that order, with more than
one element. -/
def firstCardinalityError (s : Subject) : Option String :=
  ((subjectCardinalityRules s).find? fun r => decide (1 < r.1)).map fun r => r.2

/-- The value a list attribute enforces: the first element of the list,
provided there is one and it is not the empty string. -/
def enforcedValue (l : Slice String) : Option String :=
  (elems l).head?.filter fun v => v ≠ ""

/-- The value a single optional attribute holds: the string it is set to,
provided it is not empty. -/
def heldValue (v : Option String) : Option String :=
  v.filter fun x => x ≠ ""

/-- The key size a list enforces: its first element when not zero. -/
def enforcedSize (l : Slice Int) : Option Int :=
  (elems l).head?.filter fun v => v ≠ 0

/-- The key size a single optional attribute holds: the integer it is set
to, when not zero. -/
def heldSize (v : Option Int) : Option Int :=
  v.filter fun x => x ≠ 0

/-- The rule of §4.4 for one attribute: the enforced value locked, else the
default value unlocked, else nothing. -/
def preferEnforced (enforced dflt : Option String) : Option LockedAttribute :=
  match enforced, dflt with
  | some v, _ => some { Value := v, Locked := true }
  | none, some d => some { Value := d, Locked := false }
  | none, none => none

/-- What `Policy.Subject` enforces for the list selected by `f`. -/
def enforcedBySubject (ps : PolicySpecification) (f : Subject → Slice String) : Option String :=
  ps.Policy.bind fun p => p.Subject.bind fun s => enforcedValue (f s)

/-- What `Policy.KeyPair` enforces for the list selected by `f`. -/
def enforcedByKeyPair (ps : PolicySpecification) (f : KeyPair → Slice String) : Option String :=
  ps.Policy.bind fun p => p.KeyPair.bind fun k => enforcedValue (f k)

/-- What `Default.Subject` holds for the attribute selected by `f`. -/
def heldBySubject (ps : PolicySpecification) (f : DefaultSubject → Option String) :
    Option String :=
  ps.Default.bind fun d => d.Subject.bind fun s => heldValue (f s)

/-- What `Default.KeyPair` holds for the attribute selected by `f`. -/
def heldByKeyPair (ps : PolicySpecification) (f : DefaultKeyPair → Option String) :
    Option String :=
  ps.Default.bind fun d => d.KeyPair.bind fun k => heldValue (f k)

/-- The first non-empty org unit of `Default.Subject.OrgUnits`. -/
def heldOrgUnit (ps : PolicySpecification) : Option String :=
  ps.Default.bind fun d => d.Subject.bind fun s => enforcedValue s.OrgUnits

/-- The generation type `Policy.KeyPair` enforces. -/
def enforcedGenerationType (ps : PolicySpecification) : Option String :=
  ps.Policy.bind fun p => p.KeyPair.bind fun k => heldValue k.GenerationType

/-- The RSA key size `Policy.KeyPair` enforces. -/
def enforcedSizeOf (ps : PolicySpecification) : Option Int :=
  ps.Policy.bind fun p => p.KeyPair.bind fun k => enforcedSize k.RsaKeySizes

/-- The RSA key size `Default.KeyPair` holds. -/
def heldSizeOf (ps : PolicySpecification) : Option Int :=
  ps.Default.bind fun d => d.KeyPair.bind fun k => heldSize k.RsaKeySize

/-- The decimal rendering of the RSA key size `Policy.KeyPair` enforces. -/
def enforcedKeySize (ps : PolicySpecification) : Option String :=
  (enforcedSizeOf ps).map Itoa

/-- The decimal rendering of the RSA key size `Default.KeyPair` holds. -/
def heldKeySize (ps : PolicySpecification) : Option String :=
  (heldSizeOf ps).map Itoa

/-- `Policy.KeyPair.ReuseAllowed`, unset when a container on the way is absent. -/
def policyReuseAllowed (ps : PolicySpecification) : Option Bool :=
  ps.Policy.bind fun p => p.KeyPair.bind fun k => k.ReuseAllowed

/-- `Policy.WildcardAllowed`, unset when `Policy` is absent. -/
def policyWildcardAllowed (ps : PolicySpecification) : Option Bool :=
  ps.Policy.bind fun p => p.WildcardAllowed

/-- The SAN type tags whose boolean is explicitly false, in the order DNS,
IP, Email, URI, UPN. -/
def prohibitedTags (sa : SubjectAltNames) : List String :=
  (if sa.DnsAllowed = some false then ["DNS"] else []) ++
  (if sa.IpAllowed = some false then ["IP"] else []) ++
  (if sa.EmailAllowed = some false then ["Email"] else []) ++
  (if sa.UriAllowed = some false then ["URI"] else []) ++
  (if sa.UpnAllowed = some false then ["UPN"] else [])

/-- The record with all five booleans set from a list of prohibited tags:
false for a tag that occurs in the list, true otherwise. -/
def sanFromProhibited (l : List String) : SubjectAltNames :=
  { DnsAllowed := some (decide ("DNS" ∉ l))
    IpAllowed := some (decide ("IP" ∉ l))
    EmailAllowed := some (decide ("Email" ∉ l))
    UriAllowed := some (decide ("URI" ∉ l))
    UpnAllowed := some (decide ("UPN" ∉ l)) }

/-- Every boolean that is not explicitly false made explicitly true. -/
def sanUnsetAllowed (sa : SubjectAltNames) : SubjectAltNames :=
  { DnsAllowed := some (sa.DnsAllowed != some false)
    IpAllowed := some (sa.IpAllowed != some false)
    EmailAllowed := some (sa.EmailAllowed != some false)
    UriAllowed := some (sa.UriAllowed != some false)
    UpnAllowed := some (sa.UpnAllowed != some false) }

/-- Where §4.5 puts one attribute of the document: a locked attribute is in
the Policy field (as `inPolicy value`) and the Default field is unset, an
unlocked one is in the Default field (as `inDefault value`) and the Policy
field is unset, an absent one leaves both unset.  A field of an absent
container counts as unset. -/
def attributePlaced {α β : Type} (a : Option LockedAttribute) (inPolicy : String → α)
    (inDefault : String → β) (pol : Option α) (dflt : Option β) : Prop :=
  match a with
  | none => pol = none ∧ dflt = none
  | some x =>
    if x.Locked = true then pol = some (inPolicy x.Value) ∧ dflt = none
    else pol = none ∧ dflt = some (inDefault x.Value)

/-- The local `subject` of `BuildPolicySpecificationForTPP` after the five
subject blocks (lines 463-515). -/
def resolvedSubject (t : TppPolicy) : Subject :=
  { Orgs := lockedList t.Organization
    OrgUnits := lockedList t.OrganizationalUnit
    Localities := lockedList t.City
    States := lockedList t.State
    Countries := lockedList t.Country }

/-- The local `shouldCreateSubject` after the five subject blocks. -/
def shouldCreateSubject (t : TppPolicy) : Bool :=
  isLocked t.Organization || isLocked t.OrganizationalUnit ||
  isLocked t.City || isLocked t.State || isLocked t.Country

/-- The local `defaultSubject` after the five subject blocks. -/
def resolvedDefaultSubject (t : TppPolicy) : DefaultSubject :=
  { Org := unlockedValue t.Organization
    OrgUnits := unlockedList t.OrganizationalUnit
    Locality := unlockedValue t.City
    State := unlockedValue t.State
    Country := unlockedValue t.Country }

/-- The local `shouldCreateDefSubject` after the five subject blocks. -/
def shouldCreateDefSubject (t : TppPolicy) : Bool :=
  isUnlocked t.Organization || isUnlocked t.OrganizationalUnit ||
  isUnlocked t.City || isUnlocked t.State || isUnlocked t.Country

/-- The local `keyPair` after the key pair blocks (lines 520-586). -/
def resolvedKeyPair (t : TppPolicy) (intVal : Option Int) (reuseAllowed : Option Bool) :
    KeyPair :=
  { KeyTypes := lockedList t.KeyAlgorithm
    RsaKeySizes := if isLocked t.KeyBitStrength then intVal.map fun i => [i] else none
    EllipticCurves := lockedList t.EllipticCurve
    GenerationType := lockedValue t.ManualCsr
    ReuseAllowed := reuseAllowed }

/-- The local `shouldCreateKeyPair` after the key pair blocks. -/
def shouldCreateKeyPair (t : TppPolicy) : Bool :=
  isLocked t.KeyAlgorithm || isLocked t.KeyBitStrength ||
  isLocked t.EllipticCurve || isLocked t.ManualCsr ||
  t.AllowPrivateKeyReuse.isSome || t.WantRenewal.isSome

/-- The local `defaultKeyPair` after the key pair blocks. -/
def resolvedDefaultKeyPair (t : TppPolicy) (intVal : Option Int) : DefaultKeyPair :=
  { KeyType := unlockedValue t.KeyAlgorithm
    RsaKeySize := if isUnlocked t.KeyBitStrength then intVal else none
    EllipticCurve := unlockedValue t.EllipticCurve
    GenerationType := unlockedValue t.ManualCsr }

/-- The local `shouldCreateDefKeyPair` after the key pair blocks. -/
def shouldCreateDefKeyPair (t : TppPolicy) : Bool :=
  isUnlocked t.KeyAlgorithm || isUnlocked t.KeyBitStrength ||
  isUnlocked t.EllipticCurve || isUnlocked t.ManualCsr

/-- The string is a decimal integer: an optional sign `+` or `-` followed by
one or more decimal digits and nothing else. -/
def isDecimalInteger (s : String) : Bool :=
  match s.data with
  | '-' :: rest => !rest.isEmpty && rest.all Char.isDigit
  | '+' :: rest => !rest.isEmpty && rest.all Char.isDigit
  | rest => !rest.isEmpty && rest.all Char.isDigit

/-- `Policy.KeyPair.ReuseAllowed` of a specification, unset when a container
on the way is absent. -/
def reuseAllowedOf (ps : PolicySpecification) : Option Bool :=
  (ps.Policy.bind fun p => p.KeyPair).bind fun k => k.ReuseAllowed

/-- The regex §4.6 derives from one literal domain: every `.` escaped as
`\.`, behind the prefix `.*\.`. -/
def domainRegex (domain : String) : String :=
  ".*\\." ++ stringsReplaceAll domain '.' "\\."

/-- A policy list passed through unmodified when it is not empty, the single
unconstrained pattern `.*` otherwise (§4.6). -/
def listOrAny (l : Slice String) : Slice String :=
  if elems l = [] then some [".*"] else l

/-- `Policy.KeyPair.KeyTypes`, nil when a container on the way is absent. -/
def enforcedKeyTypes (ps : PolicySpecification) : Slice String :=
  (ps.Policy.bind fun p => p.KeyPair).bind fun k => k.KeyTypes

/-- `Policy.KeyPair.RsaKeySizes`, nil when a container on the way is absent. -/
def enforcedKeySizes (ps : PolicySpecification) : Slice Int :=
  (ps.Policy.bind fun p => p.KeyPair).bind fun k => k.RsaKeySizes

/-- `Default.KeyPair.RsaKeySize`, unset when a container on the way is absent. -/
def defaultKeySize (ps : PolicySpecification) : Option Int :=
  (ps.Default.bind fun d => d.KeyPair).bind fun k => k.RsaKeySize

/-- `Default.Subject`, absent when `Default` is. -/
def defaultSubjectOf (ps : PolicySpecification) : Option DefaultSubject :=
  ps.Default.bind fun d => d.Subject

/-- `Default.KeyPair`, absent when `Default` is. -/
def defaultKeyPairOf (ps : PolicySpecification) : Option DefaultKeyPair :=
  ps.Default.bind fun d => d.KeyPair

/-! ## The normal form reproduced by the Backend-A round trip -/

/-- A list attribute that survives the round trip: nil, or exactly one
non-empty value. -/
def stableList : Slice String → Bool
  | none => true
  | some [v] => decide (v ≠ "")
  | some _ => false

/-- A single optional attribute that survives: unset, or a non-empty value. -/
def stableValue : Option String → Bool
  | none => true
  | some v => decide (v ≠ "")

/-- The integer is a value of the 64-bit Go type `int`. -/
def isGoInt (n : Int) : Bool :=
  decide (-(2 : Int) ^ 63 ≤ n ∧ n < (2 : Int) ^ 63)

/-- A key size list that survives: nil, or exactly one non-zero size. -/
def stableSizes : Slice Int → Bool
  | none => true
  | some [n] => decide (n ≠ 0)
  | some _ => false

/-- A single optional key size that survives: unset, or a non-zero `int`. -/
def stableSize : Option Int → Bool
  | none => true
  | some n => decide (n ≠ 0) && isGoInt n

/-- `Policy.Subject` survives: every list is stable and one of them is set. -/
def subjectStable (s : Subject) : Bool :=
  stableList s.Orgs && stableList s.OrgUnits && stableList s.Localities &&
  stableList s.States && stableList s.Countries &&
  (s.Orgs.isSome || s.OrgUnits.isSome || s.Localities.isSome || s.States.isSome ||
    s.Countries.isSome)

/-- `Policy.KeyPair` survives: every field is stable and one of them is set. -/
def keyPairStable (k : KeyPair) : Bool :=
  stableList k.KeyTypes && stableSizes k.RsaKeySizes && stableList k.EllipticCurves &&
  stableValue k.GenerationType &&
  (k.KeyTypes.isSome || k.RsaKeySizes.isSome || k.EllipticCurves.isSome ||
    k.GenerationType.isSome || k.ReuseAllowed.isSome)

/-- `Default.Subject` survives: every field is stable, one of them is set,
no field is set for an attribute that `Policy.Subject` enforces, and `Org`
is set when `Policy.Subject` enforces no org. -/
def defaultSubjectStable (ps : PolicySpecification) (ds : DefaultSubject) : Bool :=
  stableValue ds.Org && stableList ds.OrgUnits && stableValue ds.Locality &&
  stableValue ds.State && stableValue ds.Country &&
  (ds.Org.isSome || ds.OrgUnits.isSome || ds.Locality.isSome || ds.State.isSome ||
    ds.Country.isSome) &&
  (ds.Org.isSome != (enforcedBySubject ps fun s => s.Orgs).isSome) &&
  !(ds.OrgUnits.isSome && (enforcedBySubject ps fun s => s.OrgUnits).isSome) &&
  !(ds.Locality.isSome && (enforcedBySubject ps fun s => s.Localities).isSome) &&
  !(ds.State.isSome && (enforcedBySubject ps fun s => s.States).isSome) &&
  !(ds.Country.isSome && (enforcedBySubject ps fun s => s.Countries).isSome)

/-- `Default.KeyPair` survives: every field is stable, one of the four
translated fields is set, `ReuseAllowed` is unset, and no field is set for
an attribute that `Policy.KeyPair` enforces. -/
def defaultKeyPairStable (ps : PolicySpecification) (dk : DefaultKeyPair) : Bool :=
  stableValue dk.KeyType && stableSize dk.RsaKeySize && stableValue dk.EllipticCurve &&
  stableValue dk.GenerationType && dk.ReuseAllowed.isNone &&
  (dk.KeyType.isSome || dk.RsaKeySize.isSome || dk.EllipticCurve.isSome ||
    dk.GenerationType.isSome) &&
  !(dk.KeyType.isSome && (enforcedByKeyPair ps fun k => k.KeyTypes).isSome) &&
  !(dk.RsaKeySize.isSome && (enforcedKeySize ps).isSome) &&
  !(dk.EllipticCurve.isSome && (enforcedByKeyPair ps fun k => k.EllipticCurves).isSome) &&
  !(dk.GenerationType.isSome && (enforcedGenerationType ps).isSome)

/-- The enforced half of the normal form. -/
def policyStable (p : Policy) : Bool :=
  p.MaxValidDays.isNone &&
  (match p.Subject with
    | some s => subjectStable s
    | none => true) &&
  (match p.KeyPair with
    | some k => keyPairStable k
    | none => true)

/-- The default half of the normal form; a `Default` that is present holds
a subject or a key pair. -/
def defaultStable (ps : PolicySpecification) (d : Default) : Bool :=
  (d.Subject.isSome || d.KeyPair.isSome) &&
  (match d.Subject with
    | some ds => defaultSubjectStable ps ds
    | none => true) &&
  (match d.KeyPair with
    | some dk => defaultKeyPairStable ps dk
    | none => true)

/-- The normal form of a specification with respect to the Backend-A
document: what `BuildPolicySpecificationForTPP` can give back. -/
def roundTripStable (ps : PolicySpecification) : Bool :=
  (match ps.Policy with
    | some p => policyStable p
    | none => true) &&
  (match ps.Default with
    | some d => defaultStable ps d
    | none => true)

/-- All five SAN booleans are explicitly set. -/
def sanAllSet (sa : SubjectAltNames) : Bool :=
  sa.DnsAllowed.isSome && sa.IpAllowed.isSome && sa.EmailAllowed.isSome &&
  sa.UriAllowed.isSome && sa.UpnAllowed.isSome

/-- At least one SAN boolean is explicitly false. -/
def sanSomeProhibited (sa : SubjectAltNames) : Bool :=
  sa.DnsAllowed == some false || sa.IpAllowed == some false || sa.EmailAllowed == some false ||
  sa.UriAllowed == some false || sa.UpnAllowed == some false

/-! ## Example inputs -/

/-- All SAN types allowed. -/
def sanAllAllowed : SubjectAltNames :=
  { DnsAllowed := some true, IpAllowed := some true, EmailAllowed := some true,
    UriAllowed := some true, UpnAllowed := some true }

/-- All SAN booleans set, DNS prohibited. -/
def sanDnsProhibited : SubjectAltNames :=
  { DnsAllowed := some false, IpAllowed := some true, EmailAllowed := some true,
    UriAllowed := some true, UpnAllowed := some true }

/-- An enforced org and all five SAN booleans explicitly true. -/
def specSanAllAllowed : PolicySpecification :=
  { Policy := some
      { Subject := some { Orgs := some ["Acme"] }, SubjectAltNames := some sanAllAllowed } }

/-- The document `BuildTppPolicy` returns for `specSanAllAllowed`. -/
def docSanAllAllowed : TppPolicy :=
  { Organization := some { Value := "Acme", Locked := true } }

/-- What `BuildPolicySpecificationForTPP` returns for `docSanAllAllowed`. -/
def backSanAllAllowed : PolicySpecification :=
  { Policy := some { Subject := some { Orgs := some ["Acme"] } } }

/-- A validity period of 30 days, all SAN booleans set, DNS prohibited. -/
def specMaxValidDays : PolicySpecification :=
  { Policy := some { MaxValidDays := some 30, SubjectAltNames := some sanDnsProhibited } }

/-- The document `BuildTppPolicy` returns for `specMaxValidDays`. -/
def docMaxValidDays : TppPolicy :=
  { ProhibitedSANType := some ["DNS"] }

/-- What `BuildPolicySpecificationForTPP` returns for `docMaxValidDays`. -/
def backMaxValidDays : PolicySpecification :=
  { Policy := some { SubjectAltNames := some sanDnsProhibited } }

/-- The enforced org `Acme` with the same default org, DNS prohibited. -/
def specShadowedDefault : PolicySpecification :=
  { Policy := some
      { Subject := some { Orgs := some ["Acme"] }, SubjectAltNames := some sanDnsProhibited },
    Default := some { Subject := some { Org := some "Acme" }, KeyPair := some {} } }

/-- The document `BuildTppPolicy` returns for `specShadowedDefault`. -/
def docShadowedDefault : TppPolicy :=
  { Organization := some { Value := "Acme", Locked := true },
    ProhibitedSANType := some ["DNS"] }

/-- What `BuildPolicySpecificationForTPP` returns for `docShadowedDefault`. -/
def backShadowedDefault : PolicySpecification :=
  { Policy := some
      { Subject := some { Orgs := some ["Acme"] }, SubjectAltNames := some sanDnsProhibited } }

/-- The enforced half of `specNormalForm`. -/
def policyNormalForm : Policy :=
  { Domains := some ["example.com"],
    WildcardAllowed := some true,
    CertificateAuthority := some "ca",
    Subject := some { Orgs := some ["Acme"], Countries := some ["US"] },
    KeyPair := some
      { KeyTypes := some ["RSA"], RsaKeySizes := some [2048], ReuseAllowed := some true },
    SubjectAltNames := some sanDnsProhibited }

/-- A validated specification in the normal form of the document, with
enforced and default values for different attributes. -/
def specNormalForm : PolicySpecification :=
  { Users := some ["alice"],
    Policy := some policyNormalForm,
    Default := some
      { Subject := some { Locality := some "Salt Lake", OrgUnits := some ["Engineering"] },
        KeyPair := some { EllipticCurve := some "P256", GenerationType := some "0" } } }

/-- Only IP prohibited, the other four booleans unset. -/
def sanOnlyIpProhibited : SubjectAltNames :=
  { IpAllowed := some false }

/-- A specification whose only content is `sanOnlyIpProhibited`. -/
def specOnlyIpProhibited : PolicySpecification :=
  { Policy := some { SubjectAltNames := some sanOnlyIpProhibited } }

/-- The document `BuildTppPolicy` returns for `specOnlyIpProhibited`. -/
def docOnlyIpProhibited : TppPolicy :=
  { ProhibitedSANType := some ["IP"] }

/-- IP prohibited and the other four booleans explicitly true. -/
def sanIpProhibitedRestAllowed : SubjectAltNames :=
  { DnsAllowed := some true, IpAllowed := some false, EmailAllowed := some true,
    UriAllowed := some true, UpnAllowed := some true }

/-- What `BuildPolicySpecificationForTPP` returns for `docOnlyIpProhibited`. -/
def backOnlyIpProhibited : PolicySpecification :=
  { Policy := some { SubjectAltNames := some sanIpProhibitedRestAllowed } }

/-- A document with a locked org, an unlocked city and a locked key size. -/
def docMixedLocks : TppPolicy :=
  { Organization := some { Value := "Acme", Locked := true },
    City := some { Value := "Salt Lake", Locked := false },
    KeyBitStrength := some { Value := "2048", Locked := true } }

/-- What `BuildPolicySpecificationForTPP` returns for `docMixedLocks`. -/
def backMixedLocks : PolicySpecification :=
  { Policy := some
      { Subject := some { Orgs := some ["Acme"] },
        KeyPair := some { RsaKeySizes := some [2048] } },
    Default := some { Subject := some { Locality := some "Salt Lake" } } }

/-- A document whose wildcard flag is neither 0 nor 1. -/
def docWildcardTwo : TppPolicy :=
  { ProhibitWildcard := some 2 }

/-- A document whose key size is not a decimal integer. -/
def docKeySizeNotDecimal : TppPolicy :=
  { KeyBitStrength := some { Value := "2k", Locked := false } }

/-- A document with a valid `AllowPrivateKeyReuse` and a `WantRenewal` that
is neither 0 nor 1. -/
def docReuseFlagsDisagree : TppPolicy :=
  { AllowPrivateKeyReuse := some 1, WantRenewal := some 5 }

/-- What `BuildPolicySpecificationForTPP` returns for `docReuseFlagsDisagree`. -/
def backReuseFlagsDisagree : PolicySpecification :=
  { Policy := some { KeyPair := some { ReuseAllowed := some true } } }

/-- A document with only `WantRenewal`, neither 0 nor 1. -/
def docWantRenewalFive : TppPolicy :=
  { WantRenewal := some 5 }

/-- Only `Policy.KeyPair.RsaKeySizes = [2048]`; `KeyTypes` is left unset. -/
def specCloudSizesOnly : PolicySpecification :=
  { Policy := some { KeyPair := some { RsaKeySizes := some [2048] } } }

/-- A key pair with the ECDSA key type. -/
def keyPairEcdsa : KeyPair :=
  { KeyTypes := some ["ECDSA"] }

/-- A key pair with the RSA key type and the size 3072. -/
def keyPairRsaBadSize : KeyPair :=
  { KeyTypes := some ["RSA"], RsaKeySizes := some [2048, 3072] }

/-- `DnsAllowed` explicitly true and `UpnAllowed` explicitly false. -/
def specCloudDnsAllowedUpnProhibited : PolicySpecification :=
  { Policy := some
      { SubjectAltNames := some { DnsAllowed := some true, UpnAllowed := some false } } }

/-- `DnsAllowed` explicitly true and `UpnAllowed` unset. -/
def specCloudDnsAllowed : PolicySpecification :=
  { Policy := some { SubjectAltNames := some { DnsAllowed := some true } } }

/-- RSA with the sizes 2048 and 4096 enforced and the default size 2048. -/
def specCloudTwoSizes : PolicySpecification :=
  { Policy := some
      { KeyPair := some { KeyTypes := some ["RSA"], RsaKeySizes := some [2048, 4096] } },
    Default := some { KeyPair := some { RsaKeySize := some 2048 } } }

/-- RSA with the single size 2048 enforced and the default size 2048. -/
def specCloudOneSize : PolicySpecification :=
  { Policy := some { KeyPair := some { KeyTypes := some ["RSA"], RsaKeySizes := some [2048] } },
    Default := some { KeyPair := some { RsaKeySize := some 2048 } } }

/-- Enforced org unit `Engineering`, default org unit `Sales`, no default org. -/
def specCloudOrgUnitMismatch : PolicySpecification :=
  { Policy := some { Subject := some { OrgUnits := some ["Engineering"] } },
    Default := some { Subject := some { OrgUnits := some ["Sales"] } } }

/-- As `specCloudOrgUnitMismatch`, with the default org `Acme` set. -/
def specCloudOrgUnitMismatchWithOrg : PolicySpecification :=
  { Policy := some { Subject := some { OrgUnits := some ["Engineering"] } },
    Default := some { Subject := some { Org := some "Acme", OrgUnits := some ["Sales"] } } }

/-- A specification without `Policy`. -/
def specCloudEmpty : PolicySpecification := {}

/-- A `Policy` without `CertificateAuthority`. -/
def specCloudNoCertAuth : PolicySpecification :=
  { Policy := some { Domains := some ["example.com"] } }

/-- A well-formed CA identifier and only the default RSA key size set. -/
def specCloudDefaultSizeOnly : PolicySpecification :=
  { Policy := some { CertificateAuthority := some "DIGICERT\\accountkey\\ProductX" },
    Default := some { KeyPair := some { RsaKeySize := some 4096 } } }

/-- The request `BuildCloudCitRequest` returns for `specCloudDefaultSizeOnly`. -/
def requestDefaultSizeOnly : CloudPolicyRequest :=
  { CertificateAuthority := "DIGICERT",
    Product :=
      { CertificateAuthority := "DIGICERT", ProductName := "ProductX", ValidityPeriod := "P0D" },
    SubjectCNRegexes := some [".*"],
    SanRegexes := some [".*"],
    SubjectORegexes := some [".*"],
    SubjectOURegexes := some [".*"],
    SubjectLRegexes := some [".*"],
    SubjectSTRegexes := some [".*"],
    SubjectCValues := some [".*"],
    KeyTypes := some [{ KeyType := "RSA", KeyLengths := some [4096] }],
    KeyReuse := some false,
    RecommendedSettings := none }

/-- The enforced half of `specCloudFull`. -/
def policyCloudFull : Policy :=
  { Domains := some ["example.com", "venafi.io"],
    MaxValidDays := some 30,
    CertificateAuthority := some "DIGICERT\\accountkey\\ProductX",
    Subject := some { Orgs := some ["Acme", "Venafi"], Countries := some ["US"] },
    KeyPair := some
      { KeyTypes := some ["RSA"], RsaKeySizes := some [2048, 4096], ReuseAllowed := some true } }

/-- A well-formed CA identifier, domains, enforced subject and key pair
values, and default subject and key type. -/
def specCloudFull : PolicySpecification :=
  { Policy := some policyCloudFull,
    Default := some
      { Subject := some { Org := some "Acme" }, KeyPair := some { KeyType := some "RSA" } } }

/-- The recommended settings of `requestFull`. -/
def recommendedFull : RecommendedSettings :=
  { SubjectOValue := some "Acme",
    Key := some { Typ := "RSA", Length := 2048 },
    KeyReuse := some false }

/-- The request `BuildCloudCitRequest` returns for `specCloudFull`. -/
def requestFull : CloudPolicyRequest :=
  { CertificateAuthority := "DIGICERT",
    Product :=
      { CertificateAuthority := "DIGICERT", ProductName := "ProductX", ValidityPeriod := "P30D" },
    SubjectCNRegexes := some [".*\\.example\\.com", ".*\\.venafi\\.io"],
    SanRegexes := some [".*\\.example\\.com", ".*\\.venafi\\.io"],
    SubjectORegexes := some ["Acme", "Venafi"],
    SubjectOURegexes := some [".*"],
    SubjectLRegexes := some [".*"],
    SubjectSTRegexes := some [".*"],
    SubjectCValues := some ["US"],
    KeyTypes := some [{ KeyType := "RSA", KeyLengths := some [2048, 4096] }],
    KeyReuse := some true,
    RecommendedSettings := some recommendedFull }

/-- A default subject whose `OrgUnits` is the empty list, not nil. -/
def defaultSubjectEmptyOrgUnits : DefaultSubject := { OrgUnits := some [] }

/-- A well-formed CA identifier, one domain, and `Default.Subject.OrgUnits`
the empty list that is not nil. -/
def specCloudEmptyDefaultOrgUnits : PolicySpecification :=
  { Policy := some
      { Domains := some ["example.com"],
        CertificateAuthority := some "DIGICERT\\accountkey\\ProductX" },
    Default := some { Subject := some defaultSubjectEmptyOrgUnits } }

/-- The same as `specCloudEmptyDefaultOrgUnits` with `Default.Subject.OrgUnits` nil. -/
def specCloudNilDefaultOrgUnits : PolicySpecification :=
  { Policy := some
      { Domains := some ["example.com"],
        CertificateAuthority := some "DIGICERT\\accountkey\\ProductX" },
    Default := some { Subject := some {} } }

/-- A default subject with an org and `OrgUnits` the empty list, not nil. -/
def defaultSubjectOrgEmptyOrgUnits : DefaultSubject :=
  { Org := some "Acme", OrgUnits := some [] }

/-- An enforced key pair with one key type, one size and reuse allowed. -/
def keyPairRsa2048Reuse : KeyPair :=
  { KeyTypes := some ["RSA"], RsaKeySizes := some [2048], ReuseAllowed := some true }

/-- A well-formed CA identifier, `MaxValidDays`, an enforced key pair, and
`Default.Subject.OrgUnits` the empty list that is not nil. -/
def specCloudKeyPairEmptyDefaultOrgUnits : PolicySpecification :=
  { Policy := some
      { MaxValidDays := some 90,
        CertificateAuthority := some "DIGICERT\\accountkey\\ProductX",
        KeyPair := some keyPairRsa2048Reuse },
    Default := some { Subject := some defaultSubjectOrgEmptyOrgUnits } }

/-- The same as `specCloudKeyPairEmptyDefaultOrgUnits` with
`Default.Subject.OrgUnits` nil. -/
def specCloudKeyPairNilDefaultOrgUnits : PolicySpecification :=
  { Policy := some
      { MaxValidDays := some 90,
        CertificateAuthority := some "DIGICERT\\accountkey\\ProductX",
        KeyPair := some keyPairRsa2048Reuse },
    Default := some { Subject := some { Org := some "Acme" } } }

/-- Enforced and default values that disagree, for every attribute. -/
def specPreferEnforced : PolicySpecification :=
  { Policy := some
      { WildcardAllowed := some true,
        Subject := some { Orgs := some ["Acme"], States := some [""] },
        KeyPair := some { RsaKeySizes := some [2048], ReuseAllowed := some true } },
    Default := some
      { Subject := some { Org := some "Other", State := some "Utah", Country := some "US" },
        KeyPair := some { RsaKeySize := some 4096, KeyType := some "RSA" } } }

/-- The document `BuildTppPolicy` returns for `specPreferEnforced`. -/
def docPreferEnforced : TppPolicy :=
  { ProhibitWildcard := some 0,
    Organization := some { Value := "Acme", Locked := true },
    State := some { Value := "Utah", Locked := false },
    Country := some { Value := "US", Locked := false },
    KeyAlgorithm := some { Value := "RSA", Locked := false },
    KeyBitStrength := some { Value := "2048", Locked := true },
    AllowPrivateKeyReuse := some 1,
    WantRenewal := some 1 }


/-- Enforced org `Acme`, default org `Other`, and an empty default key pair. -/
def specOrgMismatch : PolicySpecification :=
  { Policy := some { Subject := some { Orgs := some ["Acme"] } },
    Default := some { Subject := some { Org := some "Other" }, KeyPair := some {} } }

/-- Default subject with the org left unset and an empty default key pair;
there is no enforced policy. -/
def specDefaultOrgUnset : PolicySpecification :=
  { Default := some { Subject := some { Locality := some "Salt Lake" }, KeyPair := some {} } }

/-- A list attribute with three values in `OrgUnits` and two in `States`. -/
def subjectTwoLongLists : Subject :=
  { Orgs := some ["Acme"], OrgUnits := some ["a", "b", "c"], States := some ["x", "y"] }

/-- A policy specification holding only `subjectTwoLongLists`. -/
def specTwoLongLists : PolicySpecification :=
  { Policy := some { Subject := some subjectTwoLongLists } }

/-- A key pair that satisfies every Backend-A key pair rule. -/
def keyPairRsa3072 : KeyPair :=
  { KeyTypes := some ["RSA"], RsaKeySizes := some [3072], GenerationType := some "1" }

/-! ## Lemmas on the Backend-A validator -/

theorem validatePolicySubject_ok_or_error (ps : PolicySpecification) (p : Policy)
    (hp : ps.Policy = some p) :
    validatePolicySubject ps = .ok () ∨ ∃ msg, validatePolicySubject ps = .error (.error msg) := by
  unfold validatePolicySubject
  rw [hp]
  simp only [deref, bind, Except.bind]
  cases p.Subject with
  | none => left; rfl
  | some s =>
    simp only [pure, Except.pure, throw, throwThe, MonadExceptOf.throw]
    repeat' split
    all_goals first
      | (left; rfl)
      | (right; exact ⟨_, rfl⟩)

theorem foldl_match_eq_true {α : Type} [DecidableEq α] (uv : α) (l : List α) (m : Bool) :
    l.foldl (fun m sv => if uv = sv then true else m) m = true ↔ m = true ∨ uv ∈ l := by
  induction l generalizing m with
  | nil => simp
  | cons a t ih =>
    rw [List.foldl_cons, ih]
    by_cases h : uv = a
    · simp [h]
    · simp [h]

theorem existStringInArray_iff (u s : Slice String) :
    existStringInArray u s = true ↔ ∀ x ∈ elems u, x ∈ elems s := by
  unfold existStringInArray
  rw [List.all_eq_true]
  constructor
  · intro h x hx
    have h2 := h x hx
    rw [foldl_match_eq_true] at h2
    simpa using h2
  · intro h x hx
    rw [foldl_match_eq_true]
    exact Or.inr (h x hx)

theorem existIntInArray_iff (u s : Slice Int) :
    existIntInArray u s = true ↔ ∀ x ∈ elems u, x ∈ elems s := by
  unfold existIntInArray
  rw [List.all_eq_true]
  constructor
  · intro h x hx
    have h2 := h x hx
    rw [foldl_match_eq_true] at h2
    simpa using h2
  · intro h x hx
    rw [foldl_match_eq_true]
    exact Or.inr (h x hx)

theorem len_pos_of_not_existString (u s : Slice String)
    (h : ¬ existStringInArray u s = true) : 0 < len u := by
  cases u with
  | none => simp [existStringInArray, elems] at h
  | some l =>
    cases l with
    | nil => simp [existStringInArray, elems] at h
    | cons a t => simp [len]

theorem len_pos_of_not_existInt (u s : Slice Int)
    (h : ¬ existIntInArray u s = true) : 0 < len u := by
  cases u with
  | none => simp [existIntInArray, elems] at h
  | some l =>
    cases l with
    | nil => simp [existIntInArray, elems] at h
    | cons a t => simp [len]

theorem validateKeyPair_ok_iff (ps : PolicySpecification) (p : Policy) (k : KeyPair)
    (hp : ps.Policy = some p) (hk : p.KeyPair = some k) :
    validateKeyPair ps = .ok () ↔
      (len k.KeyTypes ≤ 1 ∧ len k.RsaKeySizes ≤ 1 ∧ len k.EllipticCurves ≤ 1 ∧
        (∀ x ∈ elems k.KeyTypes, x ∈ elems TppKeyType) ∧
        (∀ x ∈ elems k.RsaKeySizes, x ∈ elems TppRsaKeySize) ∧
        (∀ x ∈ elems k.EllipticCurves, x ∈ elems TppEllipticCurves) ∧
        (k.GenerationType = none ∨ k.GenerationType = some "0" ∨ k.GenerationType = some "1")) := by
  unfold validateKeyPair
  rw [hp]
  simp only [deref, bind, Except.bind, hk, pure, Except.pure, throw, throwThe,
    MonadExceptOf.throw]
  rw [← existStringInArray_iff, ← existIntInArray_iff, ← existStringInArray_iff]
  by_cases h1 : len k.KeyTypes > 1
  · simp [h1]
  by_cases h2 : existStringInArray k.KeyTypes TppKeyType = true
  swap
  · have hpos : 0 < len k.KeyTypes := len_pos_of_not_existString _ _ h2
    simp [h1, h2, hpos]
  by_cases h3 : len k.RsaKeySizes > 1
  · simp [h1, h2, h3]
  by_cases h4 : existIntInArray k.RsaKeySizes TppRsaKeySize = true
  swap
  · have hpos : 0 < len k.RsaKeySizes := len_pos_of_not_existInt _ _ h4
    simp [h1, h2, h3, h4, hpos]
  by_cases h5 : len k.EllipticCurves > 1
  · simp [h1, h2, h3, h4, h5]
  by_cases h6 : existStringInArray k.EllipticCurves TppEllipticCurves = true
  swap
  · have hpos : 0 < len k.EllipticCurves := len_pos_of_not_existString _ _ h6
    simp [h1, h2, h3, h4, h5, h6, hpos]
  simp only [h1, h2, h3, h4, h5, h6]
  cases hg : k.GenerationType with
  | none => simp; omega
  | some g =>
    by_cases g0 : g = "0"
    · simp [g0]; omega
    by_cases g1 : g = "1"
    · simp [g1]; omega
    simp [g0, g1]

theorem validateKeyPair_ok_or_error (ps : PolicySpecification) (p : Policy)
    (hp : ps.Policy = some p) :
    validateKeyPair ps = .ok () ∨ ∃ msg, validateKeyPair ps = .error (.error msg) := by
  unfold validateKeyPair
  rw [hp]
  simp only [deref, bind, Except.bind]
  cases p.KeyPair with
  | none => left; rfl
  | some s =>
    simp only [pure, Except.pure, throw, throwThe, MonadExceptOf.throw]
    repeat' split
    all_goals first
      | (left; rfl)
      | (right; exact ⟨_, rfl⟩)

theorem ValidateTppPolicySpecification_of_policy (ps : PolicySpecification) (p : Policy)
    (hp : ps.Policy = some p) :
    ValidateTppPolicySpecification ps =
      (validatePolicySubject ps >>= fun _ => validateKeyPair ps >>= fun _ =>
        validateDefaultSubject ps >>= fun _ =>
        validateDefaultKeyPairWithPolicySubject ps >>= fun _ => validateDefaultKeyPair ps) := by
  unfold ValidateTppPolicySpecification
  rw [hp]

theorem ValidateTppPolicySpecification_of_no_policy (ps : PolicySpecification)
    (hp : ps.Policy = none) :
    ValidateTppPolicySpecification ps =
      (validateDefaultSubject ps >>= fun _ =>
        validateDefaultKeyPairWithPolicySubject ps >>= fun _ => validateDefaultKeyPair ps) := by
  unfold ValidateTppPolicySpecification
  rw [hp]
  rfl

theorem validateDefaultSubject_org_mismatch (ps : PolicySpecification) (p : Policy) (s : Subject)
    (d : Default) (ds : DefaultSubject) (o1 o2 : String)
    (hp : ps.Policy = some p) (hs : p.Subject = some s) (ho : s.Orgs = some [o1])
    (hd : ps.Default = some d) (hds : d.Subject = some ds) (hdo : ds.Org = some o2)
    (h1 : o1 ≠ "") (h2 : o2 ≠ "") (h12 : o1 ≠ o2) :
    validateDefaultSubject ps =
      .error (.error (if len ds.OrgUnits > 1
        then "attribute default org units has more than one value"
        else "policy default org doesn't match with policy's orgs value")) := by
  unfold validateDefaultSubject
  simp only [hp, hs, ho, hd, hds, hdo]
  by_cases hc : len ds.OrgUnits > 1
  · simp only [hc, if_true]
    rfl
  · simp only [hc, if_false, h1, h2, h12, ne_eq, not_false_eq_true, and_self, if_true]
    rfl

/-! ## Theorems for the claims -/

/-- C1 (counterexamples): three specifications pass the Backend-A validator
and have all five SAN booleans explicitly set, yet the reverse translation of
their document differs from them: with all five booleans true the SAN record
is lost, `MaxValidDays` has no field in the document, and a default that
repeats an enforced value is dropped. -/
theorem C1_round_trip_counterexamples :
    (ValidateTppPolicySpecification specSanAllAllowed = .ok () ∧
      sanAllSet sanAllAllowed = true ∧
      BuildTppPolicy specSanAllAllowed = .ok docSanAllAllowed ∧
      BuildPolicySpecificationForTPP docSanAllAllowed = .ok backSanAllAllowed ∧
      backSanAllAllowed ≠ specSanAllAllowed) ∧
    (ValidateTppPolicySpecification specMaxValidDays = .ok () ∧
      sanAllSet sanDnsProhibited = true ∧
      BuildTppPolicy specMaxValidDays = .ok docMaxValidDays ∧
      BuildPolicySpecificationForTPP docMaxValidDays = .ok backMaxValidDays ∧
      backMaxValidDays ≠ specMaxValidDays) ∧
    (ValidateTppPolicySpecification specShadowedDefault = .ok () ∧
      BuildTppPolicy specShadowedDefault = .ok docShadowedDefault ∧
      BuildPolicySpecificationForTPP docShadowedDefault = .ok backShadowedDefault ∧
      backShadowedDefault ≠ specShadowedDefault) := by
  decide

/-- C2 (code defect): on the specification whose only populated fields are
`Policy.Subject.Orgs = ["Acme"]` and `Default.Subject.Org = "Acme"`, the
validator does not report success: `validateDefaultKeyPair` reads the fields
of the absent `Default.KeyPair` and the call ends in a nil dereference. -/
theorem C2_org_match_without_default_keypair_panics :
    ValidateTppPolicySpecification
      { Policy := some { Subject := some { Orgs := some ["Acme"] } },
        Default := some { Subject := some { Org := some "Acme" } } }
      = .error .nilDereference := by
  decide

/-- C3: with `Policy.Subject.Orgs = ["Acme"]` and `Default.Subject.Org =
"Other"`, whatever the other fields, the Backend-A validator returns an
error; when the policy subject and key pair rules pass and the default org
units hold at most one value, it is the org inconsistency error. -/
theorem C3_org_mismatch_is_error (ps : PolicySpecification) (p : Policy) (s : Subject)
    (d : Default) (ds : DefaultSubject)
    (hp : ps.Policy = some p) (hs : p.Subject = some s) (ho : s.Orgs = some ["Acme"])
    (hd : ps.Default = some d) (hds : d.Subject = some ds) (hdo : ds.Org = some "Other") :
    (∃ msg, ValidateTppPolicySpecification ps = .error (.error msg)) ∧
    (validatePolicySubject ps = .ok () → validateKeyPair ps = .ok () → len ds.OrgUnits ≤ 1 →
      ValidateTppPolicySpecification ps
        = .error (.error "policy default org doesn't match with policy's orgs value")) := by
  have hds2 := validateDefaultSubject_org_mismatch ps p s d ds "Acme" "Other" hp hs ho hd hds hdo
    (by decide) (by decide) (by decide)
  rw [ValidateTppPolicySpecification_of_policy ps p hp]
  constructor
  · rcases validatePolicySubject_ok_or_error ps p hp with h1 | ⟨m, h1⟩
    · rcases validateKeyPair_ok_or_error ps p hp with h2 | ⟨m, h2⟩
      · rw [h1, h2, hds2]
        exact ⟨_, rfl⟩
      · rw [h1, h2]
        exact ⟨_, rfl⟩
    · rw [h1]
      exact ⟨_, rfl⟩
  · intro h1 h2 h3
    rw [h1, h2, hds2]
    have h4 : ¬ len ds.OrgUnits > 1 := by omega
    simp only [h4, if_false]
    rfl

theorem C3_org_mismatch_is_error_witness :
    ValidateTppPolicySpecification specOrgMismatch
      = .error (.error "policy default org doesn't match with policy's orgs value") :=
  (C3_org_mismatch_is_error specOrgMismatch { Subject := some { Orgs := some ["Acme"] } }
    { Orgs := some ["Acme"] } { Subject := some { Org := some "Other" }, KeyPair := some {} }
    { Org := some "Other" } rfl rfl rfl rfl rfl rfl).2 (by decide) (by decide) (by decide)

/-- C4: when `Policy.Subject` is present and at least one of Orgs, OrgUnits,
Localities, States, Countries has more than one element, the Backend-A
validator returns an error, namely the cardinality error of the first such
list in that order. -/
theorem C4_first_cardinality_error (ps : PolicySpecification) (p : Policy) (s : Subject)
    (hp : ps.Policy = some p) (hs : p.Subject = some s)
    (h : 1 < len s.Orgs ∨ 1 < len s.OrgUnits ∨ 1 < len s.Localities ∨ 1 < len s.States ∨
      1 < len s.Countries) :
    ∃ msg, firstCardinalityError s = some msg ∧
      ValidateTppPolicySpecification ps = .error (.error msg) := by
  rw [ValidateTppPolicySpecification_of_policy ps p hp]
  unfold validatePolicySubject firstCardinalityError subjectCardinalityRules
  rw [hp]
  simp only [deref, bind, Except.bind, hs, pure, Except.pure, throw, throwThe,
    MonadExceptOf.throw, gt_iff_lt]
  by_cases h1 : 1 < len s.Orgs
  · simp [h1, List.find?]
  by_cases h2 : 1 < len s.OrgUnits
  · simp [h1, h2, List.find?]
  by_cases h3 : 1 < len s.Localities
  · simp [h1, h2, h3, List.find?]
  by_cases h4 : 1 < len s.States
  · simp [h1, h2, h3, h4, List.find?]
  by_cases h5 : 1 < len s.Countries
  · simp [h1, h2, h3, h4, h5, List.find?]
  · exfalso
    rcases h with h | h | h | h | h <;> contradiction

theorem C4_first_cardinality_error_witness :
    ∃ msg, firstCardinalityError subjectTwoLongLists = some msg ∧
      ValidateTppPolicySpecification specTwoLongLists = .error (.error msg) :=
  C4_first_cardinality_error specTwoLongLists { Subject := some subjectTwoLongLists }
    subjectTwoLongLists rfl rfl (by decide)

/-- C5: with `Policy.KeyPair` present, `validateKeyPair` succeeds if and only
if KeyTypes, RsaKeySizes and EllipticCurves each hold at most one element,
every key type is RSA or ECDSA, every RSA size is one of 512, 1024, 2048,
3072, 4096, every curve is one of P256, P384, P521, and GenerationType is
unset or `"0"` or `"1"`. -/
theorem C5_validateKeyPair_ok_iff (ps : PolicySpecification) (p : Policy) (k : KeyPair)
    (hp : ps.Policy = some p) (hk : p.KeyPair = some k) :
    validateKeyPair ps = .ok () ↔
      (len k.KeyTypes ≤ 1 ∧ len k.RsaKeySizes ≤ 1 ∧ len k.EllipticCurves ≤ 1 ∧
        (∀ x ∈ elems k.KeyTypes, x = "RSA" ∨ x = "ECDSA") ∧
        (∀ x ∈ elems k.RsaKeySizes, x = 512 ∨ x = 1024 ∨ x = 2048 ∨ x = 3072 ∨ x = 4096) ∧
        (∀ x ∈ elems k.EllipticCurves, x = "P256" ∨ x = "P384" ∨ x = "P521") ∧
        (k.GenerationType = none ∨ k.GenerationType = some "0" ∨ k.GenerationType = some "1")) := by
  rw [validateKeyPair_ok_iff ps p k hp hk]
  simp [TppKeyType, TppRsaKeySize, TppEllipticCurves, elems]

theorem C5_validateKeyPair_ok_iff_witness :
    validateKeyPair { Policy := some { KeyPair := some keyPairRsa3072 } } = .ok () :=
  (C5_validateKeyPair_ok_iff { Policy := some { KeyPair := some keyPairRsa3072 } }
    { KeyPair := some keyPairRsa3072 } keyPairRsa3072 rfl rfl).2
    (by simp [keyPairRsa3072, len, elems])

/-- C6 (code defect): a specification that passes the Backend-A validator,
with `Default.Subject` present and its `Org` unset, makes `BuildTppPolicy`
panic: the `Organization` block dereferences `Default.Subject.Org` without
a nil test, so no document is returned. -/
theorem C6_build_panics_on_validated_spec :
    ValidateTppPolicySpecification specDefaultOrgUnset = .ok () ∧
    BuildTppPolicy specDefaultOrgUnset = .error .nilDereference := by
  decide

/-! ## Lemmas on `BuildTppPolicy` -/

theorem firstNonEmpty_eq (l : Slice String) : firstNonEmpty l = enforcedValue l := by
  unfold firstNonEmpty enforcedValue
  rcases l with _ | _ | ⟨v, t⟩
  · rfl
  · rfl
  · by_cases h : v = "" <;> simp [elems, Option.filter, h]

theorem setNonEmpty_eq (p : Option String) : setNonEmpty p = heldValue p := by
  unfold setNonEmpty heldValue
  rcases p with _ | v
  · rfl
  · by_cases h : v = "" <;> simp [Option.filter, h]

theorem policySubject_bind (ps : PolicySpecification) (f : Subject → Slice String) :
    ((policySubject? ps).bind fun s => firstNonEmpty (f s)) = enforcedBySubject ps f := by
  unfold policySubject? enforcedBySubject
  cases ps.Policy <;> simp [firstNonEmpty_eq]

theorem policyKeyPair_bind (ps : PolicySpecification) (f : KeyPair → Slice String) :
    ((policyKeyPair? ps).bind fun k => firstNonEmpty (f k)) = enforcedByKeyPair ps f := by
  unfold policyKeyPair? enforcedByKeyPair
  cases ps.Policy <;> simp [firstNonEmpty_eq]

theorem defaultSubject_bind (ps : PolicySpecification) (f : DefaultSubject → Option String) :
    ((defaultSubject? ps).bind fun s => setNonEmpty (f s)) = heldBySubject ps f := by
  unfold defaultSubject? heldBySubject
  cases ps.Default <;> simp [setNonEmpty_eq]

theorem defaultKeyPair_bind (ps : PolicySpecification) (f : DefaultKeyPair → Option String) :
    ((defaultKeyPair? ps).bind fun k => setNonEmpty (f k)) = heldByKeyPair ps f := by
  unfold defaultKeyPair? heldByKeyPair
  cases ps.Default <;> simp [setNonEmpty_eq]

theorem preferEnforced_match (e d : Option String) :
    (match e with
      | some v => createLockedAttribute v true
      | none =>
        match d with
        | some x => createLockedAttribute x false
        | none => none) = preferEnforced e d := by
  cases e <;> cases d <;> rfl

theorem tppCity_eq (ps : PolicySpecification) :
    tppCity ps = preferEnforced (enforcedBySubject ps fun s => s.Localities)
      (heldBySubject ps fun s => s.Locality) := by
  unfold tppCity
  rw [policySubject_bind ps fun s => s.Localities, defaultSubject_bind ps fun s => s.Locality]
  exact preferEnforced_match _ _

theorem tppState_eq (ps : PolicySpecification) :
    tppState ps = preferEnforced (enforcedBySubject ps fun s => s.States)
      (heldBySubject ps fun s => s.State) := by
  unfold tppState
  rw [policySubject_bind ps fun s => s.States, defaultSubject_bind ps fun s => s.State]
  exact preferEnforced_match _ _

theorem tppCountry_eq (ps : PolicySpecification) :
    tppCountry ps = preferEnforced (enforcedBySubject ps fun s => s.Countries)
      (heldBySubject ps fun s => s.Country) := by
  unfold tppCountry
  rw [policySubject_bind ps fun s => s.Countries, defaultSubject_bind ps fun s => s.Country]
  exact preferEnforced_match _ _

theorem tppKeyAlgorithm_eq (ps : PolicySpecification) :
    tppKeyAlgorithm ps = preferEnforced (enforcedByKeyPair ps fun s => s.KeyTypes)
      (heldByKeyPair ps fun s => s.KeyType) := by
  unfold tppKeyAlgorithm
  rw [policyKeyPair_bind ps fun s => s.KeyTypes, defaultKeyPair_bind ps fun s => s.KeyType]
  exact preferEnforced_match _ _

theorem tppEllipticCurve_eq (ps : PolicySpecification) :
    tppEllipticCurve ps = preferEnforced (enforcedByKeyPair ps fun s => s.EllipticCurves)
      (heldByKeyPair ps fun s => s.EllipticCurve) := by
  unfold tppEllipticCurve
  rw [policyKeyPair_bind ps fun s => s.EllipticCurves, defaultKeyPair_bind ps fun s => s.EllipticCurve]
  exact preferEnforced_match _ _

theorem tppOrganizationalUnit_eq (ps : PolicySpecification) :
    tppOrganizationalUnit ps = preferEnforced (enforcedBySubject ps fun s => s.OrgUnits)
      (heldOrgUnit ps) := by
  unfold tppOrganizationalUnit
  rw [policySubject_bind ps fun s => s.OrgUnits]
  have h : ((defaultSubject? ps).bind fun ds => firstNonEmpty ds.OrgUnits) = heldOrgUnit ps := by
    unfold defaultSubject? heldOrgUnit
    cases ps.Default <;> simp [firstNonEmpty_eq]
  rw [h]
  exact preferEnforced_match _ _

theorem tppManualCsr_eq (ps : PolicySpecification) :
    tppManualCsr ps = preferEnforced (enforcedGenerationType ps)
      (heldByKeyPair ps fun k => k.GenerationType) := by
  unfold tppManualCsr
  rw [defaultKeyPair_bind ps fun k => k.GenerationType]
  have h : ((policyKeyPair? ps).bind fun k => setNonEmpty k.GenerationType)
      = enforcedGenerationType ps := by
    unfold policyKeyPair? enforcedGenerationType
    cases ps.Policy <;> simp [setNonEmpty_eq]
  rw [h]
  exact preferEnforced_match _ _

theorem tppKeyBitStrength_eq (ps : PolicySpecification) :
    tppKeyBitStrength ps = preferEnforced (enforcedKeySize ps) (heldKeySize ps) := by
  unfold tppKeyBitStrength
  have h1 : ∀ l : Slice Int,
      (match l with
        | some (rsaKey :: _) => if rsaKey ≠ 0 then some rsaKey else none
        | _ => none) = enforcedSize l := by
    intro l
    unfold enforcedSize
    rcases l with _ | _ | ⟨v, t⟩
    · rfl
    · rfl
    · by_cases h : v = 0 <;> simp [elems, Option.filter, h]
  have h2 : ∀ v : Option Int,
      (match v with
        | some sz => if sz ≠ 0 then some sz else none
        | none => none) = heldSize v := by
    intro v
    unfold heldSize
    rcases v with _ | v
    · rfl
    · by_cases h : v = 0 <;> simp [Option.filter, h]
  simp only [h1, h2]
  unfold policyKeyPair? defaultKeyPair? enforcedKeySize heldKeySize enforcedSizeOf heldSizeOf
  generalize ps.Policy = pol
  generalize ps.Default = dflt
  rcases pol with _ | ⟨_, _, _, _, _, kp, _⟩ <;> rcases dflt with _ | ⟨_, dkp⟩
  · rfl
  · rcases dkp with _ | dk
    · rfl
    · cases hh : heldSize dk.RsaKeySize <;>
        simp [hh, preferEnforced, createLockedAttribute]
  · rcases kp with _ | k
    · rfl
    · cases he : enforcedSize k.RsaKeySizes <;>
        simp [he, preferEnforced, createLockedAttribute]
  · rcases kp with _ | k <;> rcases dkp with _ | dk
    · rfl
    · cases hh : heldSize dk.RsaKeySize <;>
        simp [hh, preferEnforced, createLockedAttribute]
    · cases he : enforcedSize k.RsaKeySizes <;>
        simp [he, preferEnforced, createLockedAttribute]
    · cases he : enforcedSize k.RsaKeySizes <;> cases hh : heldSize dk.RsaKeySize <;>
        simp [he, hh, preferEnforced, createLockedAttribute]

theorem tppOrganization_ok (ps : PolicySpecification) (org : Option LockedAttribute)
    (h : tppOrganization ps = .ok org) :
    org = preferEnforced (enforcedBySubject ps fun s => s.Orgs)
      (heldBySubject ps fun s => s.Org) := by
  unfold tppOrganization at h
  rw [policySubject_bind ps fun s => s.Orgs] at h
  unfold heldBySubject
  unfold defaultSubject? at h
  cases he : enforcedBySubject ps fun s => s.Orgs with
  | some v =>
    rw [he] at h
    simp only [pure, Except.pure, createLockedAttribute, Except.ok.injEq] at h
    rw [← h]
    rfl
  | none =>
    rw [he] at h
    cases hd : ps.Default with
    | none =>
      simp only [hd, pure, Except.pure, Except.ok.injEq] at h
      rw [← h]
      rfl
    | some d =>
      cases hds : d.Subject with
      | none =>
        simp only [hd, hds, pure, Except.pure, Except.ok.injEq] at h
        rw [← h]
        simp [preferEnforced, hds]
      | some ds =>
        cases ho : ds.Org with
        | none => simp [hd, hds, ho, deref, bind, Except.bind] at h
        | some o =>
          by_cases hoe : o = ""
          · simp [hd, hds, ho, deref, bind, Except.bind, hoe, pure, Except.pure] at h
            rw [← h]
            simp [preferEnforced, hds, ho, heldValue, Option.filter, hoe]
          · simp [hd, hds, ho, deref, bind, Except.bind, hoe, pure, Except.pure,
              createLockedAttribute] at h
            rw [← h]
            simp [preferEnforced, hds, ho, heldValue, Option.filter, hoe]

theorem BuildTppPolicy_ok (ps : PolicySpecification) (doc : TppPolicy)
    (h : BuildTppPolicy ps = .ok doc) :
    ∃ org, tppOrganization ps = .ok org ∧
      doc =
        { Contact := ps.Users
          Approver := ps.Approvers
          DomainSuffixWhitelist := match ps.Policy with
            | some p => p.Domains
            | none => none
          ProhibitWildcard := tppProhibitWildcard ps
          CertificateAuthority := match ps.Policy with
            | some p => p.CertificateAuthority
            | none => none
          Organization := org
          OrganizationalUnit := tppOrganizationalUnit ps
          City := tppCity ps
          State := tppState ps
          Country := tppCountry ps
          KeyAlgorithm := tppKeyAlgorithm ps
          KeyBitStrength := tppKeyBitStrength ps
          EllipticCurve := tppEllipticCurve ps
          ManualCsr := tppManualCsr ps
          AllowPrivateKeyReuse := tppReuse ps
          WantRenewal := tppReuse ps
          ProhibitedSANType := tppProhibitedSANType ps } := by
  unfold BuildTppPolicy at h
  cases ho : tppOrganization ps with
  | error e =>
    rw [ho] at h
    simp [bind, Except.bind] at h
  | ok org =>
    rw [ho] at h
    simp only [bind, Except.bind, pure, Except.pure, Except.ok.injEq] at h
    exact ⟨org, rfl, h.symm⟩

/-- C7: whenever `BuildTppPolicy` returns a document, each of the nine
attributes Organization, OrganizationalUnit, City, State, Country,
KeyAlgorithm, KeyBitStrength, EllipticCurve, ManualCsr follows the rule
"enforced value locked, else default value unlocked, else absent"; an
enforced value wins over a different default, and KeyBitStrength carries the
decimal rendering (`Itoa`) of the integer size. -/
theorem C7_prefer_enforced (ps : PolicySpecification) (doc : TppPolicy)
    (h : BuildTppPolicy ps = .ok doc) :
    doc.Organization = preferEnforced (enforcedBySubject ps fun s => s.Orgs)
        (heldBySubject ps fun s => s.Org) ∧
    doc.OrganizationalUnit = preferEnforced (enforcedBySubject ps fun s => s.OrgUnits)
        (heldOrgUnit ps) ∧
    doc.City = preferEnforced (enforcedBySubject ps fun s => s.Localities)
        (heldBySubject ps fun s => s.Locality) ∧
    doc.State = preferEnforced (enforcedBySubject ps fun s => s.States)
        (heldBySubject ps fun s => s.State) ∧
    doc.Country = preferEnforced (enforcedBySubject ps fun s => s.Countries)
        (heldBySubject ps fun s => s.Country) ∧
    doc.KeyAlgorithm = preferEnforced (enforcedByKeyPair ps fun k => k.KeyTypes)
        (heldByKeyPair ps fun k => k.KeyType) ∧
    doc.KeyBitStrength = preferEnforced (enforcedKeySize ps) (heldKeySize ps) ∧
    doc.EllipticCurve = preferEnforced (enforcedByKeyPair ps fun k => k.EllipticCurves)
        (heldByKeyPair ps fun k => k.EllipticCurve) ∧
    doc.ManualCsr = preferEnforced (enforcedGenerationType ps)
        (heldByKeyPair ps fun k => k.GenerationType) := by
  obtain ⟨org, horg, hdoc⟩ := BuildTppPolicy_ok ps doc h
  have ho := tppOrganization_ok ps org horg
  subst hdoc
  exact ⟨ho, tppOrganizationalUnit_eq ps, tppCity_eq ps, tppState_eq ps, tppCountry_eq ps,
    tppKeyAlgorithm_eq ps, tppKeyBitStrength_eq ps, tppEllipticCurve_eq ps, tppManualCsr_eq ps⟩

theorem C7_prefer_enforced_witness :
    BuildTppPolicy specPreferEnforced = .ok docPreferEnforced ∧
    docPreferEnforced.Organization = preferEnforced
      (enforcedBySubject specPreferEnforced fun s => s.Orgs)
      (heldBySubject specPreferEnforced fun s => s.Org) :=
  ⟨by decide, (C7_prefer_enforced specPreferEnforced docPreferEnforced (by decide)).1⟩

/-- C8 (code defect): a document that carries only `ProhibitWildcard` (0 or
1) and no locked attribute, reuse flag or prohibited-SAN list is turned into
a specification without any `Policy`: the computed `WildcardAllowed` is
written into a policy record that the final test of lines 602-604 drops. -/
theorem C8_wildcard_only_document_loses_policy :
    BuildPolicySpecificationForTPP { ProhibitWildcard := some 0 }
      = .ok { Users := none, Approvers := none, Policy := none, Default := none } ∧
    BuildPolicySpecificationForTPP { ProhibitWildcard := some 1 }
      = .ok { Users := none, Approvers := none, Policy := none, Default := none } := by
  decide

/-- C9: whenever `BuildTppPolicy` returns a document, its `ProhibitWildcard`
is 0 when `Policy.WildcardAllowed` is explicitly true, 1 when it is
explicitly false, and unset when `Policy` is absent or `WildcardAllowed` is
unset. -/
theorem C9_prohibit_wildcard_inverted (ps : PolicySpecification) (doc : TppPolicy)
    (h : BuildTppPolicy ps = .ok doc) :
    (∀ p, ps.Policy = some p → p.WildcardAllowed = some true → doc.ProhibitWildcard = some 0) ∧
    (∀ p, ps.Policy = some p → p.WildcardAllowed = some false → doc.ProhibitWildcard = some 1) ∧
    (ps.Policy = none → doc.ProhibitWildcard = none) ∧
    (∀ p, ps.Policy = some p → p.WildcardAllowed = none → doc.ProhibitWildcard = none) := by
  obtain ⟨org, _, hdoc⟩ := BuildTppPolicy_ok ps doc h
  subst hdoc
  refine ⟨?_, ?_, ?_, ?_⟩
  · intro p hp hw
    simp [tppProhibitWildcard, hp, hw]
  · intro p hp hw
    simp [tppProhibitWildcard, hp, hw]
  · intro hp
    simp [tppProhibitWildcard, hp]
  · intro p hp hw
    simp [tppProhibitWildcard, hp, hw]

theorem C9_prohibit_wildcard_inverted_witness :
    BuildTppPolicy specPreferEnforced = .ok docPreferEnforced ∧
    docPreferEnforced.ProhibitWildcard = some 0 :=
  ⟨by decide,
    (C9_prohibit_wildcard_inverted specPreferEnforced docPreferEnforced (by decide)).1
      _ rfl rfl⟩

/-- C10: whenever `BuildTppPolicy` returns a document, `AllowPrivateKeyReuse`
and `WantRenewal` are both unset when `Policy.KeyPair.ReuseAllowed` is unset,
both 1 when it is true and both 0 when it is false. -/
theorem C10_reuse_flags_mirrored (ps : PolicySpecification) (doc : TppPolicy)
    (h : BuildTppPolicy ps = .ok doc) :
    (policyReuseAllowed ps = none →
      doc.AllowPrivateKeyReuse = none ∧ doc.WantRenewal = none) ∧
    (policyReuseAllowed ps = some true →
      doc.AllowPrivateKeyReuse = some 1 ∧ doc.WantRenewal = some 1) ∧
    (policyReuseAllowed ps = some false →
      doc.AllowPrivateKeyReuse = some 0 ∧ doc.WantRenewal = some 0) := by
  obtain ⟨org, _, hdoc⟩ := BuildTppPolicy_ok ps doc h
  subst hdoc
  have hr : ((policyKeyPair? ps).bind fun k => k.ReuseAllowed) = policyReuseAllowed ps := by
    unfold policyKeyPair? policyReuseAllowed
    cases ps.Policy <;> rfl
  simp only [tppReuse, hr]
  refine ⟨?_, ?_, ?_⟩ <;> intro hv <;> rw [hv] <;> simp

theorem C10_reuse_flags_mirrored_witness :
    BuildTppPolicy specPreferEnforced = .ok docPreferEnforced ∧
    docPreferEnforced.AllowPrivateKeyReuse = some 1 ∧
    docPreferEnforced.WantRenewal = some 1 :=
  ⟨by decide,
    (C10_reuse_flags_mirrored specPreferEnforced docPreferEnforced (by decide)).2.1
      (by decide)⟩

/-! ## Lemmas on the decimal conversions -/

theorem digitVal_digitChar (d : Nat) (h : d < 10) : digitVal (digitChar d) = some d := by
  interval_cases d <;> decide

theorem digitChar_ne_sign (d : Nat) (h : d < 10) : digitChar d ≠ '-' ∧ digitChar d ≠ '+' := by
  interval_cases d <;> decide

theorem parseDigits_map (l : List Nat) (hl : ∀ d ∈ l, d < 10) (acc : Nat) :
    parseDigits (l.map digitChar) acc = some (l.foldl (fun a d => a * 10 + d) acc) := by
  induction l generalizing acc with
  | nil => rfl
  | cons d t ih =>
    have hd : d < 10 := hl d (List.mem_cons_self _ _)
    simp only [List.map_cons, parseDigits, digitVal_digitChar d hd, List.foldl_cons]
    exact ih (fun x hx => hl x (List.mem_cons_of_mem _ hx)) _

theorem decDigits_lt (fuel n : Nat) : ∀ d ∈ decDigits fuel n, d < 10 := by
  induction fuel generalizing n with
  | zero => intro d hd; simp [decDigits] at hd
  | succ f ih =>
    intro d hd
    unfold decDigits at hd
    split at hd
    · simp at hd; omega
    · simp only [List.mem_cons] at hd
      rcases hd with hd | hd
      · omega
      · exact ih _ d hd

theorem decDigits_value (fuel n : Nat) (h : n < fuel) :
    (decDigits fuel n).foldr (fun d a => a * 10 + d) 0 = n := by
  induction fuel generalizing n with
  | zero => omega
  | succ f ih =>
    unfold decDigits
    split
    · simp
    · simp only [List.foldr_cons]
      rw [ih (n / 10) (by omega)]
      omega

theorem decDigits_ne_nil (fuel n : Nat) : decDigits (fuel + 1) n ≠ [] := by
  unfold decDigits
  split <;> simp

theorem parseUnsigned_natToDecimal (n : Nat) : parseUnsigned (natToDecimal n) = some n := by
  unfold parseUnsigned natToDecimal
  have hne : ((decDigits (n + 1) n).reverse).map digitChar ≠ [] := by
    simp [decDigits_ne_nil]
  split
  · rename_i heq
    exact absurd heq hne
  · rw [parseDigits_map _ (by
      intro d hd
      exact decDigits_lt _ _ d (List.mem_reverse.mp hd))]
    rw [List.foldl_reverse]
    rw [decDigits_value (n + 1) n (by omega)]

theorem natToDecimal_head (n : Nat) :
    ∃ c cs, natToDecimal n = c :: cs ∧ c ≠ '-' ∧ c ≠ '+' := by
  unfold natToDecimal
  have hne : (decDigits (n + 1) n).reverse ≠ [] := by simp [decDigits_ne_nil]
  cases hrev : (decDigits (n + 1) n).reverse with
  | nil => exact absurd hrev hne
  | cons d t =>
    have hd : d < 10 := by
      apply decDigits_lt (n + 1) n d
      rw [← List.mem_reverse, hrev]
      exact List.mem_cons_self _ _
    exact ⟨digitChar d, t.map digitChar, rfl, digitChar_ne_sign d hd⟩

/-- `strconv.Atoi` reads back what `strconv.Itoa` writes, for every 64-bit
integer. -/
theorem Atoi_Itoa (n : Int) (hlo : -(2 : Int) ^ 63 ≤ n) (hhi : n < (2 : Int) ^ 63) :
    Atoi (Itoa n) = .ok n := by
  unfold Itoa
  by_cases hn : n < 0
  · simp only [hn, if_true]
    unfold Atoi
    simp only [parseUnsigned_natToDecimal]
    have h1 : n.natAbs ≤ 2 ^ 63 := by omega
    simp only [h1, if_true]
    congr 1
    omega
  · simp only [hn, if_false]
    obtain ⟨c, cs, hcs, hc1, hc2⟩ := natToDecimal_head n.natAbs
    have hp := parseUnsigned_natToDecimal n.natAbs
    rw [hcs] at hp
    unfold Atoi
    rw [hcs]
    have h1 : n.natAbs < 2 ^ 63 := by omega
    split
    · rename_i heq
      simp at heq
      exact absurd heq.1 hc1
    · rename_i heq
      simp at heq
      exact absurd heq.1 hc2
    · simp only [hp, h1, if_true]
      congr 1
      omega

/-! ## Lemmas on the reverse translation of one attribute -/

theorem lockedList_prefer (e d : Option String) :
    lockedList (preferEnforced e d) = e.map fun v => [v] := by
  cases e <;> cases d <;> rfl

theorem lockedValue_prefer (e d : Option String) :
    lockedValue (preferEnforced e d) = e := by
  cases e <;> cases d <;> rfl

theorem isLocked_prefer (e d : Option String) :
    isLocked (preferEnforced e d) = e.isSome := by
  cases e <;> cases d <;> rfl

theorem unlockedValue_prefer (e d : Option String) (h : (d.isSome && e.isSome) = false) :
    unlockedValue (preferEnforced e d) = d := by
  cases e <;> cases d <;> first | rfl | simp at h

theorem unlockedList_prefer (e d : Option String) (h : (d.isSome && e.isSome) = false) :
    unlockedList (preferEnforced e d) = d.map fun v => [v] := by
  cases e <;> cases d <;> first | rfl | simp at h

theorem isUnlocked_prefer (e d : Option String) (h : (d.isSome && e.isSome) = false) :
    isUnlocked (preferEnforced e d) = d.isSome := by
  cases e <;> cases d <;> first | rfl | simp at h

theorem enforcedValue_stable (l : Slice String) (h : stableList l = true) :
    ((enforcedValue l).map fun v => [v]) = l ∧ (enforcedValue l).isSome = l.isSome := by
  rcases l with _ | _ | ⟨v, _ | ⟨w, t⟩⟩
  · exact ⟨rfl, rfl⟩
  · simp [stableList] at h
  · simp only [stableList, decide_eq_true_eq] at h
    simp [enforcedValue, elems, Option.filter, h]
  · simp [stableList] at h

theorem heldValue_stable (v : Option String) (h : stableValue v = true) : heldValue v = v := by
  rcases v with _ | v
  · rfl
  · simp only [stableValue, decide_eq_true_eq] at h
    simp [heldValue, Option.filter, h]

/-! ## Lemmas on the round trip through the Backend-A document -/

theorem tppOrganization_total (ps : PolicySpecification)
    (h : ∀ d ds, ps.Default = some d → d.Subject = some ds → ds.Org = none →
      (enforcedBySubject ps fun s => s.Orgs).isSome = true) :
    tppOrganization ps = .ok (preferEnforced (enforcedBySubject ps fun s => s.Orgs)
      (heldBySubject ps fun s => s.Org)) := by
  cases hr : tppOrganization ps with
  | ok org => rw [tppOrganization_ok ps org hr]
  | error e =>
    exfalso
    unfold tppOrganization at hr
    rw [policySubject_bind ps fun s => s.Orgs] at hr
    unfold defaultSubject? at hr
    cases he : enforcedBySubject ps fun s => s.Orgs with
    | some v => simp [he, pure, Except.pure] at hr
    | none =>
      rw [he] at hr
      cases hd : ps.Default with
      | none => simp [hd, pure, Except.pure] at hr
      | some d =>
        cases hds : d.Subject with
        | none => simp [hd, hds, pure, Except.pure] at hr
        | some ds =>
          cases ho : ds.Org with
          | none =>
            have := h d ds hd hds ho
            rw [he] at this
            simp at this
          | some o =>
            by_cases hoe : o = "" <;>
              simp [hd, hds, ho, deref, bind, Except.bind, hoe, pure, Except.pure] at hr

theorem BuildTppPolicy_of_org (ps : PolicySpecification) (org : Option LockedAttribute)
    (h : tppOrganization ps = .ok org) :
    BuildTppPolicy ps = .ok
      { Contact := ps.Users
        Approver := ps.Approvers
        DomainSuffixWhitelist := match ps.Policy with
          | some p => p.Domains
          | none => none
        ProhibitWildcard := tppProhibitWildcard ps
        CertificateAuthority := match ps.Policy with
          | some p => p.CertificateAuthority
          | none => none
        Organization := org
        OrganizationalUnit := tppOrganizationalUnit ps
        City := tppCity ps
        State := tppState ps
        Country := tppCountry ps
        KeyAlgorithm := tppKeyAlgorithm ps
        KeyBitStrength := tppKeyBitStrength ps
        EllipticCurve := tppEllipticCurve ps
        ManualCsr := tppManualCsr ps
        AllowPrivateKeyReuse := tppReuse ps
        WantRenewal := tppReuse ps
        ProhibitedSANType := tppProhibitedSANType ps } := by
  unfold BuildTppPolicy
  rw [h]
  rfl

theorem resolveWildcardAllowed_inverts (t : TppPolicy) (w : Option Bool)
    (ht : t.ProhibitWildcard = match w with
      | some b => if b then some 0 else some 1
      | none => none) :
    resolveWildcardAllowed t = .ok w := by
  unfold resolveWildcardAllowed
  rw [ht]
  rcases w with _ | _ | _ <;> rfl

theorem resolveReuseAllowed_inverts (t : TppPolicy) (r : Option Bool)
    (ht : t.AllowPrivateKeyReuse = match r with
      | some b => if b then some 1 else some 0
      | none => none)
    (ht2 : t.WantRenewal = t.AllowPrivateKeyReuse) :
    resolveReuseAllowed t = .ok r := by
  unfold resolveReuseAllowed
  rw [ht2, ht]
  rcases r with _ | _ | _ <;> rfl

theorem resolveRsaKeySize_inverts (t : TppPolicy) (e h : Option Int)
    (he : ∀ n, e = some n → isGoInt n = true) (hh : ∀ n, h = some n → isGoInt n = true)
    (ht : t.KeyBitStrength = preferEnforced (e.map Itoa) (h.map Itoa)) :
    resolveRsaKeySize t = .ok (e.orElse fun _ => h) := by
  unfold resolveRsaKeySize
  rw [ht]
  rcases e with _ | n
  · rcases h with _ | m
    · rfl
    · have hm := hh m rfl
      simp only [isGoInt, decide_eq_true_eq] at hm
      simp [preferEnforced, Atoi_Itoa m hm.1 hm.2, bind, Except.bind, pure, Except.pure]
  · have hn := he n rfl
    simp only [isGoInt, decide_eq_true_eq] at hn
    simp [preferEnforced, Atoi_Itoa n hn.1 hn.2, bind, Except.bind, pure, Except.pure]

theorem resolveSubjectAltNames_getProhibited (sa : SubjectAltNames)
    (hall : sanAllSet sa = true) (hsome : sanSomeProhibited sa = true) :
    resolveSubjectAltNames (getProhibitedSanTypes sa) = some sa := by
  obtain ⟨dns, ip, em, uri, upn⟩ := sa
  rcases dns with _ | _ | _ <;> rcases ip with _ | _ | _ <;> rcases em with _ | _ | _ <;>
    rcases uri with _ | _ | _ <;> rcases upn with _ | _ | _ <;>
    first
      | (exfalso; revert hall; decide)
      | (exfalso; revert hsome; decide)
      | decide

theorem enforcedBySubject_of_policy (ps : PolicySpecification) (p : Policy)
    (hp : ps.Policy = some p) (f : Subject → Slice String) :
    enforcedBySubject ps f = p.Subject.bind fun s => enforcedValue (f s) := by
  unfold enforcedBySubject
  rw [hp]
  rfl

theorem enforcedByKeyPair_of_policy (ps : PolicySpecification) (p : Policy)
    (hp : ps.Policy = some p) (f : KeyPair → Slice String) :
    enforcedByKeyPair ps f = p.KeyPair.bind fun k => enforcedValue (f k) := by
  unfold enforcedByKeyPair
  rw [hp]
  rfl

theorem heldBySubject_of_default (ps : PolicySpecification) (d : Default)
    (hd : ps.Default = some d) (f : DefaultSubject → Option String) :
    heldBySubject ps f = d.Subject.bind fun s => heldValue (f s) := by
  unfold heldBySubject
  rw [hd]
  rfl

theorem heldByKeyPair_of_default (ps : PolicySpecification) (d : Default)
    (hd : ps.Default = some d) (f : DefaultKeyPair → Option String) :
    heldByKeyPair ps f = d.KeyPair.bind fun k => heldValue (f k) := by
  unfold heldByKeyPair
  rw [hd]
  rfl

/-- The `Policy.Subject` container comes back unchanged. -/
theorem subject_container (ps : PolicySpecification) (p : Policy) (hp : ps.Policy = some p)
    (hs : (match p.Subject with
      | some s => subjectStable s
      | none => true) = true)
    (d1 d2 d3 d4 d5 : Option String) :
    (if (isLocked (preferEnforced (enforcedBySubject ps fun s => s.Orgs) d1) ||
          isLocked (preferEnforced (enforcedBySubject ps fun s => s.OrgUnits) d2) ||
          isLocked (preferEnforced (enforcedBySubject ps fun s => s.Localities) d3) ||
          isLocked (preferEnforced (enforcedBySubject ps fun s => s.States) d4) ||
          isLocked (preferEnforced (enforcedBySubject ps fun s => s.Countries) d5)) = true
      then some
        ({ Orgs := lockedList (preferEnforced (enforcedBySubject ps fun s => s.Orgs) d1)
           OrgUnits := lockedList (preferEnforced (enforcedBySubject ps fun s => s.OrgUnits) d2)
           Localities := lockedList (preferEnforced (enforcedBySubject ps fun s => s.Localities) d3)
           States := lockedList (preferEnforced (enforcedBySubject ps fun s => s.States) d4)
           Countries := lockedList (preferEnforced (enforcedBySubject ps fun s => s.Countries) d5) }
          : Subject)
      else none) = p.Subject := by
  simp only [lockedList_prefer, isLocked_prefer, enforcedBySubject_of_policy ps p hp]
  cases hS : p.Subject with
  | none => rfl
  | some s =>
    rw [hS] at hs
    simp only [subjectStable, Bool.and_eq_true, and_assoc] at hs
    obtain ⟨h1, h2, h3, h4, h5, h6⟩ := hs
    simp only [Option.bind, (enforcedValue_stable _ h1).1, (enforcedValue_stable _ h2).1,
      (enforcedValue_stable _ h3).1, (enforcedValue_stable _ h4).1, (enforcedValue_stable _ h5).1,
      (enforcedValue_stable _ h1).2, (enforcedValue_stable _ h2).2,
      (enforcedValue_stable _ h3).2, (enforcedValue_stable _ h4).2, (enforcedValue_stable _ h5).2,
      h6, if_true]

theorem enforcedSize_stable (l : Slice Int) (h : stableSizes l = true) :
    ((enforcedSize l).map fun v => [v]) = l ∧ (enforcedSize l).isSome = l.isSome := by
  rcases l with _ | _ | ⟨v, _ | ⟨w, t⟩⟩
  · exact ⟨rfl, rfl⟩
  · simp [stableSizes] at h
  · simp only [stableSizes, decide_eq_true_eq] at h
    simp [enforcedSize, elems, Option.filter, h]
  · simp [stableSizes] at h

theorem enforcedSize_mem (l : Slice Int) (n : Int) (h : enforcedSize l = some n) :
    n ∈ elems l := by
  rcases l with _ | _ | ⟨v, t⟩
  · simp [enforcedSize, elems] at h
  · simp [enforcedSize, elems] at h
  · by_cases hv : v = 0
    · simp [enforcedSize, elems, Option.filter, hv] at h
    · simp [enforcedSize, elems, Option.filter, hv] at h
      simp [elems, h]

theorem validateKeyPair_of_validated (ps : PolicySpecification) (p : Policy)
    (hp : ps.Policy = some p) (hv : ValidateTppPolicySpecification ps = .ok ()) :
    validateKeyPair ps = .ok () := by
  rw [ValidateTppPolicySpecification_of_policy ps p hp] at hv
  cases h1 : validatePolicySubject ps with
  | error e => simp [h1, bind, Except.bind] at hv
  | ok u =>
    cases h2 : validateKeyPair ps with
    | error e => simp [h1, h2, bind, Except.bind] at hv
    | ok u2 => rfl

theorem heldSize_stable (v : Option Int) (h : stableSize v = true) :
    heldSize v = v ∧ ∀ n, v = some n → isGoInt n = true := by
  rcases v with _ | v
  · exact ⟨rfl, by intro n hn; cases hn⟩
  · simp only [stableSize, Bool.and_eq_true, decide_eq_true_eq] at h
    refine ⟨by simp [heldSize, Option.filter, h.1], ?_⟩
    intro n hn
    cases hn
    exact h.2

theorem enforcedSizeOf_of_policy (ps : PolicySpecification) (p : Policy)
    (hp : ps.Policy = some p) :
    enforcedSizeOf ps = p.KeyPair.bind fun k => enforcedSize k.RsaKeySizes := by
  unfold enforcedSizeOf
  rw [hp]
  rfl

theorem enforcedGenerationType_of_policy (ps : PolicySpecification) (p : Policy)
    (hp : ps.Policy = some p) :
    enforcedGenerationType ps = p.KeyPair.bind fun k => heldValue k.GenerationType := by
  unfold enforcedGenerationType
  rw [hp]
  rfl

theorem policyReuseAllowed_of_policy (ps : PolicySpecification) (p : Policy)
    (hp : ps.Policy = some p) :
    policyReuseAllowed ps = p.KeyPair.bind fun k => k.ReuseAllowed := by
  unfold policyReuseAllowed
  rw [hp]
  rfl

theorem tppReuse_eq (ps : PolicySpecification) :
    tppReuse ps = match policyReuseAllowed ps with
      | some b => if b then some 1 else some 0
      | none => none := by
  unfold tppReuse policyKeyPair? policyReuseAllowed
  cases ps.Policy <;> rfl

theorem tppReuse_isSome (ps : PolicySpecification) :
    (tppReuse ps).isSome = (policyReuseAllowed ps).isSome := by
  rw [tppReuse_eq]
  rcases policyReuseAllowed ps with _ | _ | _ <;> rfl

/-- The `Policy.KeyPair` container comes back unchanged. -/
theorem keyPair_container (ps : PolicySpecification) (p : Policy) (hp : ps.Policy = some p)
    (hs : (match p.KeyPair with
      | some k => keyPairStable k
      | none => true) = true)
    (d1 d2 d3 d4 : Option String) (h : Option Int) :
    (if (isLocked (preferEnforced (enforcedByKeyPair ps fun k => k.KeyTypes) d1) ||
          isLocked (preferEnforced (enforcedKeySize ps) d2) ||
          isLocked (preferEnforced (enforcedByKeyPair ps fun k => k.EllipticCurves) d3) ||
          isLocked (preferEnforced (enforcedGenerationType ps) d4) ||
          (tppReuse ps).isSome || (tppReuse ps).isSome) = true
      then some
        ({ KeyTypes := lockedList (preferEnforced (enforcedByKeyPair ps fun k => k.KeyTypes) d1)
           RsaKeySizes :=
             if isLocked (preferEnforced (enforcedKeySize ps) d2) = true
             then ((enforcedSizeOf ps).orElse fun _ => h).map fun i => [i]
             else none
           EllipticCurves :=
             lockedList (preferEnforced (enforcedByKeyPair ps fun k => k.EllipticCurves) d3)
           GenerationType := lockedValue (preferEnforced (enforcedGenerationType ps) d4)
           ReuseAllowed := policyReuseAllowed ps } : KeyPair)
      else none) = p.KeyPair := by
  simp only [lockedList_prefer, lockedValue_prefer, isLocked_prefer, tppReuse_isSome,
    enforcedKeySize, enforcedByKeyPair_of_policy ps p hp, enforcedSizeOf_of_policy ps p hp,
    enforcedGenerationType_of_policy ps p hp, policyReuseAllowed_of_policy ps p hp]
  cases hK : p.KeyPair with
  | none => rfl
  | some k =>
    rw [hK] at hs
    simp only [keyPairStable, Bool.and_eq_true, and_assoc] at hs
    obtain ⟨h1, h2, h3, h4, h5⟩ := hs
    have hz := enforcedSize_stable _ h2
    simp only [Option.bind, (enforcedValue_stable _ h1).1, (enforcedValue_stable _ h3).1,
      (enforcedValue_stable _ h1).2, (enforcedValue_stable _ h3).2, heldValue_stable _ h4,
      Option.isSome_map', hz.2]
    have hsz : (if k.RsaKeySizes.isSome = true
        then Option.map (fun i => [i]) ((enforcedSize k.RsaKeySizes).orElse fun _ => h)
        else none) = k.RsaKeySizes := by
      cases he : enforcedSize k.RsaKeySizes with
      | none =>
        have h0 := hz.1
        rw [he] at h0
        simp at h0
        rw [← h0]
        rfl
      | some n =>
        have h0 := hz.1
        rw [he] at h0
        simp at h0
        rw [← h0]
        rfl
    rw [hsz]
    have hany : (k.KeyTypes.isSome || k.RsaKeySizes.isSome || k.EllipticCurves.isSome ||
        k.GenerationType.isSome || k.ReuseAllowed.isSome || k.ReuseAllowed.isSome) = true := by
      simp only [Bool.or_eq_true] at h5 ⊢
      tauto
    rw [if_pos hany]

/-- The `Default.Subject` container comes back unchanged. -/
theorem defaultSubject_container (dsub : Option DefaultSubject) (e1 e2 e3 e4 e5 : Option String)
    (hst : ∀ ds, dsub = some ds →
      stableValue ds.Org = true ∧ stableList ds.OrgUnits = true ∧
      stableValue ds.Locality = true ∧ stableValue ds.State = true ∧
      stableValue ds.Country = true ∧
      (ds.Org.isSome || ds.OrgUnits.isSome || ds.Locality.isSome || ds.State.isSome ||
        ds.Country.isSome) = true ∧
      (ds.Org.isSome && e1.isSome) = false ∧ (ds.OrgUnits.isSome && e2.isSome) = false ∧
      (ds.Locality.isSome && e3.isSome) = false ∧ (ds.State.isSome && e4.isSome) = false ∧
      (ds.Country.isSome && e5.isSome) = false) :
    (if (isUnlocked (preferEnforced e1 (dsub.bind fun s => heldValue s.Org)) ||
          isUnlocked (preferEnforced e2 (dsub.bind fun s => enforcedValue s.OrgUnits)) ||
          isUnlocked (preferEnforced e3 (dsub.bind fun s => heldValue s.Locality)) ||
          isUnlocked (preferEnforced e4 (dsub.bind fun s => heldValue s.State)) ||
          isUnlocked (preferEnforced e5 (dsub.bind fun s => heldValue s.Country))) = true
      then some
        ({ Org := unlockedValue (preferEnforced e1 (dsub.bind fun s => heldValue s.Org))
           OrgUnits :=
             unlockedList (preferEnforced e2 (dsub.bind fun s => enforcedValue s.OrgUnits))
           Locality := unlockedValue (preferEnforced e3 (dsub.bind fun s => heldValue s.Locality))
           State := unlockedValue (preferEnforced e4 (dsub.bind fun s => heldValue s.State))
           Country := unlockedValue (preferEnforced e5 (dsub.bind fun s => heldValue s.Country)) }
          : DefaultSubject)
      else none) = dsub := by
  rcases dsub with _ | ds
  · simp only [Option.bind]
    rw [isUnlocked_prefer e1 none rfl, isUnlocked_prefer e2 none rfl,
      isUnlocked_prefer e3 none rfl, isUnlocked_prefer e4 none rfl,
      isUnlocked_prefer e5 none rfl]
    rfl
  · obtain ⟨h1, h2, h3, h4, h5, h6, n1, n2, n3, n4, n5⟩ := hst ds rfl
    simp only [Option.bind, heldValue_stable _ h1, heldValue_stable _ h3, heldValue_stable _ h4,
      heldValue_stable _ h5]
    have n2b : ((enforcedValue ds.OrgUnits).isSome && e2.isSome) = false := by
      rw [(enforcedValue_stable _ h2).2]
      exact n2
    rw [isUnlocked_prefer e1 _ n1, isUnlocked_prefer e2 _ n2b, isUnlocked_prefer e3 _ n3,
      isUnlocked_prefer e4 _ n4, isUnlocked_prefer e5 _ n5,
      unlockedValue_prefer e1 _ n1, unlockedList_prefer e2 _ n2b, unlockedValue_prefer e3 _ n3,
      unlockedValue_prefer e4 _ n4, unlockedValue_prefer e5 _ n5,
      (enforcedValue_stable _ h2).1, (enforcedValue_stable _ h2).2, if_pos h6]

/-- The `Default.KeyPair` container comes back unchanged. -/
theorem defaultKeyPair_container (dkp : Option DefaultKeyPair) (e1 e3 e4 : Option String)
    (eSize : Option Int)
    (hst : ∀ dk, dkp = some dk →
      stableValue dk.KeyType = true ∧ stableSize dk.RsaKeySize = true ∧
      stableValue dk.EllipticCurve = true ∧ stableValue dk.GenerationType = true ∧
      dk.ReuseAllowed = none ∧
      (dk.KeyType.isSome || dk.RsaKeySize.isSome || dk.EllipticCurve.isSome ||
        dk.GenerationType.isSome) = true ∧
      (dk.KeyType.isSome && e1.isSome) = false ∧ (dk.RsaKeySize.isSome && eSize.isSome) = false ∧
      (dk.EllipticCurve.isSome && e3.isSome) = false ∧
      (dk.GenerationType.isSome && e4.isSome) = false) :
    (if (isUnlocked (preferEnforced e1 (dkp.bind fun k => heldValue k.KeyType)) ||
          isUnlocked (preferEnforced (eSize.map Itoa)
            ((dkp.bind fun k => heldSize k.RsaKeySize).map Itoa)) ||
          isUnlocked (preferEnforced e3 (dkp.bind fun k => heldValue k.EllipticCurve)) ||
          isUnlocked (preferEnforced e4 (dkp.bind fun k => heldValue k.GenerationType))) = true
      then some
        ({ KeyType := unlockedValue (preferEnforced e1 (dkp.bind fun k => heldValue k.KeyType))
           RsaKeySize :=
             if isUnlocked (preferEnforced (eSize.map Itoa)
               ((dkp.bind fun k => heldSize k.RsaKeySize).map Itoa)) = true
             then eSize.orElse fun _ => dkp.bind fun k => heldSize k.RsaKeySize
             else none
           EllipticCurve :=
             unlockedValue (preferEnforced e3 (dkp.bind fun k => heldValue k.EllipticCurve))
           GenerationType :=
             unlockedValue (preferEnforced e4 (dkp.bind fun k => heldValue k.GenerationType)) }
          : DefaultKeyPair)
      else none) = dkp := by
  rcases dkp with _ | dk
  · simp only [Option.bind, Option.map]
    rw [isUnlocked_prefer e1 none rfl, isUnlocked_prefer _ none rfl,
      isUnlocked_prefer e3 none rfl, isUnlocked_prefer e4 none rfl]
    rfl
  · obtain ⟨h1, h2, h3, h4, h5, h6, n1, n2, n3, n4⟩ := hst dk rfl
    simp only [Option.bind, heldValue_stable _ h1, (heldSize_stable _ h2).1,
      heldValue_stable _ h3, heldValue_stable _ h4]
    have n2b : ((dk.RsaKeySize.map Itoa).isSome && (eSize.map Itoa).isSome) = false := by
      simp only [Option.isSome_map']
      exact n2
    rw [isUnlocked_prefer e1 _ n1, isUnlocked_prefer _ _ n2b, isUnlocked_prefer e3 _ n3,
      isUnlocked_prefer e4 _ n4, unlockedValue_prefer e1 _ n1, unlockedValue_prefer e3 _ n3,
      unlockedValue_prefer e4 _ n4]
    simp only [Option.isSome_map', if_pos h6]
    have hsz : (if dk.RsaKeySize.isSome = true then eSize.orElse fun _ => dk.RsaKeySize
        else none) = dk.RsaKeySize := by
      rcases hr : dk.RsaKeySize with _ | n
      · rfl
      · rw [hr] at n2
        rcases eSize with _ | m
        · rfl
        · simp at n2
    rw [hsz]
    obtain ⟨kt, sz, ec, gt, ra⟩ := dk
    simp only at h5
    rw [h5]

/-- Every field of the document built from a specification whose
`Organization` block does not fail, in terms of the specification. -/
theorem BuildTppPolicy_fields (ps : PolicySpecification)
    (h : ∀ d ds, ps.Default = some d → d.Subject = some ds → ds.Org = none →
      (enforcedBySubject ps fun s => s.Orgs).isSome = true) :
    ∃ doc, BuildTppPolicy ps = .ok doc ∧
      doc.Contact = ps.Users ∧ doc.Approver = ps.Approvers ∧
      doc.DomainSuffixWhitelist = (ps.Policy.bind fun p => p.Domains) ∧
      doc.ProhibitWildcard = tppProhibitWildcard ps ∧
      doc.CertificateAuthority = (ps.Policy.bind fun p => p.CertificateAuthority) ∧
      doc.Organization = preferEnforced (enforcedBySubject ps fun s => s.Orgs)
        (heldBySubject ps fun s => s.Org) ∧
      doc.OrganizationalUnit = preferEnforced (enforcedBySubject ps fun s => s.OrgUnits)
        (heldOrgUnit ps) ∧
      doc.City = preferEnforced (enforcedBySubject ps fun s => s.Localities)
        (heldBySubject ps fun s => s.Locality) ∧
      doc.State = preferEnforced (enforcedBySubject ps fun s => s.States)
        (heldBySubject ps fun s => s.State) ∧
      doc.Country = preferEnforced (enforcedBySubject ps fun s => s.Countries)
        (heldBySubject ps fun s => s.Country) ∧
      doc.KeyAlgorithm = preferEnforced (enforcedByKeyPair ps fun k => k.KeyTypes)
        (heldByKeyPair ps fun k => k.KeyType) ∧
      doc.KeyBitStrength = preferEnforced ((enforcedSizeOf ps).map Itoa)
        ((heldSizeOf ps).map Itoa) ∧
      doc.EllipticCurve = preferEnforced (enforcedByKeyPair ps fun k => k.EllipticCurves)
        (heldByKeyPair ps fun k => k.EllipticCurve) ∧
      doc.ManualCsr = preferEnforced (enforcedGenerationType ps)
        (heldByKeyPair ps fun k => k.GenerationType) ∧
      doc.AllowPrivateKeyReuse = tppReuse ps ∧ doc.WantRenewal = tppReuse ps ∧
      doc.ProhibitedSANType = tppProhibitedSANType ps := by
  refine ⟨_, BuildTppPolicy_of_org ps _ (tppOrganization_total ps h), rfl, rfl, ?_, rfl, ?_,
    rfl, tppOrganizationalUnit_eq ps, tppCity_eq ps, tppState_eq ps, tppCountry_eq ps,
    tppKeyAlgorithm_eq ps, tppKeyBitStrength_eq ps, tppEllipticCurve_eq ps, tppManualCsr_eq ps,
    rfl, rfl, rfl⟩
  · cases ps.Policy <;> rfl
  · cases ps.Policy <;> rfl

theorem policySpecification_eq_of_fields (a b : PolicySpecification)
    (h1 : a.Users = b.Users) (h2 : a.Approvers = b.Approvers) (h3 : a.Policy = b.Policy)
    (h4 : a.Default = b.Default) : a = b := by
  cases a
  cases b
  simp_all

theorem policy_eq_of_fields (a b : Policy)
    (h1 : a.Domains = b.Domains) (h2 : a.WildcardAllowed = b.WildcardAllowed)
    (h3 : a.MaxValidDays = b.MaxValidDays) (h4 : a.CertificateAuthority = b.CertificateAuthority)
    (h5 : a.Subject = b.Subject) (h6 : a.KeyPair = b.KeyPair)
    (h7 : a.SubjectAltNames = b.SubjectAltNames) : a = b := by
  cases a
  cases b
  simp_all

theorem default_eq_of_fields (a b : Default)
    (h1 : a.Subject = b.Subject) (h2 : a.KeyPair = b.KeyPair) : a = b := by
  cases a
  cases b
  simp_all

theorem and_false_of_bne (a b : Bool) (h : (a != b) = true) : (a && b) = false := by
  cases a <;> cases b <;> simp_all

theorem and_false_of_not (a b : Bool) (h : (!(a && b)) = true) : (a && b) = false := by
  cases a <;> cases b <;> simp_all

theorem defaultSubjectStable_spec (ps : PolicySpecification) (ds : DefaultSubject)
    (h : defaultSubjectStable ps ds = true) :
    stableValue ds.Org = true ∧ stableList ds.OrgUnits = true ∧
      stableValue ds.Locality = true ∧ stableValue ds.State = true ∧
      stableValue ds.Country = true ∧
      (ds.Org.isSome || ds.OrgUnits.isSome || ds.Locality.isSome || ds.State.isSome ||
        ds.Country.isSome) = true ∧
      (ds.Org.isSome && (enforcedBySubject ps fun s => s.Orgs).isSome) = false ∧
      (ds.OrgUnits.isSome && (enforcedBySubject ps fun s => s.OrgUnits).isSome) = false ∧
      (ds.Locality.isSome && (enforcedBySubject ps fun s => s.Localities).isSome) = false ∧
      (ds.State.isSome && (enforcedBySubject ps fun s => s.States).isSome) = false ∧
      (ds.Country.isSome && (enforcedBySubject ps fun s => s.Countries).isSome) = false := by
  unfold defaultSubjectStable at h
  rw [Bool.and_eq_true, Bool.and_eq_true, Bool.and_eq_true, Bool.and_eq_true, Bool.and_eq_true,
    Bool.and_eq_true, Bool.and_eq_true, Bool.and_eq_true, Bool.and_eq_true, Bool.and_eq_true] at h
  obtain ⟨⟨⟨⟨⟨⟨⟨⟨⟨⟨s1, s2⟩, s3⟩, s4⟩, s5⟩, s6⟩, x1⟩, x2⟩, x3⟩, x4⟩, x5⟩ := h
  exact ⟨s1, s2, s3, s4, s5, s6, and_false_of_bne _ _ x1, and_false_of_not _ _ x2,
    and_false_of_not _ _ x3, and_false_of_not _ _ x4, and_false_of_not _ _ x5⟩

theorem defaultKeyPairStable_spec (ps : PolicySpecification) (dk : DefaultKeyPair)
    (h : defaultKeyPairStable ps dk = true) :
    stableValue dk.KeyType = true ∧ stableSize dk.RsaKeySize = true ∧
      stableValue dk.EllipticCurve = true ∧ stableValue dk.GenerationType = true ∧
      dk.ReuseAllowed = none ∧
      (dk.KeyType.isSome || dk.RsaKeySize.isSome || dk.EllipticCurve.isSome ||
        dk.GenerationType.isSome) = true ∧
      (dk.KeyType.isSome && (enforcedByKeyPair ps fun k => k.KeyTypes).isSome) = false ∧
      (dk.RsaKeySize.isSome && (enforcedSizeOf ps).isSome) = false ∧
      (dk.EllipticCurve.isSome && (enforcedByKeyPair ps fun k => k.EllipticCurves).isSome)
        = false ∧
      (dk.GenerationType.isSome && (enforcedGenerationType ps).isSome) = false := by
  unfold defaultKeyPairStable at h
  rw [Bool.and_eq_true, Bool.and_eq_true, Bool.and_eq_true, Bool.and_eq_true, Bool.and_eq_true,
    Bool.and_eq_true, Bool.and_eq_true, Bool.and_eq_true, Bool.and_eq_true] at h
  obtain ⟨⟨⟨⟨⟨⟨⟨⟨⟨s1, s2⟩, s3⟩, s4⟩, s5⟩, s6⟩, x1⟩, x2⟩, x3⟩, x4⟩ := h
  have x2b : (dk.RsaKeySize.isSome && (enforcedSizeOf ps).isSome) = false := by
    have := and_false_of_not _ _ x2
    simpa [enforcedKeySize] using this
  exact ⟨s1, s2, s3, s4, Option.isNone_iff_eq_none.mp s5, s6, and_false_of_not _ _ x1, x2b,
    and_false_of_not _ _ x3, and_false_of_not _ _ x4⟩

theorem isSome_of_ite_eq {α : Type} (g : Bool) (x : α) (o : Option α)
    (h : (if g = true then some x else none) = o) : g = o.isSome := by
  cases g <;> simp at h <;> rw [← h] <;> rfl

/-- C1 (amended): a specification that passes the Backend-A validator, whose
`Policy.SubjectAltNames` has all five booleans set with at least one of them
false, and which is in the normal form of the document (`roundTripStable`),
is returned unchanged by `BuildTppPolicy` followed by
`BuildPolicySpecificationForTPP`, and both calls succeed. -/
theorem C1_round_trip_on_normal_form (ps : PolicySpecification) (p : Policy)
    (sa : SubjectAltNames)
    (hv : ValidateTppPolicySpecification ps = .ok ())
    (hp : ps.Policy = some p) (hsa : p.SubjectAltNames = some sa)
    (hall : sanAllSet sa = true) (hsome : sanSomeProhibited sa = true)
    (hst : roundTripStable ps = true) :
    ∃ doc, BuildTppPolicy ps = .ok doc ∧ BuildPolicySpecificationForTPP doc = .ok ps := by
  -- the normal form, container by container
  simp only [roundTripStable, hp, Bool.and_eq_true] at hst
  obtain ⟨hpol, hdef⟩ := hst
  simp only [policyStable, Bool.and_eq_true, and_assoc, Option.isNone_iff_eq_none] at hpol
  obtain ⟨hmax, hsubj, hkp⟩ := hpol
  have horg : ∀ d ds, ps.Default = some d → d.Subject = some ds → ds.Org = none →
      (enforcedBySubject ps fun s => s.Orgs).isSome = true := by
    intro d ds hd hds ho
    simp only [hd, defaultStable, hds, defaultSubjectStable, Bool.and_eq_true, and_assoc] at hdef
    obtain ⟨_, _, _, _, _, _, _, hx, _⟩ := hdef
    rw [ho] at hx
    simpa using hx
  obtain ⟨doc, hdoc, c1, c2, c3, c4, c5, c6, c7, c8, c9, c10, c11, c12, c13, c14, c15, c16, c17⟩ :=
    BuildTppPolicy_fields ps horg
  refine ⟨doc, hdoc, ?_⟩
  -- the three fallible steps
  have hw : resolveWildcardAllowed doc = .ok p.WildcardAllowed := by
    apply resolveWildcardAllowed_inverts
    rw [c4]
    unfold tppProhibitWildcard
    rw [hp]
  have hesz : ∀ n, enforcedSizeOf ps = some n → isGoInt n = true := by
    intro n hn
    rw [enforcedSizeOf_of_policy ps p hp] at hn
    cases hK : p.KeyPair with
    | none => simp [hK] at hn
    | some k =>
      rw [hK] at hn
      simp only [Option.bind] at hn
      have hmem := ((validateKeyPair_ok_iff ps p k hp hK).mp
        (validateKeyPair_of_validated ps p hp hv)).2.2.2.2.1 n (enforcedSize_mem _ n hn)
      simp only [TppRsaKeySize, elems, List.mem_cons, List.mem_singleton, List.not_mem_nil,
        or_false] at hmem
      rcases hmem with h | h | h | h | h <;> rw [h] <;> decide
  have hhsz : ∀ n, heldSizeOf ps = some n → isGoInt n = true := by
    intro n hn
    unfold heldSizeOf at hn
    cases hd : ps.Default with
    | none => simp [hd] at hn
    | some d =>
      cases hdk : d.KeyPair with
      | none => simp [hd, hdk] at hn
      | some dk =>
        simp only [hd, defaultStable, hdk, defaultKeyPairStable, Bool.and_eq_true, and_assoc]
          at hdef
        have hs2 := heldSize_stable _ hdef.2.2.2.1
        simp only [hd, hdk, Option.bind, hs2.1] at hn
        exact hs2.2 n hn
  have hk : resolveRsaKeySize doc = .ok ((enforcedSizeOf ps).orElse fun _ => heldSizeOf ps) :=
    resolveRsaKeySize_inverts doc _ _ hesz hhsz c12
  have hr : resolveReuseAllowed doc = .ok (policyReuseAllowed ps) := by
    apply resolveReuseAllowed_inverts
    · rw [c15]
      exact tppReuse_eq ps
    · rw [c15, c16]
  unfold BuildPolicySpecificationForTPP
  rw [hw, hk, hr]
  simp only [bind, Except.bind, pure, Except.pure, Except.ok.injEq]
  have hsan : resolveSubjectAltNames doc.ProhibitedSANType = some sa := by
    rw [c17]
    unfold tppProhibitedSANType
    rw [hp]
    simp only [hsa]
    exact resolveSubjectAltNames_getProhibited sa hall hsome
  apply policySpecification_eq_of_fields
  · exact c1
  · exact c2
  · -- Policy
    simp only [assembleSpecification, hsan, Option.isSome_some, Bool.or_true, if_true, hp]
    congr 1
    apply policy_eq_of_fields
    · simp only [c3, hp, Option.bind]
    · rfl
    · exact hmax.symm
    · simp only [c5, hp, Option.bind]
    · simp only [c6, c7, c8, c9, c10]
      exact subject_container ps p hp hsubj _ _ _ _ _
    · simp only [c11, c12, c13, c14, c15, c16]
      exact keyPair_container ps p hp hkp _ _ _ _ _
    · exact hsa.symm
  · -- Default
    have hS := defaultSubject_container (ps.Default.bind fun d => d.Subject)
      (enforcedBySubject ps fun s => s.Orgs) (enforcedBySubject ps fun s => s.OrgUnits)
      (enforcedBySubject ps fun s => s.Localities) (enforcedBySubject ps fun s => s.States)
      (enforcedBySubject ps fun s => s.Countries) (by
        intro ds hds
        cases hd : ps.Default with
        | none => simp [hd] at hds
        | some d =>
          simp only [hd, Option.bind] at hds
          simp only [hd, defaultStable, hds, Bool.and_eq_true] at hdef
          exact defaultSubjectStable_spec ps ds hdef.1.2)
    have hK := defaultKeyPair_container (ps.Default.bind fun d => d.KeyPair)
      (enforcedByKeyPair ps fun k => k.KeyTypes) (enforcedByKeyPair ps fun k => k.EllipticCurves)
      (enforcedGenerationType ps) (enforcedSizeOf ps) (by
        intro dk hdk
        cases hd : ps.Default with
        | none => simp [hd] at hdk
        | some d =>
          simp only [hd, Option.bind] at hdk
          simp only [hd, defaultStable, hdk, Bool.and_eq_true] at hdef
          exact defaultKeyPairStable_spec ps dk hdef.2)
    have e1 : ∀ f : DefaultSubject → Option String,
        heldBySubject ps f = (ps.Default.bind fun d => d.Subject).bind fun s => heldValue (f s) := by
      intro f
      unfold heldBySubject
      cases ps.Default <;> rfl
    have e2 : heldOrgUnit ps
        = (ps.Default.bind fun d => d.Subject).bind fun s => enforcedValue s.OrgUnits := by
      unfold heldOrgUnit
      cases ps.Default <;> rfl
    have e3 : ∀ f : DefaultKeyPair → Option String,
        heldByKeyPair ps f = (ps.Default.bind fun d => d.KeyPair).bind fun k => heldValue (f k) := by
      intro f
      unfold heldByKeyPair
      cases ps.Default <;> rfl
    have e4 : heldSizeOf ps
        = (ps.Default.bind fun d => d.KeyPair).bind fun k => heldSize k.RsaKeySize := by
      unfold heldSizeOf
      cases ps.Default <;> rfl
    simp only [assembleSpecification, c6, c7, c8, c9, c10, c11, c12, c13, c14, e1, e2, e3]
    rw [e4] at *
    rw [hS, hK, isSome_of_ite_eq _ _ _ hS, isSome_of_ite_eq _ _ _ hK]
    cases hd : ps.Default with
    | none => rfl
    | some d =>
      simp only [hd, defaultStable, Bool.and_eq_true] at hdef
      simp only [Option.bind]
      rw [if_pos hdef.1.1]

theorem C1_round_trip_on_normal_form_witness :
    ∃ doc, BuildTppPolicy specNormalForm = .ok doc ∧
      BuildPolicySpecificationForTPP doc = .ok specNormalForm :=
  C1_round_trip_on_normal_form specNormalForm policyNormalForm sanDnsProhibited
    (by decide) rfl rfl (by decide) (by decide) (by decide)

/-! ## Lemmas on the SAN translation -/

theorem elems_getProhibitedSanTypes (sa : SubjectAltNames) :
    elems (getProhibitedSanTypes sa) = prohibitedTags sa := by
  unfold getProhibitedSanTypes prohibitedTags
  by_cases h1 : sa.DnsAllowed = some false <;> by_cases h2 : sa.IpAllowed = some false <;>
    by_cases h3 : sa.EmailAllowed = some false <;> by_cases h4 : sa.UriAllowed = some false <;>
    by_cases h5 : sa.UpnAllowed = some false <;> simp [h1, h2, h3, h4, h5, elems]

theorem prohibitedTags_sublist (sa : SubjectAltNames) :
    List.Sublist (prohibitedTags sa) ["DNS", "IP", "Email", "URI", "UPN"] := by
  unfold prohibitedTags
  by_cases h1 : sa.DnsAllowed = some false <;> by_cases h2 : sa.IpAllowed = some false <;>
    by_cases h3 : sa.EmailAllowed = some false <;> by_cases h4 : sa.UriAllowed = some false <;>
    by_cases h5 : sa.UpnAllowed = some false <;> simp only [h1, h2, h3, h4, h5, if_true, if_false] <;>
    decide

theorem getProhibitedSanTypes_ne_empty (sa : SubjectAltNames) :
    getProhibitedSanTypes sa ≠ some [] := by
  unfold getProhibitedSanTypes
  by_cases h1 : sa.DnsAllowed = some false <;> by_cases h2 : sa.IpAllowed = some false <;>
    by_cases h3 : sa.EmailAllowed = some false <;> by_cases h4 : sa.UriAllowed = some false <;>
    by_cases h5 : sa.UpnAllowed = some false <;> simp [h1, h2, h3, h4, h5]

theorem getProhibitedSanTypes_eq_none_iff (sa : SubjectAltNames) :
    getProhibitedSanTypes sa = none ↔
      sa.DnsAllowed ≠ some false ∧ sa.IpAllowed ≠ some false ∧ sa.EmailAllowed ≠ some false ∧
        sa.UriAllowed ≠ some false ∧ sa.UpnAllowed ≠ some false := by
  unfold getProhibitedSanTypes
  by_cases h1 : sa.DnsAllowed = some false <;> by_cases h2 : sa.IpAllowed = some false <;>
    by_cases h3 : sa.EmailAllowed = some false <;> by_cases h4 : sa.UriAllowed = some false <;>
    by_cases h5 : sa.UpnAllowed = some false <;> simp [h1, h2, h3, h4, h5]

theorem BuildTppPolicy_prohibitedSANType (ps : PolicySpecification) (p : Policy)
    (sa : SubjectAltNames) (doc : TppPolicy)
    (hp : ps.Policy = some p) (hsa : p.SubjectAltNames = some sa)
    (hb : BuildTppPolicy ps = .ok doc) :
    doc.ProhibitedSANType = getProhibitedSanTypes sa := by
  obtain ⟨org, _, hdoc⟩ := BuildTppPolicy_ok ps doc hb
  subst hdoc
  simp [tppProhibitedSANType, hp, hsa]

/-- C11: `getProhibitedSanTypes` lists the tag DNS, IP, Email, URI or UPN
exactly when the corresponding boolean is explicitly false, in that order and
without duplicates, returns nil (never an empty list) when no boolean is
explicitly false, and `BuildTppPolicy` stores this value in
`ProhibitedSANType`. -/
theorem C11_prohibited_san_types (ps : PolicySpecification) (p : Policy)
    (sa : SubjectAltNames) (doc : TppPolicy)
    (hp : ps.Policy = some p) (hsa : p.SubjectAltNames = some sa)
    (hb : BuildTppPolicy ps = .ok doc) :
    (∀ tag, tag ∈ elems (getProhibitedSanTypes sa) ↔
      (tag = "DNS" ∧ sa.DnsAllowed = some false) ∨ (tag = "IP" ∧ sa.IpAllowed = some false) ∨
      (tag = "Email" ∧ sa.EmailAllowed = some false) ∨
      (tag = "URI" ∧ sa.UriAllowed = some false) ∨ (tag = "UPN" ∧ sa.UpnAllowed = some false)) ∧
    List.Sublist (elems (getProhibitedSanTypes sa)) ["DNS", "IP", "Email", "URI", "UPN"] ∧
    (elems (getProhibitedSanTypes sa)).Nodup ∧
    (getProhibitedSanTypes sa = none ↔
      sa.DnsAllowed ≠ some false ∧ sa.IpAllowed ≠ some false ∧ sa.EmailAllowed ≠ some false ∧
        sa.UriAllowed ≠ some false ∧ sa.UpnAllowed ≠ some false) ∧
    getProhibitedSanTypes sa ≠ some [] ∧
    doc.ProhibitedSANType = getProhibitedSanTypes sa := by
  refine ⟨?_, ?_, ?_, getProhibitedSanTypes_eq_none_iff sa, getProhibitedSanTypes_ne_empty sa,
    BuildTppPolicy_prohibitedSANType ps p sa doc hp hsa hb⟩
  · intro tag
    rw [elems_getProhibitedSanTypes]
    unfold prohibitedTags
    by_cases h1 : sa.DnsAllowed = some false <;> by_cases h2 : sa.IpAllowed = some false <;>
      by_cases h3 : sa.EmailAllowed = some false <;> by_cases h4 : sa.UriAllowed = some false <;>
      by_cases h5 : sa.UpnAllowed = some false <;> simp [h1, h2, h3, h4, h5]
  · rw [elems_getProhibitedSanTypes]
    exact prohibitedTags_sublist sa
  · rw [elems_getProhibitedSanTypes]
    exact List.Nodup.sublist (prohibitedTags_sublist sa) (by decide)

theorem C11_prohibited_san_types_witness :
    docOnlyIpProhibited.ProhibitedSANType = getProhibitedSanTypes sanOnlyIpProhibited ∧
    getProhibitedSanTypes sanOnlyIpProhibited = some ["IP"] :=
  ⟨(C11_prohibited_san_types specOnlyIpProhibited
      { SubjectAltNames := some sanOnlyIpProhibited } sanOnlyIpProhibited docOnlyIpProhibited
      rfl rfl (by decide)).2.2.2.2.2, by decide⟩

theorem BuildPolicySpecificationForTPP_ok (t : TppPolicy) (ps : PolicySpecification)
    (h : BuildPolicySpecificationForTPP t = .ok ps) :
    ∃ w i r, resolveWildcardAllowed t = .ok w ∧ resolveRsaKeySize t = .ok i ∧
      resolveReuseAllowed t = .ok r ∧ ps = assembleSpecification t w i r := by
  unfold BuildPolicySpecificationForTPP at h
  cases hw : resolveWildcardAllowed t with
  | error e => simp [hw, bind, Except.bind] at h
  | ok w =>
    cases hi : resolveRsaKeySize t with
    | error e => simp [hw, hi, bind, Except.bind] at h
    | ok i =>
      cases hr : resolveReuseAllowed t with
      | error e => simp [hw, hi, hr, bind, Except.bind] at h
      | ok r =>
        simp only [hw, hi, hr, bind, Except.bind, pure, Except.pure, Except.ok.injEq] at h
        exact ⟨w, i, r, rfl, rfl, rfl, h.symm⟩

theorem existValueInArray_ite (l : List String) (tag : String) :
    (if ¬ existValueInArray (some l) tag = true then some true else some false)
      = some (decide (tag ∉ l)) := by
  by_cases h : tag ∈ l <;> simp [existValueInArray, elems, h]

theorem resolveSubjectAltNames_some (l : List String) :
    resolveSubjectAltNames (some l) = some (sanFromProhibited l) := by
  unfold resolveSubjectAltNames sanFromProhibited
  simp only [existValueInArray_ite, TppDnsAllowed, TppIpAllowed, TppEmailAllowed, TppUriAllowed,
    TppUpnAllowed]

theorem resolveSubjectAltNames_of_prohibited (sa : SubjectAltNames)
    (hsome : sanSomeProhibited sa = true) :
    resolveSubjectAltNames (getProhibitedSanTypes sa) = some (sanUnsetAllowed sa) := by
  obtain ⟨dns, ip, em, uri, upn⟩ := sa
  rcases dns with _ | _ | _ <;> rcases ip with _ | _ | _ <;> rcases em with _ | _ | _ <;>
    rcases uri with _ | _ | _ <;> rcases upn with _ | _ | _ <;>
    first
      | (exfalso; revert hsome; decide)
      | decide

/-- C15: `resolveSubjectAltNames` returns no record for the nil list and, for
a list that is not nil, a record with all five booleans set, each false when
its tag occurs in the list and true otherwise.  Hence a specification with a
SAN boolean explicitly false comes back from `BuildTppPolicy` followed by
`BuildPolicySpecificationForTPP` with every boolean that was unset (or true)
explicitly true. -/
theorem C15_resolve_subject_alt_names (ps : PolicySpecification) (p : Policy)
    (sa : SubjectAltNames) (doc : TppPolicy) (back : PolicySpecification)
    (hp : ps.Policy = some p) (hsa : p.SubjectAltNames = some sa)
    (hsome : sanSomeProhibited sa = true)
    (hb : BuildTppPolicy ps = .ok doc) (hr : BuildPolicySpecificationForTPP doc = .ok back) :
    resolveSubjectAltNames none = none ∧
    (∀ l : List String, resolveSubjectAltNames (some l) = some (sanFromProhibited l)) ∧
    (∃ q, back.Policy = some q ∧ q.SubjectAltNames = some (sanUnsetAllowed sa)) := by
  refine ⟨rfl, resolveSubjectAltNames_some, ?_⟩
  have hdoc := BuildTppPolicy_prohibitedSANType ps p sa doc hp hsa hb
  have hres := resolveSubjectAltNames_of_prohibited sa hsome
  obtain ⟨w, i, r, _, _, _, hback⟩ := BuildPolicySpecificationForTPP_ok doc back hr
  subst hback
  simp only [assembleSpecification, hdoc, hres, Option.isSome_some, Bool.or_true, if_true]
  exact ⟨_, rfl, rfl⟩

theorem C15_resolve_subject_alt_names_witness :
    BuildTppPolicy specOnlyIpProhibited = .ok docOnlyIpProhibited ∧
    BuildPolicySpecificationForTPP docOnlyIpProhibited = .ok backOnlyIpProhibited ∧
    sanUnsetAllowed sanOnlyIpProhibited = sanIpProhibitedRestAllowed ∧
    (∃ q, backOnlyIpProhibited.Policy = some q ∧
      q.SubjectAltNames = some (sanUnsetAllowed sanOnlyIpProhibited)) :=
  ⟨by decide, by decide, by decide,
    (C15_resolve_subject_alt_names specOnlyIpProhibited
      { SubjectAltNames := some sanOnlyIpProhibited } sanOnlyIpProhibited docOnlyIpProhibited
      backOnlyIpProhibited rfl rfl (by decide) (by decide) (by decide)).2.2⟩

/-! ## Lemmas on the placement of attributes by the reverse translation -/

theorem assembleSpecification_eq (t : TppPolicy) (w : Option Bool) (i : Option Int)
    (r : Option Bool) :
    assembleSpecification t w i r =
      { Users := t.Contact
        Approvers := t.Approver
        Policy :=
          if (shouldCreateKeyPair t || shouldCreateSubject t ||
              (resolveSubjectAltNames t.ProhibitedSANType).isSome) = true
          then some
            { Domains := t.DomainSuffixWhitelist
              CertificateAuthority := t.CertificateAuthority
              WildcardAllowed := w
              Subject := if shouldCreateSubject t = true then some (resolvedSubject t) else none
              KeyPair :=
                if shouldCreateKeyPair t = true then some (resolvedKeyPair t i r) else none
              SubjectAltNames := resolveSubjectAltNames t.ProhibitedSANType }
          else none
        Default :=
          if (shouldCreateDefSubject t || shouldCreateDefKeyPair t) = true
          then some
            { Subject :=
                if shouldCreateDefSubject t = true then some (resolvedDefaultSubject t) else none
              KeyPair :=
                if shouldCreateDefKeyPair t = true then some (resolvedDefaultKeyPair t i)
                else none }
          else none } := rfl

theorem assemble_policy_subject (t : TppPolicy) (w : Option Bool) (i : Option Int)
    (r : Option Bool) :
    ((assembleSpecification t w i r).Policy.bind fun p => p.Subject)
      = if shouldCreateSubject t = true then some (resolvedSubject t) else none := by
  rw [assembleSpecification_eq]
  cases shouldCreateSubject t <;> cases shouldCreateKeyPair t <;>
    cases (resolveSubjectAltNames t.ProhibitedSANType).isSome <;> rfl

theorem assemble_policy_keyPair (t : TppPolicy) (w : Option Bool) (i : Option Int)
    (r : Option Bool) :
    ((assembleSpecification t w i r).Policy.bind fun p => p.KeyPair)
      = if shouldCreateKeyPair t = true then some (resolvedKeyPair t i r) else none := by
  rw [assembleSpecification_eq]
  cases shouldCreateSubject t <;> cases shouldCreateKeyPair t <;>
    cases (resolveSubjectAltNames t.ProhibitedSANType).isSome <;> rfl

theorem assemble_default_subject (t : TppPolicy) (w : Option Bool) (i : Option Int)
    (r : Option Bool) :
    ((assembleSpecification t w i r).Default.bind fun d => d.Subject)
      = if shouldCreateDefSubject t = true then some (resolvedDefaultSubject t) else none := by
  rw [assembleSpecification_eq]
  cases shouldCreateDefSubject t <;> cases shouldCreateDefKeyPair t <;> rfl

theorem assemble_default_keyPair (t : TppPolicy) (w : Option Bool) (i : Option Int)
    (r : Option Bool) :
    ((assembleSpecification t w i r).Default.bind fun d => d.KeyPair)
      = if shouldCreateDefKeyPair t = true then some (resolvedDefaultKeyPair t i) else none := by
  rw [assembleSpecification_eq]
  cases shouldCreateDefSubject t <;> cases shouldCreateDefKeyPair t <;> rfl

theorem placed_of_flags {α β : Type} (a : Option LockedAttribute) (inPolicy : String → α)
    (inDefault : String → β) (sP sD : Bool) (vP : Option α) (vD : Option β)
    (hP : isLocked a = true → sP = true) (hD : isUnlocked a = true → sD = true)
    (hvP : vP = a.bind fun x => if x.Locked = true then some (inPolicy x.Value) else none)
    (hvD : vD = a.bind fun x => if x.Locked = true then none else some (inDefault x.Value)) :
    attributePlaced a inPolicy inDefault (if sP = true then vP else none)
      (if sD = true then vD else none) := by
  subst hvP hvD
  rcases a with _ | ⟨v, _ | _⟩
  · cases sP <;> cases sD <;> simp [attributePlaced]
  · have := hD rfl
    subst this
    cases sP <;> simp [attributePlaced]
  · have := hP rfl
    subst this
    cases sD <;> simp [attributePlaced]

theorem ite_some_bind {α β : Type} (c : Bool) (x : α) (f : α → Option β) :
    ((if c = true then some x else none).bind f) = if c = true then f x else none := by
  cases c <;> rfl

theorem resolveRsaKeySize_ok (t : TppPolicy) (i : Option Int)
    (h : resolveRsaKeySize t = .ok i) :
    match t.KeyBitStrength with
    | none => i = none
    | some x => ∃ n, Atoi x.Value = .ok n ∧ i = some n := by
  unfold resolveRsaKeySize at h
  rcases hk : t.KeyBitStrength with _ | x
  · simp only [hk, pure, Except.pure, Except.ok.injEq] at h
    exact h.symm
  · simp only [hk] at h
    cases ha : Atoi x.Value with
    | error e => simp [ha, bind, Except.bind] at h
    | ok n =>
      simp only [ha, bind, Except.bind, pure, Except.pure, Except.ok.injEq] at h
      exact ⟨n, ha, h.symm⟩

/-- C12: on every document for which `BuildPolicySpecificationForTPP`
succeeds, each of the nine attributes is placed by its lock: locked, its
value is in the matching `Policy.Subject`/`Policy.KeyPair` field (a
one-element list for list fields, the parsed integer for the key size) and
the matching Default field is unset; unlocked, its value is in the matching
`Default.Subject`/`Default.KeyPair` field and the Policy field is unset;
absent, both are unset. -/
theorem C12_attributes_placed_by_lock (t : TppPolicy) (ps : PolicySpecification)
    (h : BuildPolicySpecificationForTPP t = .ok ps) :
    attributePlaced t.Organization (fun v => [v]) id
      ((ps.Policy.bind fun p => p.Subject).bind fun s => s.Orgs)
      ((ps.Default.bind fun d => d.Subject).bind fun s => s.Org) ∧
    attributePlaced t.OrganizationalUnit (fun v => [v]) (fun v => [v])
      ((ps.Policy.bind fun p => p.Subject).bind fun s => s.OrgUnits)
      ((ps.Default.bind fun d => d.Subject).bind fun s => s.OrgUnits) ∧
    attributePlaced t.City (fun v => [v]) id
      ((ps.Policy.bind fun p => p.Subject).bind fun s => s.Localities)
      ((ps.Default.bind fun d => d.Subject).bind fun s => s.Locality) ∧
    attributePlaced t.State (fun v => [v]) id
      ((ps.Policy.bind fun p => p.Subject).bind fun s => s.States)
      ((ps.Default.bind fun d => d.Subject).bind fun s => s.State) ∧
    attributePlaced t.Country (fun v => [v]) id
      ((ps.Policy.bind fun p => p.Subject).bind fun s => s.Countries)
      ((ps.Default.bind fun d => d.Subject).bind fun s => s.Country) ∧
    attributePlaced t.KeyAlgorithm (fun v => [v]) id
      ((ps.Policy.bind fun p => p.KeyPair).bind fun k => k.KeyTypes)
      ((ps.Default.bind fun d => d.KeyPair).bind fun k => k.KeyType) ∧
    attributePlaced t.EllipticCurve (fun v => [v]) id
      ((ps.Policy.bind fun p => p.KeyPair).bind fun k => k.EllipticCurves)
      ((ps.Default.bind fun d => d.KeyPair).bind fun k => k.EllipticCurve) ∧
    attributePlaced t.ManualCsr id id
      ((ps.Policy.bind fun p => p.KeyPair).bind fun k => k.GenerationType)
      ((ps.Default.bind fun d => d.KeyPair).bind fun k => k.GenerationType) ∧
    (match t.KeyBitStrength with
      | none =>
        ((ps.Policy.bind fun p => p.KeyPair).bind fun k => k.RsaKeySizes) = none ∧
        ((ps.Default.bind fun d => d.KeyPair).bind fun k => k.RsaKeySize) = none
      | some x => ∃ n, Atoi x.Value = .ok n ∧
        if x.Locked = true then
          ((ps.Policy.bind fun p => p.KeyPair).bind fun k => k.RsaKeySizes) = some [n] ∧
          ((ps.Default.bind fun d => d.KeyPair).bind fun k => k.RsaKeySize) = none
        else
          ((ps.Policy.bind fun p => p.KeyPair).bind fun k => k.RsaKeySizes) = none ∧
          ((ps.Default.bind fun d => d.KeyPair).bind fun k => k.RsaKeySize) = some n) := by
  obtain ⟨w, i, r, _, hi, _, hps⟩ := BuildPolicySpecificationForTPP_ok t ps h
  subst hps
  have hsz := resolveRsaKeySize_ok t i hi
  refine ⟨?_, ?_, ?_, ?_, ?_, ?_, ?_, ?_, ?_⟩
  · rw [assemble_policy_subject, assemble_default_subject, ite_some_bind, ite_some_bind]
    exact placed_of_flags _ _ _ _ _ _ _
      (by intro h; simp [shouldCreateSubject, h]) (by intro h; simp [shouldCreateDefSubject, h])
      (by unfold resolvedSubject; cases t.Organization <;> rfl)
      (by unfold resolvedDefaultSubject; cases t.Organization <;> rfl)
  · rw [assemble_policy_subject, assemble_default_subject, ite_some_bind, ite_some_bind]
    exact placed_of_flags _ _ _ _ _ _ _
      (by intro h; simp [shouldCreateSubject, h]) (by intro h; simp [shouldCreateDefSubject, h])
      (by unfold resolvedSubject; cases t.OrganizationalUnit <;> rfl)
      (by unfold resolvedDefaultSubject; cases t.OrganizationalUnit <;> rfl)
  · rw [assemble_policy_subject, assemble_default_subject, ite_some_bind, ite_some_bind]
    exact placed_of_flags _ _ _ _ _ _ _
      (by intro h; simp [shouldCreateSubject, h]) (by intro h; simp [shouldCreateDefSubject, h])
      (by unfold resolvedSubject; cases t.City <;> rfl)
      (by unfold resolvedDefaultSubject; cases t.City <;> rfl)
  · rw [assemble_policy_subject, assemble_default_subject, ite_some_bind, ite_some_bind]
    exact placed_of_flags _ _ _ _ _ _ _
      (by intro h; simp [shouldCreateSubject, h]) (by intro h; simp [shouldCreateDefSubject, h])
      (by unfold resolvedSubject; cases t.State <;> rfl)
      (by unfold resolvedDefaultSubject; cases t.State <;> rfl)
  · rw [assemble_policy_subject, assemble_default_subject, ite_some_bind, ite_some_bind]
    exact placed_of_flags _ _ _ _ _ _ _
      (by intro h; simp [shouldCreateSubject, h]) (by intro h; simp [shouldCreateDefSubject, h])
      (by unfold resolvedSubject; cases t.Country <;> rfl)
      (by unfold resolvedDefaultSubject; cases t.Country <;> rfl)
  · rw [assemble_policy_keyPair, assemble_default_keyPair, ite_some_bind, ite_some_bind]
    exact placed_of_flags _ _ _ _ _ _ _
      (by intro h; simp [shouldCreateKeyPair, h]) (by intro h; simp [shouldCreateDefKeyPair, h])
      (by unfold resolvedKeyPair; cases t.KeyAlgorithm <;> rfl)
      (by unfold resolvedDefaultKeyPair; cases t.KeyAlgorithm <;> rfl)
  · rw [assemble_policy_keyPair, assemble_default_keyPair, ite_some_bind, ite_some_bind]
    exact placed_of_flags _ _ _ _ _ _ _
      (by intro h; simp [shouldCreateKeyPair, h]) (by intro h; simp [shouldCreateDefKeyPair, h])
      (by unfold resolvedKeyPair; cases t.EllipticCurve <;> rfl)
      (by unfold resolvedDefaultKeyPair; cases t.EllipticCurve <;> rfl)
  · rw [assemble_policy_keyPair, assemble_default_keyPair, ite_some_bind, ite_some_bind]
    exact placed_of_flags _ _ _ _ _ _ _
      (by intro h; simp [shouldCreateKeyPair, h]) (by intro h; simp [shouldCreateDefKeyPair, h])
      (by unfold resolvedKeyPair; cases t.ManualCsr <;> rfl)
      (by unfold resolvedDefaultKeyPair; cases t.ManualCsr <;> rfl)
  · rw [assemble_policy_keyPair, assemble_default_keyPair, ite_some_bind, ite_some_bind]
    rcases hk : t.KeyBitStrength with _ | ⟨v, _ | _⟩
    · rw [hk] at hsz
      simp only at hsz
      subst hsz
      cases shouldCreateKeyPair t <;> cases shouldCreateDefKeyPair t <;>
        simp [resolvedKeyPair, resolvedDefaultKeyPair, hk, isLocked, isUnlocked]
    · rw [hk] at hsz
      obtain ⟨n, hn, hin⟩ := hsz
      subst hin
      have hD : shouldCreateDefKeyPair t = true := by
        simp [shouldCreateDefKeyPair, hk, isUnlocked]
      refine ⟨n, hn, ?_⟩
      cases shouldCreateKeyPair t <;>
        simp [hD, resolvedKeyPair, resolvedDefaultKeyPair, hk, isLocked, isUnlocked]
    · rw [hk] at hsz
      obtain ⟨n, hn, hin⟩ := hsz
      subst hin
      have hP : shouldCreateKeyPair t = true := by
        simp [shouldCreateKeyPair, hk, isLocked]
      refine ⟨n, hn, ?_⟩
      cases shouldCreateDefKeyPair t <;>
        simp [hP, resolvedKeyPair, resolvedDefaultKeyPair, hk, isLocked, isUnlocked]

theorem C12_attributes_placed_by_lock_witness :
    BuildPolicySpecificationForTPP docMixedLocks = .ok backMixedLocks ∧
    attributePlaced docMixedLocks.Organization (fun v => [v]) id
      ((backMixedLocks.Policy.bind fun p => p.Subject).bind fun s => s.Orgs)
      ((backMixedLocks.Default.bind fun d => d.Subject).bind fun s => s.Org) :=
  ⟨by decide, (C12_attributes_placed_by_lock docMixedLocks backMixedLocks (by decide)).1⟩

/-! ## Lemmas on the fallible steps of the reverse translation -/

theorem digitVal_none_of_not_isDigit (c : Char) (h : c.isDigit = false) : digitVal c = none := by
  unfold digitVal
  have hn : ¬ (48 ≤ c.toNat ∧ c.toNat ≤ 57) := by
    simp only [Char.isDigit, Char.toNat] at *
    intro ⟨h1, h2⟩
    have a : c.val ≥ 48 := by
      show (48 : UInt32) ≤ c.val
      rw [UInt32.le_def]
      simpa using h1
    have b : c.val ≤ 57 := by
      rw [UInt32.le_def]
      simpa using h2
    simp [a, b] at h
  rw [if_neg hn]

theorem parseDigits_none_of_not_all (cs : List Char) (acc : Nat)
    (h : cs.all Char.isDigit = false) : parseDigits cs acc = none := by
  induction cs generalizing acc with
  | nil => simp at h
  | cons c t ih =>
    unfold parseDigits
    cases hc : c.isDigit with
    | false => rw [digitVal_none_of_not_isDigit c hc]
    | true =>
      have ht : t.all Char.isDigit = false := by
        simp only [List.all_cons, hc, Bool.true_and] at h
        exact h
      cases digitVal c with
      | none => rfl
      | some d => exact ih _ ht

theorem parseUnsigned_none_of_not_decimal (cs : List Char)
    (h : (!cs.isEmpty && cs.all Char.isDigit) = false) : parseUnsigned cs = none := by
  unfold parseUnsigned
  cases cs with
  | nil => rfl
  | cons c t =>
    simp only [List.isEmpty_cons, Bool.not_false, Bool.true_and] at h
    exact parseDigits_none_of_not_all _ _ h

theorem Atoi_error_of_not_decimal (s : String) (h : isDecimalInteger s = false) :
    Atoi s = .error (.numError s) := by
  unfold isDecimalInteger at h
  unfold Atoi
  split at h
  · simp only [parseUnsigned_none_of_not_decimal _ h]
  · simp only [parseUnsigned_none_of_not_decimal _ h]
  · simp only [parseUnsigned_none_of_not_decimal _ h]

theorem getBooleanValueFromInt_other (v : Int) (h0 : v ≠ 0) (h1 : v ≠ 1) :
    getBooleanValueFromInt v = .error (.error "specified value is not a supported value") := by
  unfold getBooleanValueFromInt
  rw [if_neg h0, if_neg h1]

theorem getBooleanValueFromInt_ok (v : Int) (b : Bool) (h : getBooleanValueFromInt v = .ok b) :
    b = decide (v = 1) ∧ (v = 0 ∨ v = 1) := by
  unfold getBooleanValueFromInt at h
  by_cases h0 : v = 0
  · subst h0
    simp at h
    simp [← h]
  · by_cases h1 : v = 1
    · subst h1
      simp at h
      simp [← h]
    · simp [h0, h1] at h

theorem resolveWildcardAllowed_ok_or_error (t : TppPolicy) :
    (∃ w, resolveWildcardAllowed t = .ok w) ∨
      resolveWildcardAllowed t = .error (.error "specified value is not a supported value") := by
  unfold resolveWildcardAllowed
  rcases t.ProhibitWildcard with _ | v
  · exact Or.inl ⟨_, rfl⟩
  · by_cases h0 : v = 0
    · subst h0
      exact Or.inl ⟨_, rfl⟩
    · by_cases h1 : v = 1
      · subst h1
        exact Or.inl ⟨_, rfl⟩
      · right
        simp [getBooleanValueFromInt_other v h0 h1, bind, Except.bind]

theorem resolveRsaKeySize_ok_or_error (t : TppPolicy) :
    (∃ i, resolveRsaKeySize t = .ok i) ∨ ∃ s, resolveRsaKeySize t = .error (.numError s) := by
  unfold resolveRsaKeySize
  rcases t.KeyBitStrength with _ | a
  · exact Or.inl ⟨_, rfl⟩
  · have hA : (∃ n, Atoi a.Value = .ok n) ∨ Atoi a.Value = .error (.numError a.Value) := by
      unfold Atoi
      repeat' split
      all_goals first
        | exact Or.inl ⟨_, rfl⟩
        | exact Or.inr rfl
    rcases hA with ⟨n, hn⟩ | hn
    · exact Or.inl ⟨some n, by simp [hn, bind, Except.bind, pure, Except.pure]⟩
    · exact Or.inr ⟨a.Value, by simp [hn, bind, Except.bind]⟩

theorem BuildPolicySpecificationForTPP_error_of_reuse (t : TppPolicy) (msg : String)
    (h : resolveReuseAllowed t = .error (.error msg)) :
    ∃ e, BuildPolicySpecificationForTPP t = .error e ∧ e.isError = true := by
  unfold BuildPolicySpecificationForTPP
  rcases resolveWildcardAllowed_ok_or_error t with ⟨w, hw⟩ | hw
  · rcases resolveRsaKeySize_ok_or_error t with ⟨i, hi⟩ | ⟨s, hi⟩
    · rw [hw, hi, h]
      exact ⟨_, rfl, rfl⟩
    · rw [hw, hi]
      exact ⟨_, rfl, rfl⟩
  · rw [hw]
    exact ⟨_, rfl, rfl⟩

/-- C13: a `ProhibitWildcard` other than 0 and 1 makes
`BuildPolicySpecificationForTPP` return the invalid-value error, a
`KeyBitStrength` whose value is not a decimal integer makes it return an
error, locked or not, and `getBooleanValueFromInt` returns false for 0, true
for 1 and an error for every other integer.  An error result carries no
specification. -/
theorem C13_invalid_values_rejected (t : TppPolicy) :
    (∀ v, t.ProhibitWildcard = some v → v ≠ 0 → v ≠ 1 →
      BuildPolicySpecificationForTPP t
        = .error (.error "specified value is not a supported value")) ∧
    (∀ a, t.KeyBitStrength = some a → isDecimalInteger a.Value = false →
      ∃ e, BuildPolicySpecificationForTPP t = .error e ∧ e.isError = true) ∧
    getBooleanValueFromInt 0 = .ok false ∧ getBooleanValueFromInt 1 = .ok true ∧
    (∀ v, v ≠ 0 → v ≠ 1 →
      getBooleanValueFromInt v = .error (.error "specified value is not a supported value")) := by
  refine ⟨?_, ?_, rfl, rfl, getBooleanValueFromInt_other⟩
  · intro v hv h0 h1
    unfold BuildPolicySpecificationForTPP resolveWildcardAllowed
    rw [hv]
    simp [getBooleanValueFromInt_other v h0 h1, bind, Except.bind]
  · intro a ha hdec
    unfold BuildPolicySpecificationForTPP
    rcases resolveWildcardAllowed_ok_or_error t with ⟨w, hw⟩ | hw
    · have hi : resolveRsaKeySize t = .error (.numError a.Value) := by
        unfold resolveRsaKeySize
        rw [ha]
        simp [Atoi_error_of_not_decimal a.Value hdec, bind, Except.bind]
      rw [hw, hi]
      exact ⟨_, rfl, rfl⟩
    · rw [hw]
      exact ⟨_, rfl, rfl⟩

theorem C13_invalid_values_rejected_witness :
    BuildPolicySpecificationForTPP docWildcardTwo
      = .error (.error "specified value is not a supported value") ∧
    ∃ e, BuildPolicySpecificationForTPP docKeySizeNotDecimal = .error e ∧ e.isError = true :=
  ⟨(C13_invalid_values_rejected docWildcardTwo).1 2 rfl (by decide) (by decide),
    (C13_invalid_values_rejected docKeySizeNotDecimal).2.1
      { Value := "2k", Locked := false } rfl (by decide)⟩

/-- C14 (counterexample): with `AllowPrivateKeyReuse = 1` and `WantRenewal =
5` the reverse translation succeeds, and `ReuseAllowed` is true: a
`WantRenewal` other than 0 and 1 is not rejected when
`AllowPrivateKeyReuse` is present. -/
theorem C14_want_renewal_not_validated :
    BuildPolicySpecificationForTPP docReuseFlagsDisagree = .ok backReuseFlagsDisagree := by
  decide

/-- C14 (amended): `BuildPolicySpecificationForTPP` returns an error when
`AllowPrivateKeyReuse` is present with a value other than 0 and 1, and when
`AllowPrivateKeyReuse` is absent and `WantRenewal` is present with such a
value.  On success, `ReuseAllowed` is `AllowPrivateKeyReuse = 1` when that
flag is present, whatever `WantRenewal` holds, and `WantRenewal = 1` when
only `WantRenewal` is present. -/
theorem C14_reuse_flags_read_in_order (t : TppPolicy) :
    (∀ v, t.AllowPrivateKeyReuse = some v → v ≠ 0 → v ≠ 1 →
      ∃ e, BuildPolicySpecificationForTPP t = .error e ∧ e.isError = true) ∧
    (∀ v, t.AllowPrivateKeyReuse = none → t.WantRenewal = some v → v ≠ 0 → v ≠ 1 →
      ∃ e, BuildPolicySpecificationForTPP t = .error e ∧ e.isError = true) ∧
    (∀ ps v, BuildPolicySpecificationForTPP t = .ok ps → t.AllowPrivateKeyReuse = some v →
      reuseAllowedOf ps = some (decide (v = 1))) ∧
    (∀ ps v, BuildPolicySpecificationForTPP t = .ok ps → t.AllowPrivateKeyReuse = none →
      t.WantRenewal = some v → reuseAllowedOf ps = some (decide (v = 1))) := by
  refine ⟨?_, ?_, ?_, ?_⟩
  · intro v hv h0 h1
    apply BuildPolicySpecificationForTPP_error_of_reuse t "specified value is not a supported value"
    unfold resolveReuseAllowed
    rw [hv]
    simp [getBooleanValueFromInt_other v h0 h1, bind, Except.bind]
  · intro v ha hv h0 h1
    apply BuildPolicySpecificationForTPP_error_of_reuse t "specified value is not a supported value"
    unfold resolveReuseAllowed
    rw [ha, hv]
    simp [getBooleanValueFromInt_other v h0 h1, bind, Except.bind]
  · intro ps v h hv
    obtain ⟨w, i, r, _, _, hr, hps⟩ := BuildPolicySpecificationForTPP_ok t ps h
    subst hps
    unfold reuseAllowedOf
    have hK : shouldCreateKeyPair t = true := by simp [shouldCreateKeyPair, hv]
    rw [assemble_policy_keyPair, ite_some_bind, if_pos hK]
    unfold resolveReuseAllowed at hr
    rw [hv] at hr
    cases hb : getBooleanValueFromInt v with
    | error e => simp [hb, bind, Except.bind] at hr
    | ok b =>
      simp only [hb, bind, Except.bind, pure, Except.pure, Except.ok.injEq] at hr
      rw [← hr, (getBooleanValueFromInt_ok v b hb).1]
      rfl
  · intro ps v h ha hv
    obtain ⟨w, i, r, _, _, hr, hps⟩ := BuildPolicySpecificationForTPP_ok t ps h
    subst hps
    unfold reuseAllowedOf
    have hK : shouldCreateKeyPair t = true := by simp [shouldCreateKeyPair, hv]
    rw [assemble_policy_keyPair, ite_some_bind, if_pos hK]
    unfold resolveReuseAllowed at hr
    rw [ha, hv] at hr
    cases hb : getBooleanValueFromInt v with
    | error e => simp [hb, bind, Except.bind] at hr
    | ok b =>
      simp only [hb, bind, Except.bind, pure, Except.pure, Except.ok.injEq] at hr
      rw [← hr, (getBooleanValueFromInt_ok v b hb).1]
      rfl

theorem C14_reuse_flags_read_in_order_witness :
    reuseAllowedOf backReuseFlagsDisagree = some (decide ((1 : Int) = 1)) ∧
    ∃ e, BuildPolicySpecificationForTPP docWantRenewalFive = .error e ∧ e.isError = true :=
  ⟨(C14_reuse_flags_read_in_order docReuseFlagsDisagree).2.2.1 backReuseFlagsDisagree 1
      (by decide) rfl,
    (C14_reuse_flags_read_in_order docWantRenewalFive).2.1 5 rfl rfl (by decide) (by decide)⟩

/-! ## Lemmas on the Backend-B validator -/

theorem ValidateCloudPolicySpecification_of_policy (ps : PolicySpecification) (p : Policy)
    (hp : ps.Policy = some p) :
    ValidateCloudPolicySpecification ps =
      (cloudValidateKeyPair p >>= fun _ => cloudValidateSubjectAltNames p >>= fun _ =>
        cloudValidateSubjectDefaults ps p >>= fun _ =>
        cloudValidateKeyPairDefaults ps p >>= fun _ => cloudValidateDefaultKeyPair ps) := by
  unfold ValidateCloudPolicySpecification
  rw [hp]

theorem getInvalidCloudRsaKeySizeValue_isSome (sizes : Slice Int) (v : Int)
    (hv : v ∈ elems sizes) (h1 : v ≠ 1024) (h2 : v ≠ 2048) (h3 : v ≠ 4096) :
    ∃ u, getInvalidCloudRsaKeySizeValue sizes = some u := by
  unfold getInvalidCloudRsaKeySizeValue
  cases hf : (elems sizes).find? fun currentUserVal =>
      !(elems CloudRsaKeySize).any fun rsaKey => currentUserVal = rsaKey with
  | some u => exact ⟨u, rfl⟩
  | none =>
    exfalso
    rw [List.find?_eq_none] at hf
    have := hf v hv
    simp [CloudRsaKeySize, elems, h1, h2, h3] at this

/-- C16: with `Policy.KeyPair.KeyTypes = [k]` and `k` different from `RSA`,
or with `KeyTypes = ["RSA"]` and an `RsaKeySizes` list containing a value
outside 1024, 2048, 4096, the Backend-B validator returns an error, whatever
the other fields are. -/
theorem C16_cloud_rejects_key_pair (ps : PolicySpecification) (p : Policy) (k : KeyPair)
    (hp : ps.Policy = some p) (hk : p.KeyPair = some k)
    (h : (∃ kt, k.KeyTypes = some [kt] ∧ kt ≠ "RSA") ∨
      (k.KeyTypes = some ["RSA"] ∧
        ∃ v ∈ elems k.RsaKeySizes, v ≠ 1024 ∧ v ≠ 2048 ∧ v ≠ 4096)) :
    ∃ msg, ValidateCloudPolicySpecification ps = .error (.error msg) := by
  rw [ValidateCloudPolicySpecification_of_policy ps p hp]
  have hkp : ∃ msg, cloudValidateKeyPair p = .error (.error msg) := by
    unfold cloudValidateKeyPair
    rw [hk]
    rcases h with ⟨kt, hkt, hne⟩ | ⟨hkt, v, hv, h1, h2, h3⟩
    · refine ⟨"specified attribute keyTypes value is not supported on Venafi cloud", ?_⟩
      simp [hkt, len, index, elems, bind, Except.bind, hne, throw, throwThe,
        MonadExceptOf.throw]
    · obtain ⟨u, hu⟩ := getInvalidCloudRsaKeySizeValue_isSome k.RsaKeySizes v hv h1 h2 h3
      have hpos : len k.RsaKeySizes > 0 := by
        rcases hs : k.RsaKeySizes with _ | _ | ⟨a, t⟩
        · simp [hs, elems] at hv
        · simp [hs, elems] at hv
        · simp [len]
      refine ⟨"specified attribute key lenght value: " ++ Itoa u ++
        " is not supported on Venafi cloud", ?_⟩
      simp [hkt, len, index, elems, bind, Except.bind, throw, throwThe,
        MonadExceptOf.throw, hu]
      intro hz
      simp [len] at hpos
      omega
  obtain ⟨msg, hmsg⟩ := hkp
  rw [hmsg]
  exact ⟨msg, rfl⟩

theorem C16_cloud_rejects_key_pair_witness :
    (∃ msg, ValidateCloudPolicySpecification { Policy := some { KeyPair := some keyPairEcdsa } }
      = .error (.error msg)) ∧
    (∃ msg, ValidateCloudPolicySpecification
      { Policy := some { KeyPair := some keyPairRsaBadSize } } = .error (.error msg)) :=
  ⟨C16_cloud_rejects_key_pair { Policy := some { KeyPair := some keyPairEcdsa } }
      { KeyPair := some keyPairEcdsa } keyPairEcdsa rfl rfl
      (Or.inl ⟨"ECDSA", rfl, by decide⟩),
    C16_cloud_rejects_key_pair { Policy := some { KeyPair := some keyPairRsaBadSize } }
      { KeyPair := some keyPairRsaBadSize } keyPairRsaBadSize rfl rfl
      (Or.inr ⟨rfl, 3072, by decide, by decide, by decide, by decide⟩)⟩

/-- C17 (code defect): with `Policy.KeyPair.RsaKeySizes = [2048]` and
`KeyTypes` unset, the Backend-B validator does not report success:
`KeyTypes[0]` is read without a length test and the call panics. -/
theorem C17_cloud_unset_key_types_panics :
    ValidateCloudPolicySpecification specCloudSizesOnly = .error .indexOutOfRange := by
  decide

/-- C18 (code defect): `getSubjectAltNames` fills the `dnsAllowed` entry from
`UpnAllowed`.  With `DnsAllowed` true and `UpnAllowed` false the Backend-B
validator reports success, and with `UpnAllowed` unset it panics; in neither
case is the explicit `true` reported as an error. -/
theorem C18_cloud_dns_allowed_not_rejected :
    getSubjectAltNames { DnsAllowed := some true, UpnAllowed := some false }
      = .ok [("dnsAllowed", false), ("upnAllowed", false)] ∧
    ValidateCloudPolicySpecification specCloudDnsAllowedUpnProhibited = .ok () ∧
    ValidateCloudPolicySpecification specCloudDnsAllowed = .error .nilDereference := by
  decide

/-- C19 (code defect): with RSA sizes `[2048, 4096]` enforced and the default
size 2048, a member of the list, the Backend-B validator does not report
success: `existIntInArray` is called with the arguments swapped, so the check
fails unless every enforced size equals the default, and the error message
then dereferences the unset `Default.KeyPair.KeyType`.  With the one-element
list `[2048]` the same default passes. -/
theorem C19_cloud_default_size_in_longer_list :
    existIntInArray (some [2048, 4096]) (some [2048]) = false ∧
    ValidateCloudPolicySpecification specCloudTwoSizes = .error .nilDereference ∧
    ValidateCloudPolicySpecification specCloudOneSize = .ok () := by
  decide

/-- C20 (code defect): with an enforced org unit list that is not the
allow-all marker and a default org unit outside it, the Backend-B validator
panics when `Default.Subject.Org` is unset, because the error message of the
org unit check formats `*(ps.Default.Subject.Org)`; with the org set it
returns the error, naming the org. -/
theorem C20_cloud_org_unit_mismatch_needs_org :
    ValidateCloudPolicySpecification specCloudOrgUnitMismatch = .error .nilDereference ∧
    ValidateCloudPolicySpecification specCloudOrgUnitMismatchWithOrg
      = .error (.error
        "specified default org unit value: Acme  doesn't match with specified policy org unit") := by
  decide

/-! ## Lemmas on identifier parsing and `ConvertToRegex` -/

theorem splitChars_ne_nil (sep : Char) (l : List Char) : splitChars sep l ≠ [] := by
  cases l with
  | nil => simp [splitChars]
  | cons c cs =>
    unfold splitChars
    split
    · simp
    · split <;> simp

theorem splitChars_length (sep : Char) (l : List Char) :
    (splitChars sep l).length = l.count sep + 1 := by
  induction l with
  | nil => rfl
  | cons c cs ih =>
    unfold splitChars
    by_cases h : c = sep
    · subst h
      simp [ih]
    · have hne : (c == sep) = false := by simpa using h
      simp only [h, if_false, List.count_cons, hne]
      cases hs : splitChars sep cs with
      | nil => exact absurd hs (splitChars_ne_nil sep cs)
      | cons piece pieces =>
        rw [hs] at ih
        simpa using ih

/-- Joining the pieces with the separator gives the string back. -/
theorem splitChars_intercalate (sep : Char) (l : List Char) :
    List.intercalate [sep] (splitChars sep l) = l := by
  induction l with
  | nil => rfl
  | cons c cs ih =>
    unfold splitChars
    cases hs : splitChars sep cs with
    | nil => exact absurd hs (splitChars_ne_nil sep cs)
    | cons piece pieces =>
      rw [hs] at ih
      by_cases h : c = sep
      · subst h
        simp only [if_true]
        rw [← ih]
        simp [List.intercalate, List.intersperse]
      · simp only [h, if_false]
        rw [← ih]
        cases pieces <;> simp [List.intercalate, List.intersperse]

theorem stringsSplit_length (s : String) (sep : Char) :
    (stringsSplit s sep).length = s.data.count sep + 1 := by
  unfold stringsSplit
  rw [List.length_map, splitChars_length]

theorem foldl_append_singleton {α β : Type} (f : α → β) (l : List α) (init : List β) :
    l.foldl (fun acc x => acc ++ [f x]) init = init ++ l.map f := by
  induction l generalizing init with
  | nil => simp
  | cons a t ih => simp [ih]

theorem ConvertToRegex_eq (vs : Slice String) :
    ConvertToRegex vs = if elems vs = [] then none else some ((elems vs).map domainRegex) := by
  unfold ConvertToRegex
  have h := foldl_append_singleton domainRegex (elems vs) []
  unfold domainRegex at h
  simp only [h, List.nil_append]
  cases hl : elems vs with
  | nil => rfl
  | cons a t => simp [domainRegex]

/-- C21 (code defect): when `Policy` is absent, or present without
`CertificateAuthority`, `BuildCloudCitRequest` does not return an error: the
identifier is never parsed, `certAuth` stays nil and reading `certAuth.CAType`
panics. -/
theorem C21_cloud_request_without_ca_panics :
    BuildCloudCitRequest specCloudEmpty = .error .nilDereference ∧
    BuildCloudCitRequest specCloudNoCertAuth = .error .nilDereference := by
  decide

/-- C22: `GetCertAuthorityInfo` returns an error exactly when splitting the
string on the backslash gives fewer than 3 components, that is, when it holds
fewer than two backslashes; otherwise it returns the first three components
as CAType, CAAccountKey and VendorProductName.  In particular the identifier
`DIGICERT\accountkey\ProductX` is parsed and every two-component input
fails. -/
theorem C22_cert_authority_info (s : String) :
    ((∃ e, GetCertAuthorityInfo s = .error e) ↔ (stringsSplit s '\\').length < 3) ∧
    ((stringsSplit s '\\').length < 3 ↔ s.data.count '\\' < 2) ∧
    (∀ a b c rest, stringsSplit s '\\' = a :: b :: c :: rest →
      GetCertAuthorityInfo s
        = .ok { CAType := a, CAAccountKey := b, VendorProductName := c }) ∧
    ((stringsSplit s '\\').length = 2 → ∃ msg, GetCertAuthorityInfo s = .error (.error msg)) ∧
    GetCertAuthorityInfo "DIGICERT\\accountkey\\ProductX"
      = .ok { CAType := "DIGICERT", CAAccountKey := "accountkey",
              VendorProductName := "ProductX" } := by
  refine ⟨?_, ?_, ?_, ?_, by decide⟩
  · unfold GetCertAuthorityInfo
    rcases stringsSplit s '\\' with _ | ⟨a, _ | ⟨b, _ | ⟨c, rest⟩⟩⟩ <;> simp
  · rw [stringsSplit_length]
    omega
  · intro a b c rest h
    unfold GetCertAuthorityInfo
    rw [h]
  · unfold GetCertAuthorityInfo
    rcases stringsSplit s '\\' with _ | ⟨a, _ | ⟨b, _ | ⟨c, rest⟩⟩⟩
    · intro h
      simp at h
    · intro h
      simp at h
    · intro _
      exact ⟨_, rfl⟩
    · intro h
      simp at h

theorem C22_cert_authority_info_witness :
    ∃ msg, GetCertAuthorityInfo "DIGICERT\\accountkey" = .error (.error msg) :=
  (C22_cert_authority_info "DIGICERT\\accountkey").2.2.2.1 (by decide)

/-- C23: `ConvertToRegex` keeps length and order, its i-th element is the
prefix `.*\.` followed by the i-th value with every `.` replaced by `\.`,
`["example.com"]` gives `[".*\.example\.com"]`, and an empty list (nil or
not) gives nil. -/
theorem C23_convert_to_regex (vs : Slice String) :
    elems (ConvertToRegex vs) = (elems vs).map domainRegex ∧
    (elems (ConvertToRegex vs)).length = (elems vs).length ∧
    (∀ i : Nat, (elems (ConvertToRegex vs))[i]? = ((elems vs)[i]?).map domainRegex) ∧
    (elems vs = [] → ConvertToRegex vs = none) ∧
    ConvertToRegex (some ["example.com"]) = some [".*\\.example\\.com"] ∧
    domainRegex "example.com" = ".*\\.example\\.com" := by
  have h : elems (ConvertToRegex vs) = (elems vs).map domainRegex := by
    rw [ConvertToRegex_eq]
    cases hl : elems vs with
    | nil => rfl
    | cons a t => simp [elems]
  refine ⟨h, ?_, ?_, ?_, by decide, by decide⟩
  · rw [h, List.length_map]
  · intro i
    rw [h, List.getElem?_map]
  · intro he
    rw [ConvertToRegex_eq, if_pos he]

theorem C23_convert_to_regex_witness :
    ConvertToRegex (some []) = none :=
  (C23_convert_to_regex (some [])).2.2.2.1 rfl

/-! ## Lemmas on `BuildCloudCitRequest` -/

theorem BuildCloudCitRequest_ok (ps : PolicySpecification) (req : CloudPolicyRequest)
    (h : BuildCloudCitRequest ps = .ok req) :
    ∃ certAuth rs, cloudCertAuth ps = .ok certAuth ∧ cloudRecommendedSettings ps = .ok rs ∧
      req =
        { CertificateAuthority := certAuth.CAType
          Product :=
            { CertificateAuthority := certAuth.CAType
              ProductName := certAuth.VendorProductName
              ValidityPeriod := cloudValidityPeriod ps }
          SubjectCNRegexes := cloudDomainRegexes ps
          SanRegexes := cloudDomainRegexes ps
          SubjectORegexes := cloudSubjectList ps fun s => s.Orgs
          SubjectOURegexes := cloudSubjectList ps fun s => s.OrgUnits
          SubjectLRegexes := cloudSubjectList ps fun s => s.Localities
          SubjectSTRegexes := cloudSubjectList ps fun s => s.States
          SubjectCValues := cloudSubjectList ps fun s => s.Countries
          KeyTypes := some [cloudKeyTypes ps]
          KeyReuse := cloudKeyReuse ps
          RecommendedSettings := rs } := by
  unfold BuildCloudCitRequest at h
  cases hc : cloudCertAuth ps with
  | error e => simp [hc, bind, Except.bind] at h
  | ok certAuth =>
    cases hr : cloudRecommendedSettings ps with
    | error e => simp [hc, hr, bind, Except.bind] at h
    | ok rs =>
      simp only [hc, hr, bind, Except.bind, pure, Except.pure, Except.ok.injEq] at h
      exact ⟨certAuth, rs, rfl, rfl, h.symm⟩

theorem cloudCertAuth_wellFormed (ps : PolicySpecification) (p : Policy) (ca : String)
    (hp : ps.Policy = some p) (hca : p.CertificateAuthority = some ca)
    (hwf : 3 ≤ (stringsSplit ca '\\').length) :
    ∃ info, cloudCertAuth ps = .ok info := by
  unfold cloudCertAuth GetCertAuthorityInfo
  simp only [hp, Option.bind, hca]
  revert hwf
  rcases stringsSplit ca '\\' with _ | ⟨a, _ | ⟨b, _ | ⟨c, rest⟩⟩⟩
  · intro hwf
    simp at hwf
  · intro hwf
    simp at hwf
  · intro hwf
    simp at hwf
  · intro _
    exact ⟨_, rfl⟩

theorem cloudRecommendedSubject_total (ps : PolicySpecification)
    (h : ∀ d ds, ps.Default = some d → d.Subject = some ds → ds.OrgUnits ≠ some []) :
    ∃ r, cloudRecommendedSubject ps = .ok r := by
  unfold cloudRecommendedSubject defaultSubject?
  cases hd : ps.Default with
  | none => exact ⟨_, rfl⟩
  | some d =>
    cases hds : d.Subject with
    | none =>
      simp only [hds]
      exact ⟨_, rfl⟩
    | some ds =>
      have hne := h d ds hd hds
      simp only [hds]
      rcases hou : ds.OrgUnits with _ | _ | ⟨a, t⟩
      · exact ⟨_, rfl⟩
      · exact absurd hou hne
      · exact ⟨_, rfl⟩

theorem cloudRecommendedSettings_total (ps : PolicySpecification)
    (h : ∀ d ds, ps.Default = some d → d.Subject = some ds → ds.OrgUnits ≠ some []) :
    ∃ rs, cloudRecommendedSettings ps = .ok rs := by
  obtain ⟨r, hr⟩ := cloudRecommendedSubject_total ps h
  unfold cloudRecommendedSettings
  rw [hr]
  simp only [bind, Except.bind]
  split <;> exact ⟨_, rfl⟩

theorem BuildCloudCitRequest_total (ps : PolicySpecification) (p : Policy) (ca : String)
    (hp : ps.Policy = some p) (hca : p.CertificateAuthority = some ca)
    (hwf : 3 ≤ (stringsSplit ca '\\').length)
    (h : ∀ d ds, ps.Default = some d → d.Subject = some ds → ds.OrgUnits ≠ some []) :
    ∃ req, BuildCloudCitRequest ps = .ok req := by
  obtain ⟨info, hi⟩ := cloudCertAuth_wellFormed ps p ca hp hca hwf
  obtain ⟨rs, hrs⟩ := cloudRecommendedSettings_total ps h
  unfold BuildCloudCitRequest
  rw [hi, hrs]
  exact ⟨_, rfl⟩

theorem cloudSubjectList_eq (ps : PolicySpecification) (p : Policy) (hp : ps.Policy = some p)
    (f : Subject → Slice String) :
    cloudSubjectList ps f = listOrAny (p.Subject.bind f) := by
  unfold cloudSubjectList policySubject? listOrAny
  rw [hp]
  cases hs : p.Subject with
  | none =>
    simp only [hs]
    rfl
  | some s =>
    simp only [hs, Option.bind]
    rcases hf : f s with _ | _ | ⟨a, t⟩ <;> simp [len, elems]

/-- For a specification with a well-formed CA identifier, every request
`BuildCloudCitRequest` returns has `SubjectCNRegexes = SanRegexes = [".*"]`
when `Policy.Domains` is empty and `ConvertToRegex(Policy.Domains)`
otherwise, and each of the O, OU, L, ST, C lists is the matching
`Policy.Subject` list unmodified when not empty and `[".*"]` otherwise.  A
request is returned when `Default.Subject.OrgUnits` is not an empty list that
is not nil. -/
theorem BuildCloudCitRequest_regex_lists (ps : PolicySpecification) (p : Policy) (ca : String)
    (hp : ps.Policy = some p) (hca : p.CertificateAuthority = some ca)
    (hwf : 3 ≤ (stringsSplit ca '\\').length) :
    (∀ req, BuildCloudCitRequest ps = .ok req →
      (elems p.Domains = [] →
        req.SubjectCNRegexes = some [".*"] ∧ req.SanRegexes = some [".*"]) ∧
      (elems p.Domains ≠ [] →
        req.SubjectCNRegexes = ConvertToRegex p.Domains ∧
        req.SanRegexes = ConvertToRegex p.Domains) ∧
      req.SubjectORegexes = listOrAny (p.Subject.bind fun s => s.Orgs) ∧
      req.SubjectOURegexes = listOrAny (p.Subject.bind fun s => s.OrgUnits) ∧
      req.SubjectLRegexes = listOrAny (p.Subject.bind fun s => s.Localities) ∧
      req.SubjectSTRegexes = listOrAny (p.Subject.bind fun s => s.States) ∧
      req.SubjectCValues = listOrAny (p.Subject.bind fun s => s.Countries)) ∧
    ((∀ d ds, ps.Default = some d → d.Subject = some ds → ds.OrgUnits ≠ some []) →
      ∃ req, BuildCloudCitRequest ps = .ok req) := by
  refine ⟨?_, BuildCloudCitRequest_total ps p ca hp hca hwf⟩
  intro req h
  obtain ⟨certAuth, rs, _, _, hreq⟩ := BuildCloudCitRequest_ok ps req h
  subst hreq
  have hdom : cloudDomainRegexes ps
      = if elems p.Domains = [] then some [".*"] else ConvertToRegex p.Domains := by
    unfold cloudDomainRegexes
    rw [hp]
    rcases hdm : p.Domains with _ | _ | ⟨a, t⟩ <;> simp [hdm, len, elems]
  refine ⟨?_, ?_, cloudSubjectList_eq ps p hp _, cloudSubjectList_eq ps p hp _,
    cloudSubjectList_eq ps p hp _, cloudSubjectList_eq ps p hp _, cloudSubjectList_eq ps p hp _⟩
  · intro he
    simp only [hdom, he, if_true, and_self]
  · intro hne
    simp only [hdom, hne, if_false, and_self]

/-- C24 (code defect): with a well-formed CA identifier and
`Default.Subject.OrgUnits` an empty list that is not nil, a specification the
Backend-B validator accepts, `BuildCloudCitRequest` sets no regex list: line
964 reads `OrgUnits[0]` after a nil test only and the call panics.  With
`OrgUnits` nil the same specification gives the request with the regexes of
`Policy.Domains`. -/
theorem C24_cloud_empty_default_org_units_panics :
    ValidateCloudPolicySpecification specCloudEmptyDefaultOrgUnits = .ok () ∧
    BuildCloudCitRequest specCloudEmptyDefaultOrgUnits = .error .indexOutOfRange ∧
    (BuildCloudCitRequest specCloudNilDefaultOrgUnits).map (fun req => req.SubjectCNRegexes)
      = .ok (some [".*\\.example\\.com"]) ∧
    (BuildCloudCitRequest specCloudNilDefaultOrgUnits).map (fun req => req.SanRegexes)
      = .ok (some [".*\\.example\\.com"]) := by
  decide

theorem cloudRecommendedSubject_flag (ps : PolicySpecification) (r : RecommendedSettings)
    (flag : Bool) (h : cloudRecommendedSubject ps = .ok (r, flag)) :
    flag = true ↔ ∃ ds, defaultSubjectOf ps = some ds ∧
      (ds.Org.isSome = true ∨ ds.OrgUnits.isSome = true ∨ ds.Locality.isSome = true ∨
        ds.State.isSome = true ∨ ds.Country.isSome = true) := by
  have hds : defaultSubject? ps = defaultSubjectOf ps := by
    unfold defaultSubject? defaultSubjectOf
    cases ps.Default <;> rfl
  unfold cloudRecommendedSubject at h
  rw [hds] at h
  cases hd : defaultSubjectOf ps with
  | none =>
    simp only [hd, pure, Except.pure, Except.ok.injEq, Prod.mk.injEq] at h
    simp [← h.2]
  | some ds =>
    simp only [hd] at h
    rcases hou : ds.OrgUnits with _ | _ | ⟨a, t⟩
    · simp only [hou, bind, Except.bind, pure, Except.pure, Except.ok.injEq, Prod.mk.injEq] at h
      simp [← h.2, hou, or_assoc]
    · simp [hou, index, elems, bind, Except.bind] at h
    · simp only [hou, index, elems, List.get?, bind, Except.bind, pure, Except.pure,
        Except.ok.injEq, Prod.mk.injEq] at h
      simp [← h.2, hou, or_assoc]

theorem cloudRecommendedKey_isSome (ps : PolicySpecification) :
    (cloudRecommendedKey ps).isSome = true ↔
      ∃ dk, defaultKeyPairOf ps = some dk ∧ dk.KeyType.isSome = true := by
  have hdk : defaultKeyPair? ps = defaultKeyPairOf ps := by
    unfold defaultKeyPair? defaultKeyPairOf
    cases ps.Default <;> rfl
  unfold cloudRecommendedKey
  rw [hdk]
  cases hd : defaultKeyPairOf ps with
  | none => simp
  | some dk =>
    cases hk : dk.KeyType <;> simp [hk]

theorem cloudRecommendedSettings_ok (ps : PolicySpecification) (rs : Option RecommendedSettings)
    (h : cloudRecommendedSettings ps = .ok rs) :
    (rs.isSome = true ↔
      (∃ ds, defaultSubjectOf ps = some ds ∧
        (ds.Org.isSome = true ∨ ds.OrgUnits.isSome = true ∨ ds.Locality.isSome = true ∨
          ds.State.isSome = true ∨ ds.Country.isSome = true)) ∨
      (∃ dk, defaultKeyPairOf ps = some dk ∧ dk.KeyType.isSome = true)) ∧
    (∀ r, rs = some r → r.KeyReuse = some false) := by
  unfold cloudRecommendedSettings at h
  cases hs : cloudRecommendedSubject ps with
  | error e => simp [hs, bind, Except.bind] at h
  | ok pair =>
    obtain ⟨r0, flag⟩ := pair
    have hflag := cloudRecommendedSubject_flag ps r0 flag hs
    have hkey := cloudRecommendedKey_isSome ps
    simp only [hs, bind, Except.bind] at h
    by_cases hc : ((cloudRecommendedKey ps).isSome || flag) = true
    · simp only [hc, if_true, pure, Except.pure, Except.ok.injEq] at h
      subst h
      refine ⟨?_, ?_⟩
      · simp only [Option.isSome_some, true_iff]
        rw [Bool.or_eq_true] at hc
        rcases hc with hc | hc
        · exact Or.inr (hkey.mp hc)
        · exact Or.inl (hflag.mp hc)
      · intro r hr
        cases hr
        rfl
    · have hcf : ((cloudRecommendedKey ps).isSome || flag) = false := by
        simpa using hc
      simp only [hcf, Bool.false_eq_true, if_false, pure, Except.pure, Except.ok.injEq] at h
      subst h
      refine ⟨?_, by intro r hr; cases hr⟩
      simp only [Option.isSome_none, Bool.false_eq_true, false_iff]
      rw [Bool.or_eq_true, not_or] at hc
      rintro (hx | hx)
      · exact hc.2 (hflag.mpr hx)
      · exact hc.1 (hkey.mpr hx)

/-- C25 (counterexample): with a well-formed CA identifier and only
`Default.KeyPair.RsaKeySize` set, `BuildCloudCitRequest` returns a request
without `RecommendedSettings`. -/
theorem C25_default_size_alone_not_recommended :
    BuildCloudCitRequest specCloudDefaultSizeOnly = .ok requestDefaultSizeOnly ∧
    defaultKeySize specCloudDefaultSizeOnly = some 4096 ∧
    requestDefaultSizeOnly.RecommendedSettings = none := by
  decide

/-- C25 (amended): on every specification for which `BuildCloudCitRequest`
returns a request, `RecommendedSettings` is present if and only if a field
of `Default.Subject` (Org, OrgUnits, Locality, State, Country) or
`Default.KeyPair.KeyType` is set; and whenever it is present its `KeyReuse`
is false, whatever the enforced `KeyReuse` is. -/
theorem C25_recommended_settings_presence (ps : PolicySpecification) (req : CloudPolicyRequest)
    (h : BuildCloudCitRequest ps = .ok req) :
    (req.RecommendedSettings.isSome = true ↔
      (∃ ds, defaultSubjectOf ps = some ds ∧
        (ds.Org.isSome = true ∨ ds.OrgUnits.isSome = true ∨ ds.Locality.isSome = true ∨
          ds.State.isSome = true ∨ ds.Country.isSome = true)) ∨
      (∃ dk, defaultKeyPairOf ps = some dk ∧ dk.KeyType.isSome = true)) ∧
    (∀ r, req.RecommendedSettings = some r → r.KeyReuse = some false) := by
  obtain ⟨certAuth, rs, _, hrs, hreq⟩ := BuildCloudCitRequest_ok ps req h
  subst hreq
  exact cloudRecommendedSettings_ok ps rs hrs

theorem C25_recommended_settings_presence_witness :
    requestFull.KeyReuse = some true ∧
    (∀ r, requestFull.RecommendedSettings = some r → r.KeyReuse = some false) :=
  ⟨by decide, (C25_recommended_settings_presence specCloudFull requestFull (by decide)).2⟩

theorem cloudKeyTypes_keyType (ps : PolicySpecification) :
    (cloudKeyTypes ps).KeyType = ((elems (enforcedKeyTypes ps)).head?).getD "RSA" := by
  unfold cloudKeyTypes policyKeyPair? enforcedKeyTypes
  rcases ps.Policy with _ | p
  · rfl
  · rcases hk : p.KeyPair with _ | k
    · simp [hk, elems]
    · rcases hkt : k.KeyTypes with _ | _ | ⟨a, t⟩ <;> simp [hk, hkt, elems]

theorem cloudKeyTypes_keyLengths (ps : PolicySpecification) :
    (elems (enforcedKeySizes ps) ≠ [] → (cloudKeyTypes ps).KeyLengths = enforcedKeySizes ps) ∧
    (elems (enforcedKeySizes ps) = [] →
      (cloudKeyTypes ps).KeyLengths = some [(defaultKeySize ps).getD 2048]) := by
  have hdk : ((defaultKeyPair? ps).bind fun dk => dk.RsaKeySize) = defaultKeySize ps := by
    unfold defaultKeyPair? defaultKeySize
    cases ps.Default <;> rfl
  unfold cloudKeyTypes
  simp only [hdk]
  unfold policyKeyPair? enforcedKeySizes
  rcases ps.Policy with _ | p
  · cases defaultKeySize ps <;> simp [elems]
  · rcases hk : p.KeyPair with _ | k
    · cases defaultKeySize ps <;> simp [hk, elems]
    · rcases hsz : k.RsaKeySizes with _ | _ | ⟨a, t⟩ <;> cases defaultKeySize ps <;>
        simp [hk, hsz, elems, len]

theorem cloudKeyReuse_eq (ps : PolicySpecification) :
    cloudKeyReuse ps = some ((policyReuseAllowed ps).getD false) := by
  unfold cloudKeyReuse policyKeyPair? policyReuseAllowed
  rcases ps.Policy with _ | p
  · rfl
  · rcases hk : p.KeyPair with _ | k
    · simp [hk]
    · cases hr : k.ReuseAllowed <;> simp [hk, hr]

theorem cloudValidityPeriod_eq (ps : PolicySpecification) :
    cloudValidityPeriod ps
      = "P" ++ Itoa ((ps.Policy.bind fun p => p.MaxValidDays).getD 0) ++ "D" := by
  unfold cloudValidityPeriod
  cases (ps.Policy.bind fun p => p.MaxValidDays) <;> rfl

/-- For a specification with a well-formed CA identifier, every request
`BuildCloudCitRequest` returns has exactly one `KeyTypes` entry, whose type
is the first `Policy.KeyPair.KeyTypes` value when there is one and `RSA`
otherwise, and whose lengths are `Policy.KeyPair.RsaKeySizes` when not empty,
else the one-element list of `Default.KeyPair.RsaKeySize` when set, else
`[2048]`; `KeyReuse` is `Policy.KeyPair.ReuseAllowed` when set and false
otherwise; `Product.ValidityPeriod` is `P`, the decimal `MaxValidDays` (0
when unset) and `D`.  A request is returned when `Default.Subject.OrgUnits`
is not an empty list that is not nil. -/
theorem BuildCloudCitRequest_key_types (ps : PolicySpecification) (p : Policy) (ca : String)
    (hp : ps.Policy = some p) (hca : p.CertificateAuthority = some ca)
    (hwf : 3 ≤ (stringsSplit ca '\\').length) :
    (∀ req, BuildCloudCitRequest ps = .ok req →
      (∃ kt, req.KeyTypes = some [kt] ∧
        kt.KeyType = ((elems (enforcedKeyTypes ps)).head?).getD "RSA" ∧
        (elems (enforcedKeySizes ps) ≠ [] → kt.KeyLengths = enforcedKeySizes ps) ∧
        (elems (enforcedKeySizes ps) = [] →
          kt.KeyLengths = some [(defaultKeySize ps).getD 2048])) ∧
      req.KeyReuse = some ((policyReuseAllowed ps).getD false) ∧
      req.Product.ValidityPeriod = "P" ++ Itoa (p.MaxValidDays.getD 0) ++ "D") ∧
    ((∀ d ds, ps.Default = some d → d.Subject = some ds → ds.OrgUnits ≠ some []) →
      ∃ req, BuildCloudCitRequest ps = .ok req) := by
  refine ⟨?_, BuildCloudCitRequest_total ps p ca hp hca hwf⟩
  intro req h
  obtain ⟨certAuth, rs, _, _, hreq⟩ := BuildCloudCitRequest_ok ps req h
  subst hreq
  refine ⟨⟨cloudKeyTypes ps, rfl, cloudKeyTypes_keyType ps, (cloudKeyTypes_keyLengths ps).1,
    (cloudKeyTypes_keyLengths ps).2⟩, cloudKeyReuse_eq ps, ?_⟩
  have hv := cloudValidityPeriod_eq ps
  rw [hp] at hv
  exact hv

/-- C26 (code defect): with a well-formed CA identifier, an enforced key
pair and `Default.Subject.OrgUnits` an empty list that is not nil, a
specification the Backend-B validator accepts, `BuildCloudCitRequest` returns
no request, hence no `KeyTypes` entry, `KeyReuse` or validity period: line 964
reads `OrgUnits[0]` after a nil test only and the call panics.  With
`OrgUnits` nil the same specification gives the one `KeyTypes` entry, the
reuse flag and the period of the claim. -/
theorem C26_cloud_key_types_lost_to_panic :
    ValidateCloudPolicySpecification specCloudKeyPairEmptyDefaultOrgUnits = .ok () ∧
    BuildCloudCitRequest specCloudKeyPairEmptyDefaultOrgUnits = .error .indexOutOfRange ∧
    (BuildCloudCitRequest specCloudKeyPairNilDefaultOrgUnits).map (fun req => req.KeyTypes)
      = .ok (some [{ KeyType := "RSA", KeyLengths := some [2048] }]) ∧
    (BuildCloudCitRequest specCloudKeyPairNilDefaultOrgUnits).map (fun req => req.KeyReuse)
      = .ok (some true) ∧
    (BuildCloudCitRequest specCloudKeyPairNilDefaultOrgUnits).map
        (fun req => req.Product.ValidityPeriod)
      = .ok "P90D" := by
  decide

/-! ## Presence of the containers built by the reverse translation -/

theorem lockedList_eq_none (a : Option LockedAttribute) (h : lockedList a = none) :
    isLocked a = false := by
  rcases a with _ | ⟨v, _ | _⟩ <;> simp_all [lockedList, isLocked]

theorem lockedValue_eq_none (a : Option LockedAttribute) (h : lockedValue a = none) :
    isLocked a = false := by
  rcases a with _ | ⟨v, _ | _⟩ <;> simp_all [lockedValue, isLocked]

theorem unlockedList_eq_none (a : Option LockedAttribute) (h : unlockedList a = none) :
    isUnlocked a = false := by
  rcases a with _ | ⟨v, _ | _⟩ <;> simp_all [unlockedList, isUnlocked]

theorem unlockedValue_eq_none (a : Option LockedAttribute) (h : unlockedValue a = none) :
    isUnlocked a = false := by
  rcases a with _ | ⟨v, _ | _⟩ <;> simp_all [unlockedValue, isUnlocked]

theorem resolveRsaKeySize_isSome (t : TppPolicy) (i : Option Int)
    (h : resolveRsaKeySize t = .ok i) : i.isSome = t.KeyBitStrength.isSome := by
  have h2 := resolveRsaKeySize_ok t i h
  rcases hk : t.KeyBitStrength with _ | x
  · simp only [hk] at h2
    rw [h2]
    rfl
  · simp only [hk] at h2
    obtain ⟨n, _, hn⟩ := h2
    rw [hn]
    rfl

theorem resolveReuseAllowed_isSome (t : TppPolicy) (r : Option Bool)
    (h : resolveReuseAllowed t = .ok r) :
    r.isSome = (t.AllowPrivateKeyReuse.isSome || t.WantRenewal.isSome) := by
  unfold resolveReuseAllowed at h
  rcases ha : t.AllowPrivateKeyReuse with _ | a
  · rcases hw : t.WantRenewal with _ | v
    · simp only [ha, hw, pure, Except.pure, Except.ok.injEq] at h
      rw [← h]
      rfl
    · simp only [ha, hw] at h
      cases hb : getBooleanValueFromInt v with
      | error e => simp [hb, bind, Except.bind] at h
      | ok b =>
        simp only [hb, bind, Except.bind, pure, Except.pure, Except.ok.injEq] at h
        rw [← h]
        rfl
  · simp only [ha] at h
    cases hb : getBooleanValueFromInt a with
    | error e => simp [hb, bind, Except.bind] at h
    | ok b =>
      simp only [hb, bind, Except.bind, pure, Except.pure, Except.ok.injEq] at h
      rw [← h]
      rfl

theorem resolvedSubject_ne_empty (t : TppPolicy) (h : shouldCreateSubject t = true) :
    resolvedSubject t ≠ {} := by
  intro he
  have h1 := lockedList_eq_none _ (congrArg Subject.Orgs he)
  have h2 := lockedList_eq_none _ (congrArg Subject.OrgUnits he)
  have h3 := lockedList_eq_none _ (congrArg Subject.Localities he)
  have h4 := lockedList_eq_none _ (congrArg Subject.States he)
  have h5 := lockedList_eq_none _ (congrArg Subject.Countries he)
  simp only [resolvedSubject] at h1 h2 h3 h4 h5
  simp [shouldCreateSubject, h1, h2, h3, h4, h5] at h

theorem resolvedDefaultSubject_ne_empty (t : TppPolicy) (h : shouldCreateDefSubject t = true) :
    resolvedDefaultSubject t ≠ {} := by
  intro he
  have h1 := unlockedValue_eq_none _ (congrArg DefaultSubject.Org he)
  have h2 := unlockedList_eq_none _ (congrArg DefaultSubject.OrgUnits he)
  have h3 := unlockedValue_eq_none _ (congrArg DefaultSubject.Locality he)
  have h4 := unlockedValue_eq_none _ (congrArg DefaultSubject.State he)
  have h5 := unlockedValue_eq_none _ (congrArg DefaultSubject.Country he)
  simp only [resolvedDefaultSubject] at h1 h2 h3 h4 h5
  simp [shouldCreateDefSubject, h1, h2, h3, h4, h5] at h

theorem resolvedKeyPair_ne_empty (t : TppPolicy) (i : Option Int) (r : Option Bool)
    (hi : resolveRsaKeySize t = .ok i) (hr : resolveReuseAllowed t = .ok r)
    (h : shouldCreateKeyPair t = true) : resolvedKeyPair t i r ≠ {} := by
  intro he
  have h1 := lockedList_eq_none _ (congrArg KeyPair.KeyTypes he)
  have h2 : isLocked t.KeyBitStrength = false := by
    have hs := congrArg KeyPair.RsaKeySizes he
    have hi2 := resolveRsaKeySize_isSome t i hi
    simp only [resolvedKeyPair] at hs
    rcases hk : t.KeyBitStrength with _ | ⟨v, _ | _⟩
    · rfl
    · rfl
    · rw [hk] at hs hi2
      rcases i with _ | n
      · simp at hi2
      · simp [isLocked] at hs
  have h3 := lockedList_eq_none _ (congrArg KeyPair.EllipticCurves he)
  have h4 := lockedValue_eq_none _ (congrArg KeyPair.GenerationType he)
  have h5 : (t.AllowPrivateKeyReuse.isSome || t.WantRenewal.isSome) = false := by
    rw [← resolveReuseAllowed_isSome t r hr]
    have hs : r = none := congrArg KeyPair.ReuseAllowed he
    rw [hs]
    rfl
  simp only [resolvedKeyPair] at h1 h3 h4
  simp only [Bool.or_eq_false_iff] at h5
  simp [shouldCreateKeyPair, h1, h2, h3, h4, h5.1, h5.2] at h

theorem resolvedDefaultKeyPair_ne_empty (t : TppPolicy) (i : Option Int)
    (hi : resolveRsaKeySize t = .ok i)
    (h : shouldCreateDefKeyPair t = true) : resolvedDefaultKeyPair t i ≠ {} := by
  intro he
  have h1 := unlockedValue_eq_none _ (congrArg DefaultKeyPair.KeyType he)
  have h2 : isUnlocked t.KeyBitStrength = false := by
    have hs := congrArg DefaultKeyPair.RsaKeySize he
    have hi2 := resolveRsaKeySize_isSome t i hi
    simp only [resolvedDefaultKeyPair] at hs
    rcases hk : t.KeyBitStrength with _ | ⟨v, _ | _⟩
    · rfl
    · rw [hk] at hs hi2
      rcases i with _ | n
      · simp at hi2
      · simp [isUnlocked] at hs
    · rfl
  have h3 := unlockedValue_eq_none _ (congrArg DefaultKeyPair.EllipticCurve he)
  have h4 := unlockedValue_eq_none _ (congrArg DefaultKeyPair.GenerationType he)
  simp only [resolvedDefaultKeyPair] at h1 h3 h4
  simp [shouldCreateDefKeyPair, h1, h2, h3, h4] at h

theorem resolveSubjectAltNames_ne_empty (l : Slice String) :
    resolveSubjectAltNames l ≠ some {} := by
  rcases l with _ | l
  · simp [resolveSubjectAltNames]
  · rw [resolveSubjectAltNames_some]
    intro he
    have := congrArg (fun o => o.bind fun s => s.DnsAllowed) he
    simp [sanFromProhibited] at this

theorem resolveSubjectAltNames_isSome (l : Slice String) :
    (resolveSubjectAltNames l).isSome = l.isSome := by
  rcases l with _ | l <;> rfl

/-- C27: when `BuildPolicySpecificationForTPP` succeeds, the result has a
`Policy` exactly when it has a `Policy.Subject`, a `Policy.KeyPair` or a
`Policy.SubjectAltNames`, and a `Default` exactly when it has a
`Default.Subject` or a `Default.KeyPair`; `Policy.Subject` and
`Policy.KeyPair` are present exactly when a locked attribute (or, for the
key pair, a reuse flag) of the document fed them, `Default.Subject` and
`Default.KeyPair` exactly when an unlocked attribute did; and none of the
six containers is present with every field unset. -/
theorem C27_containers_present_iff_fed (t : TppPolicy) (ps : PolicySpecification)
    (h : BuildPolicySpecificationForTPP t = .ok ps) :
    (ps.Policy.isSome = true ↔
      ((policySubject? ps).isSome = true ∨ (policyKeyPair? ps).isSome = true ∨
        (ps.Policy.bind fun p => p.SubjectAltNames).isSome = true)) ∧
    (ps.Default.isSome = true ↔
      ((defaultSubject? ps).isSome = true ∨ (defaultKeyPair? ps).isSome = true)) ∧
    ((policySubject? ps).isSome = true ↔
      (isLocked t.Organization = true ∨ isLocked t.OrganizationalUnit = true ∨
        isLocked t.City = true ∨ isLocked t.State = true ∨ isLocked t.Country = true)) ∧
    ((policyKeyPair? ps).isSome = true ↔
      (isLocked t.KeyAlgorithm = true ∨ isLocked t.KeyBitStrength = true ∨
        isLocked t.EllipticCurve = true ∨ isLocked t.ManualCsr = true ∨
        t.AllowPrivateKeyReuse.isSome = true ∨ t.WantRenewal.isSome = true)) ∧
    ((defaultSubject? ps).isSome = true ↔
      (isUnlocked t.Organization = true ∨ isUnlocked t.OrganizationalUnit = true ∨
        isUnlocked t.City = true ∨ isUnlocked t.State = true ∨ isUnlocked t.Country = true)) ∧
    ((defaultKeyPair? ps).isSome = true ↔
      (isUnlocked t.KeyAlgorithm = true ∨ isUnlocked t.KeyBitStrength = true ∨
        isUnlocked t.EllipticCurve = true ∨ isUnlocked t.ManualCsr = true)) ∧
    policySubject? ps ≠ some {} ∧ policyKeyPair? ps ≠ some {} ∧
    (ps.Policy.bind fun p => p.SubjectAltNames) ≠ some {} ∧
    defaultSubject? ps ≠ some {} ∧ defaultKeyPair? ps ≠ some {} ∧
    ps.Policy ≠ some {} ∧ ps.Default ≠ some {} := by
  obtain ⟨w, i, r, _, hi, hr, hps⟩ := BuildPolicySpecificationForTPP_ok t ps h
  subst hps
  have hS : shouldCreateSubject t = true ↔
      (isLocked t.Organization = true ∨ isLocked t.OrganizationalUnit = true ∨
        isLocked t.City = true ∨ isLocked t.State = true ∨ isLocked t.Country = true) := by
    simp only [shouldCreateSubject, Bool.or_eq_true, or_assoc]
  have hK : shouldCreateKeyPair t = true ↔
      (isLocked t.KeyAlgorithm = true ∨ isLocked t.KeyBitStrength = true ∨
        isLocked t.EllipticCurve = true ∨ isLocked t.ManualCsr = true ∨
        t.AllowPrivateKeyReuse.isSome = true ∨ t.WantRenewal.isSome = true) := by
    simp only [shouldCreateKeyPair, Bool.or_eq_true, or_assoc]
  have hDS : shouldCreateDefSubject t = true ↔
      (isUnlocked t.Organization = true ∨ isUnlocked t.OrganizationalUnit = true ∨
        isUnlocked t.City = true ∨ isUnlocked t.State = true ∨ isUnlocked t.Country = true) := by
    simp only [shouldCreateDefSubject, Bool.or_eq_true, or_assoc]
  have hDK : shouldCreateDefKeyPair t = true ↔
      (isUnlocked t.KeyAlgorithm = true ∨ isUnlocked t.KeyBitStrength = true ∨
        isUnlocked t.EllipticCurve = true ∨ isUnlocked t.ManualCsr = true) := by
    simp only [shouldCreateDefKeyPair, Bool.or_eq_true, or_assoc]
  rw [← hS, ← hK, ← hDS, ← hDK]
  have hs := resolvedSubject_ne_empty t
  have hk := resolvedKeyPair_ne_empty t i r hi hr
  have hds := resolvedDefaultSubject_ne_empty t
  have hdk := resolvedDefaultKeyPair_ne_empty t i hi
  have hsan := resolveSubjectAltNames_ne_empty t.ProhibitedSANType
  rw [assembleSpecification_eq]
  simp only [policySubject?, policyKeyPair?, defaultSubject?, defaultKeyPair?]
  generalize resolvedSubject t = vs at hs ⊢
  generalize resolvedKeyPair t i r = vk at hk ⊢
  generalize resolvedDefaultSubject t = vds at hds ⊢
  generalize resolvedDefaultKeyPair t i = vdk at hdk ⊢
  generalize resolveSubjectAltNames t.ProhibitedSANType = san at hsan ⊢
  generalize shouldCreateSubject t = bs at hs ⊢
  generalize shouldCreateKeyPair t = bk at hk ⊢
  generalize shouldCreateDefSubject t = bds at hds ⊢
  generalize shouldCreateDefKeyPair t = bdk at hdk ⊢
  rcases san with _ | sa <;> cases bs <;> cases bk <;> cases bds <;> cases bdk <;>
    simp_all

theorem C27_containers_present_iff_fed_witness :
    BuildPolicySpecificationForTPP docMixedLocks = .ok backMixedLocks ∧
    (backMixedLocks.Policy.isSome = true ↔
      ((policySubject? backMixedLocks).isSome = true ∨
        (policyKeyPair? backMixedLocks).isSome = true ∨
        (backMixedLocks.Policy.bind fun p => p.SubjectAltNames).isSome = true)) :=
  ⟨by decide,
    (C27_containers_present_iff_fed docMixedLocks backMixedLocks (by decide)).1⟩

/-! ## The set-membership utilities -/

/-- C28: `existStringInArray values allowedSet` is true exactly when every
element of `values` occurs in `allowedSet`, by exact, case-sensitive
equality, and is true for the nil and the empty `values` whatever
`allowedSet` is; the same holds for `existIntInArray` over integers. -/
theorem C28_exist_in_array (values allowedSet : Slice String)
    (intValues intAllowedSet : Slice Int) :
    (existStringInArray values allowedSet = true ↔
      ∀ x, x ∈ elems values → x ∈ elems allowedSet) ∧
    existStringInArray none allowedSet = true ∧
    existStringInArray (some []) allowedSet = true ∧
    existStringInArray (some ["rsa"]) (some ["RSA"]) = false ∧
    (existIntInArray intValues intAllowedSet = true ↔
      ∀ x, x ∈ elems intValues → x ∈ elems intAllowedSet) ∧
    existIntInArray none intAllowedSet = true ∧
    existIntInArray (some []) intAllowedSet = true :=
  ⟨existStringInArray_iff values allowedSet, rfl, rfl, by decide,
    existIntInArray_iff intValues intAllowedSet, rfl, rfl⟩

theorem C28_exist_in_array_witness :
    (existStringInArray (some ["RSA", "RSA"]) TppKeyType = true ↔
      ∀ x, x ∈ elems (some ["RSA", "RSA"]) → x ∈ elems TppKeyType) ∧
    existStringInArray (some ["RSA", "RSA"]) TppKeyType = true ∧
    existIntInArray (some [2048, 8192]) TppRsaKeySize = false :=
  ⟨(C28_exist_in_array (some ["RSA", "RSA"]) TppKeyType (some [2048, 8192]) TppRsaKeySize).1,
    by decide, by decide⟩

end Vcert
